import Mathlib

/-! # Disk-image lifecycle engine of `deployer`

A shallow embedding of the image engines of the repository

* `src/builder/image/image.go` (three bootloaders, format conversion), namespace `BuilderImage`;
* `src/builder/common/image/image.go` (one bootloader), namespace `CommonImage`;

followed by theorems about them.

Conventions of the embedding.

* The engine talks to the host through the injected function `run`.  It is
  modelled by `Env.run`, which may answer differently depending on the
  commands issued so far; every command issued is appended to `Sys.trace`.
* A Go method with a pointer receiver becomes a function `Sys → result × Sys`:
  the state it leaves behind is returned on every path, errors included.
* A run-time panic of Go (slice index out of range) is the result `Res.fault`.
* Go `int` is a 64-bit two's-complement integer: arithmetic that can leave
  the range is wrapped by `wrapInt`.  Go `uint8` is a natural number below 256.
* A loop whose termination is not structural takes a fuel argument and
  returns `none` when the fuel is exhausted.
-/

namespace Deployer

/-! ## Go runtime helpers -/

/-- Two's-complement wrap-around of Go's 64-bit `int`. -/
def wrapInt (x : Int) : Int :=
  (x + 9223372036854775808) % 18446744073709551616 - 9223372036854775808

/-- The value of `n - 1` for a Go `uint8`. -/
def decU8 (n : Nat) : Nat := (n + 255) % 256

/-- The value of `n + 1` for a Go `uint8`. -/
def incU8 (n : Nat) : Nat := (n + 1) % 256

/-- Go `fmt.Sprintf("%d", x)`. -/
def fmtD (x : Int) : String := toString x

/-- Does `p` start the list `l`? -/
def startsWith : List Char → List Char → Bool
  | [], _ => true
  | _ :: _, [] => false
  | a :: p, b :: l => a == b && startsWith p l

/-- Worker of `splitAfter`: `skip` counts the characters of a matched
separator still to be copied into the current piece, `acc` is the current
piece reversed. -/
def splitAfterGo (sep : List Char) : Nat → List Char → List Char → List (List Char)
  | _, acc, [] => [acc.reverse]
  | skip, acc, c :: cs =>
    let k := if skip = 0 ∧ startsWith sep (c :: cs) = true then sep.length else skip
    if k = 0 then splitAfterGo sep 0 (c :: acc) cs
    else if k = 1 then (c :: acc).reverse :: splitAfterGo sep 0 [] cs
    else splitAfterGo sep (k - 1) (c :: acc) cs

/-- Go `strings.SplitAfter(s, sep)` for a non-empty separator: the pieces of
`s` after each occurrence of `sep`, the separator kept at the end of its piece. -/
def splitAfter (s sep : String) : List String :=
  (splitAfterGo sep.data 0 [] s.data).map String.mk

/-- Go `unicode.IsSpace`. -/
def isSpace (c : Char) : Bool :=
  let n := c.toNat
  (9 ≤ n && n ≤ 13) || n = 32 || n = 133 || n = 160 || n = 5760 ||
  (8192 ≤ n && n ≤ 8202) || n = 8232 || n = 8233 || n = 8239 || n = 8287 || n = 12288

/-- Go `strings.TrimSpace`. -/
def trimSpace (s : String) : String :=
  String.mk ((s.data.dropWhile isSpace).reverse.dropWhile isSpace).reverse

/-- Worker of `splitLines` on characters. -/
def splitOnChar (sep : Char) : List Char → List (List Char)
  | [] => [[]]
  | c :: cs =>
    if c = sep then [] :: splitOnChar sep cs
    else
      match splitOnChar sep cs with
      | [] => [[c]]
      | l :: ls => (c :: l) :: ls

/-- Go `strings.Split(s, "\n")`. -/
def splitLines (s : String) : List String :=
  (splitOnChar (Char.ofNat 10) s.data).map String.mk

/-- Lexicographic `a ≤ b` on character codes, the order of Go's string comparison. -/
def leChars : List Char → List Char → Bool
  | [], _ => true
  | _ :: _, [] => false
  | a :: as, b :: bs =>
    if a.toNat < b.toNat then true
    else if b.toNat < a.toNat then false
    else leChars as bs

/-- The order used by `sort.Strings`. -/
def strLe (a b : String) : Prop := leChars a.data b.data = true

instance strLe_decidable : DecidableRel strLe := fun a b =>
  inferInstanceAs (Decidable (leChars a.data b.data = true))

/-- Go `sort.Strings`: the list in ascending order.  Equal strings are
indistinguishable, so the sorted list does not depend on the algorithm. -/
def sortStrings (l : List String) : List String := List.insertionSort strLe l

/-- Worker of `pathClean`: processes the path elements left to right, `out`
is the stack of elements kept so far (innermost first). -/
def cleanElems (rooted : Bool) : List (List Char) → List (List Char) → List (List Char)
  | out, [] => out.reverse
  | out, e :: es =>
    if e = [] ∨ e = ['.'] then cleanElems rooted out es
    else if e = ['.', '.'] then
      match out with
      | [] => if rooted then cleanElems rooted [] es else cleanElems rooted [e] es
      | top :: below =>
        if top = ['.', '.'] then cleanElems rooted (e :: out) es
        else cleanElems rooted below es
    else cleanElems rooted (e :: out) es

/-- Go `filepath.Clean` on a Unix path: empty and `.` elements are dropped,
`..` removes the element before it (and is dropped at the root), the result
of an empty path is `.`. -/
def pathClean (p : String) : String :=
  if p = "" then "."
  else
    let rooted := startsWith ['/'] p.data
    let elems := cleanElems rooted [] (splitOnChar '/' p.data)
    let body := String.intercalate "/" (elems.map String.mk)
    if rooted then "/" ++ body
    else if body = "" then "." else body

/-- Go `filepath.Join(a, b)`: empty elements are ignored, the rest is joined
with `/` and cleaned; the join of empty elements is empty. -/
def pathJoin (a b : String) : String :=
  if a ≠ "" then pathClean (a ++ "/" ++ b)
  else if b ≠ "" then pathClean b
  else ""

/-- Worker of `removeAll`: `skip` counts the characters of a matched
occurrence still to be dropped. -/
def removeAllGo (old : List Char) : Nat → List Char → List Char
  | _, [] => []
  | skip, c :: cs =>
    let k := if skip = 0 ∧ startsWith old (c :: cs) = true then old.length else skip
    if k = 0 then c :: removeAllGo old 0 cs
    else removeAllGo old (k - 1) cs

/-- Go `strings.Replace(s, old, "", -1)` for a non-empty `old`: every
occurrence of `old`, found from left to right without overlap, is removed. -/
def removeAll (s old : String) : String := String.mk (removeAllGo old.data 0 s.data)

/-- Go `filepath.Base` on a Unix path: the last element of the path, after
trailing slashes are dropped; `.` for the empty path and `/` for a path of
slashes only. -/
def pathBase (p : String) : String :=
  if p = "" then "."
  else
    let stripped := (p.data.reverse.dropWhile fun c => c = '/')
    let last := (stripped.takeWhile fun c => c ≠ '/').reverse
    if last = [] then "/" else String.mk last

/-- Go `strings.TrimSuffix(s, suffix)`: `s` without the trailing `suffix`
when it ends with it, `s` itself otherwise. -/
def trimSuffix (s suffix : String) : String :=
  if startsWith suffix.data.reverse s.data.reverse = true then
    String.mk (s.data.reverse.drop suffix.data.length).reverse
  else s

/-- Does `sub` occur in the list at some position? -/
def containsChars (sub : List Char) : List Char → Bool
  | [] => startsWith sub []
  | c :: cs => startsWith sub (c :: cs) || containsChars sub cs

/-- Go `strings.Contains(s, sub)`. -/
def containsStr (s sub : String) : Bool := containsChars sub.data s.data

/-! ## Results and the host -/

/-- Result of a Go function: a value, a returned `error`, or a run-time panic. -/
inductive Res (α : Type) where
  | ok (a : α) : Res α
  | error (msg : String) : Res α
  | fault : Res α
  deriving DecidableEq, Repr

/-- What `run(cmd)` returns: the captured output and the `error` (`none` is `nil`). -/
structure Reply where
  out : String
  err : Option String
  deriving DecidableEq, Repr

/-- The collaborators the engine is given.  `run` is the command-execution
function; its answer may depend on the commands issued before.  The other
fields are functions of the repository or of its dependencies that are not
part of the engine's source file. -/
structure Env where
  /-- Field `run` of the engine: previous commands, command, answer. -/
  run : List String → String → Reply
  /-- The function `isMounted(device)` of `builder/image`. -/
  isMounted : List String → String → Bool × Option String
  /-- The function `mounted(i, device, mountPoint)` of `builder/common/image`. -/
  mounted : List String → String → String → Bool × Option String
  /-- The customizer: working root, configuration directory, returned error. -/
  customize : String → String → Option String
  /-- The call `client.Detach(localmount)` of the sshfs client. -/
  detach : String → Option String
  /-- The function `utils.FormatError`, which decorates an error. -/
  FormatError : String → String


/-- The engine state together with the record of what it did to the host:
the commands issued through `run` (oldest first), the customizer calls
(working root, configuration directory) and the sshfs mounts detached. -/
structure Sys (I : Type) where
  img : I
  trace : List String
  customized : List (String × String)
  detached : List String
  deriving DecidableEq, Repr

/-- The call `i.run(cmd)`: the host answers and the command is recorded. -/
def exec {I : Type} (env : Env) (s : Sys I) (cmd : String) : Reply × Sys I :=
  (env.run s.trace cmd, { s with trace := s.trace ++ [cmd] })

/-- The command at position `i` of a trace was answered with an error. -/
def failedAt (env : Env) (t : List String) (i : Nat) : Prop :=
  ∃ c : String, t[i]? = some c ∧ (env.run (t.take i) c).err ≠ none

/-- A stretch of execution that took the trace from `t0` to `t1` stopped at
the first failing command: `t1` continues `t0`, and a command issued after
`t0` that was answered with an error is the last command of `t1`, in which
case `isErr` (the result is an error) holds. -/
def StopsAtFailure (env : Env) (t0 : List String) (isErr : Prop) (t1 : List String) : Prop :=
  (∃ suffix : List String, t1 = t0 ++ suffix) ∧
  ∀ i : Nat, t0.length ≤ i → failedAt env t1 i → i + 1 = t1.length ∧ isErr

/-- The result is a returned error. -/
def Res.isErr {α : Type} (r : Res α) : Prop := ∃ e : String, r = Res.error e

/-- Go `fmt.Errorf("%s [%v]", out, err)`. -/
def cmdError (out err : String) : String := out ++ " [" ++ err ++ "]"

/-- Go `%v` of an `error` value that may be `nil`. -/
def fmtErr : Option String → String
  | none => "<nil>"
  | some e => e

/-! ## The engine of `src/builder/image/image.go` -/

namespace BuilderImage

/-- Modelled from the spec: the record `Partition` of package `builder/image`,
whose declaration is not in the engine's source file; the fields are the ones
`image.go` reads.  `TypeCode` is the Go field `Type`. -/
structure Partition where
  Sequence : Int
  SizeMb : Int
  SizePercents : Int
  Label : String
  MountPoint : String
  FileSystem : String
  FileSystemArgs : String
  TypeCode : Int
  deriving DecidableEq, Repr

/-- Modelled from the spec: the bootloader kinds `BootLoaderGrub`,
`BootLoaderGrub2` and `BootLoaderExtlinux` of package `builder/image`, whose
declaration is not in the engine's source file. -/
inductive BootLoaderType where
  | Grub : BootLoaderType
  | Grub2 : BootLoaderType
  | Extlinux : BootLoaderType
  | Other : BootLoaderType
  deriving DecidableEq, Repr

/-- Modelled from the spec: the record `Disk` of package `builder/image`, whose
declaration is not in the engine's source file; the fields are the ones
`image.go` reads.  `StorageType` is the Go field `Type`; `Partitions` is `none`
for a nil slice. -/
structure Disk where
  Path : String
  StorageType : String
  SizeMb : Int
  Bootable : Bool
  ActivePartition : Int
  BootLoader : BootLoaderType
  FdiskCmd : String
  Partitions : Option (List Partition)
  deriving DecidableEq, Repr

/-- The elements a Go `range` over the slice visits. -/
def Disk.parts (c : Disk) : List Partition := c.Partitions.getD []

structure mapperDevice where
  name : String
  mountPoint : String
  deriving DecidableEq, Repr

structure loopDevice where
  name : String
  mappers : List mapperDevice
  amountOfMappers : Nat
  deriving DecidableEq, Repr

structure Utils where
  Kpartx : String
  dir : String
  deriving DecidableEq, Repr

structure image where
  config : Disk
  slashpath : String
  needToFormat : Bool
  loopDevice : loopDevice
  utils : Utils
  localmount : String
  deriving DecidableEq, Repr

abbrev St := Sys image

/-! ### Partition table synthesis -/

def calcInPercents : Int := -1

def allocateAll : Int := -2

def extendedPart : Int := 4

/-- Lines 412-418 of `generateFdiskCmd`: the value of `part.SizeMb` the
`switch` sees. -/
def resolveSizeMb (diskSizeMb : Int) (part : Partition) : Int :=
  if part.SizeMb = calcInPercents then
    if part.SizePercents = allocateAll then allocateAll
    else wrapInt (Int.tdiv diskSizeMb 100 * part.SizePercents)
  else part.SizeMb

/-- The `switch` of `generateFdiskCmd` (lines 419-440): the text appended for
a partition of sequence `seq` and resolved size `sizeMb`, and the value of
`logicalDrive` afterwards. -/
def createFragment (amountOfPartitions logicalDrive seq sizeMb : Int) : String × Int :=
  if seq = amountOfPartitions ∧ sizeMb = allocateAll then
    if seq > extendedPart then
      ("n\\nl\\n" ++ fmtD logicalDrive ++ "\\n\\n\\n", logicalDrive + 1)
    else if seq < extendedPart then
      ("n\\np\\n" ++ fmtD seq ++ "\\n\\n\\n", logicalDrive)
    else if seq = extendedPart then
      ("n\\np\\n\\n\\n", logicalDrive)
    else ("", logicalDrive)
  else if seq < extendedPart then
    ("n\\np\\n" ++ fmtD seq ++ "\\n\\n+" ++ fmtD sizeMb ++ "M\\n", logicalDrive)
  else if seq = extendedPart then
    ("n\\ne\\n\\n\\n\\n+" ++ fmtD sizeMb ++ "M\\n", logicalDrive)
  else
    ("n\\n\\n+" ++ fmtD sizeMb ++ "M\\n", logicalDrive)

/-- Lines 441-445 of `generateFdiskCmd`: the type command of a partition. -/
def typeFragment (index : Nat) (part : Partition) : String :=
  if index = 0 then "t\\n" ++ fmtD part.TypeCode ++ "\\n"
  else "t\\n" ++ fmtD part.Sequence ++ "\\n" ++ fmtD part.TypeCode ++ "\\n"

/-- The loop of `generateFdiskCmd`: for each partition, in plan order, the
creation text and the type command appended to the script. -/
def fragmentsLoop (diskSizeMb amountOfPartitions : Int) :
    Nat → Int → List Partition → List (String × String)
  | _, _, [] => []
  | index, logicalDrive, part :: rest =>
    let r := createFragment amountOfPartitions logicalDrive part.Sequence
      (resolveSizeMb diskSizeMb part)
    (r.1, typeFragment index part) ::
      fragmentsLoop diskSizeMb amountOfPartitions (index + 1) r.2 rest

/-- The fragments `generateFdiskCmd` appends for the partitions of a disk. -/
def fdiskFragments (c : Disk) : List (String × String) :=
  fragmentsLoop c.SizeMb c.parts.length 0 5 c.parts

/-- The script `generateFdiskCmd` stores in `config.FdiskCmd`. -/
def fdiskScript (c : Disk) : String :=
  "o\\n" ++ String.join ((fdiskFragments c).map fun f => f.1 ++ f.2) ++
    (if c.Bootable then "a\\n" ++ fmtD c.ActivePartition ++ "\\n" else "") ++ "w"

def generateFdiskCmd (c : Disk) : Disk := { c with FdiskCmd := fdiskScript c }

/-! ### Loop device and mappers -/

/-- The assignment `i.loopDevice.name = name`. -/
def setLoopName (s : St) (name : String) : St :=
  { s with img := { s.img with loopDevice := { s.img.loopDevice with name := name } } }

/-- The assignment `i.loopDevice.amountOfMappers = n`. -/
def setAmount (s : St) (n : Nat) : St :=
  { s with img := { s.img with loopDevice := { s.img.loopDevice with amountOfMappers := n } } }

/-- Lines 499-506 of `addMapper`: the entry is appended and the counter advanced. -/
def register (s : St) (name mountPoint : String) : St :=
  { s with img := { s.img with loopDevice :=
      { s.img.loopDevice with
        mappers := s.img.loopDevice.mappers ++ [{ name := name, mountPoint := mountPoint }]
        amountOfMappers := incU8 s.img.loopDevice.amountOfMappers } } }

/-- The method `bind` (lines 568-580).  The second test reads `err`, the error
of `losetup -f`, as the source does, not the error `er` of the attach command. -/
def bind (env : Env) (s : St) (imagePath : String) : (String × Option String) × St :=
  let r1 := exec env s "losetup -f"
  let loopDevice := r1.1.out
  let err := r1.1.err
  if err.isSome then ((loopDevice, err.map env.FormatError), r1.2)
  else
    let r2 := exec env r1.2 ("losetup " ++ loopDevice ++ " " ++ imagePath)
    if err.isSome then
      ((loopDevice, some (env.FormatError (cmdError r2.1.out (fmtErr r2.1.err)))), r2.2)
    else ((loopDevice, err), r2.2)

/-- The method `getMappers` (lines 521-550). -/
def getMappers (env : Env) (s : St) (loopDeviceName : String) : Res (List String) × St :=
  let r1 := exec env s (s.img.utils.Kpartx ++ " -a " ++ loopDeviceName)
  match r1.1.err with
  | some e => (.error (env.FormatError e), r1.2)
  | none =>
    match (splitAfter loopDeviceName "/dev/loop")[1]? with
    | none => (.fault, r1.2)
    | some rest =>
      let r2 := exec env r1.2 ("find /dev -name loop" ++ trimSpace rest ++ "p[0-9]")
      match r2.1.err with
      | some e => (.error (env.FormatError (cmdError r2.1.out e)), r2.2)
      | none =>
        let mappers := (splitLines r2.1.out).filter fun line => line ≠ ""
        if mappers.length = 0 then (.error (env.FormatError "mappers not found"), r2.2)
        else (.ok (sortStrings mappers), r2.2)

/-- The method `addMapper` (lines 483-508). -/
def addMapper (env : Env) (s : St) (mapperDeviceName path : String) : Res Unit × St :=
  let mountPoint := pathJoin s.img.slashpath path
  let r1 := exec env s ("mkdir -p " ++ mountPoint)
  match r1.1.err with
  | some e => (.error (env.FormatError (cmdError r1.1.out e)), r1.2)
  | none =>
    let m := env.isMounted r1.2.trace mapperDeviceName
    match m.2 with
    | some e => (.error (env.FormatError e), r1.2)
    | none =>
      if m.1 = false then
        let r2 := exec env r1.2 ("mount " ++ mapperDeviceName ++ " " ++ mountPoint)
        match r2.1.err with
        | some e => (.error (env.FormatError (cmdError r2.1.out e)), r2.2)
        | none => (.ok (), register r2.2 mapperDeviceName mountPoint)
      else (.ok (), register r1.2 mapperDeviceName mountPoint)

/-- Go `fmt.Sprintf("mkfs -t %v -L %s %s %s", ...)`. -/
def mkfsCmd (part : Partition) (mapper : String) : String :=
  "mkfs -t " ++ part.FileSystem ++ " -L " ++ part.Label ++ " " ++ part.FileSystemArgs ++
    " " ++ mapper

/-- First loop of `partTableMakefs` (lines 357-368): the root partition gets
its file system and is mounted at the working root. -/
def makefsRootLoop (env : Env) (mappers : List String) :
    Nat → List Partition → St → Res Unit × St
  | _, [], s => (.ok (), s)
  | index, part :: rest, s =>
    if part.MountPoint = "/" then
      match mappers[index]? with
      | none => (.fault, s)
      | some mapper =>
        let r1 := exec env s (mkfsCmd part mapper)
        match r1.1.err with
        | some e => (.error (env.FormatError (cmdError r1.1.out e)), r1.2)
        | none =>
          let r2 := exec env r1.2 ("mount " ++ mapper ++ " " ++ s.img.slashpath)
          match r2.1.err with
          | some e => (.error (env.FormatError (cmdError r2.1.out e)), r2.2)
          | none => makefsRootLoop env mappers (index + 1) rest r2.2
    else makefsRootLoop env mappers (index + 1) rest s

/-- Second loop of `partTableMakefs` (lines 370-386): swap partitions are
initialised, the root is passed over, the others are formatted and registered. -/
def makefsRestLoop (env : Env) (mappers : List String) :
    Nat → List Partition → St → Res Unit × St
  | _, [], s => (.ok (), s)
  | index, part :: rest, s =>
    match mappers[index]? with
    | none => (.fault, s)
    | some mapper =>
      if part.TypeCode = 82 then
        let r1 := exec env s ("mkswap -L " ++ part.Label ++ " " ++ mapper)
        match r1.1.err with
        | some e => (.error (env.FormatError (cmdError r1.1.out e)), r1.2)
        | none => makefsRestLoop env mappers (index + 1) rest r1.2
      else if part.MountPoint ≠ "/" then
        let r1 := exec env s (mkfsCmd part mapper)
        match r1.1.err with
        | some e => (.error (env.FormatError (cmdError r1.1.out e)), r1.2)
        | none =>
          match addMapper env r1.2 mapper part.MountPoint with
          | (.ok _, s2) => makefsRestLoop env mappers (index + 1) rest s2
          | (.error e, s2) => (.error (env.FormatError e), s2)
          | (.fault, s2) => (.fault, s2)
      else makefsRestLoop env mappers (index + 1) rest s

/-- The method `partTableMakefs` (lines 346-388).  The result of the fdisk
command is not looked at. -/
def partTableMakefs (env : Env) (s : St) : Res Unit × St :=
  let s0 : St :=
    if s.img.config.FdiskCmd = "" then
      { s with img := { s.img with config := generateFdiskCmd s.img.config } }
    else s
  let r0 := exec env s0
    ("echo -e  \"" ++ s0.img.config.FdiskCmd ++ "\"|fdisk " ++ s0.img.loopDevice.name)
  match getMappers env r0.2 r0.2.img.loopDevice.name with
  | (.error e, s1) => (.error (env.FormatError e), s1)
  | (.fault, s1) => (.fault, s1)
  | (.ok mappers, s1) =>
    match makefsRootLoop env mappers 0 s1.img.config.parts s1 with
    | (.ok _, s2) => makefsRestLoop env mappers 0 s2.img.config.parts s2
    | r => r

/-- First loop of `addMappers` (lines 463-469). -/
def attachRootLoop (env : Env) (mappers : List String) :
    Nat → List Partition → St → Res Unit × St
  | _, [], s => (.ok (), s)
  | index, part :: rest, s =>
    if part.MountPoint = "/" then
      match mappers[index]? with
      | none => (.fault, s)
      | some mapper =>
        let r1 := exec env s ("mount " ++ mapper ++ " " ++ s.img.slashpath)
        match r1.1.err with
        | some e => (.error (env.FormatError (cmdError r1.1.out e)), r1.2)
        | none => attachRootLoop env mappers (index + 1) rest r1.2
    else attachRootLoop env mappers (index + 1) rest s

/-- Second loop of `addMappers` (lines 471-478). -/
def attachRestLoop (env : Env) (mappers : List String) :
    Nat → List Partition → St → Res Unit × St
  | _, [], s => (.ok (), s)
  | index, part :: rest, s =>
    if part.TypeCode ≠ 82 ∧ part.MountPoint ≠ "/" then
      match mappers[index]? with
      | none => (.fault, s)
      | some mapper =>
        match addMapper env s mapper part.MountPoint with
        | (.ok _, s2) => attachRestLoop env mappers (index + 1) rest s2
        | (.error e, s2) => (.error (env.FormatError e), s2)
        | (.fault, s2) => (.fault, s2)
    else attachRestLoop env mappers (index + 1) rest s

/-- The method `addMappers` (lines 457-480). -/
def addMappers (env : Env) (s : St) : Res Unit × St :=
  match getMappers env s s.img.loopDevice.name with
  | (.error e, s1) => (.error (env.FormatError e), s1)
  | (.fault, s1) => (.fault, s1)
  | (.ok mappers, s1) =>
    match attachRootLoop env mappers 0 s1.img.config.parts s1 with
    | (.ok _, s2) => attachRestLoop env mappers 0 s2.img.config.parts s2
    | r => r

/-! ### Public methods -/

/-- The method `Parse` (lines 153-168). -/
def Parse (env : Env) (s : St) : Res Unit × St :=
  let b := bind env s s.img.config.Path
  let s1 := setLoopName b.2 b.1.1
  match b.1.2 with
  | some e => (.error (env.FormatError e), s1)
  | none =>
    if s1.img.needToFormat then
      match partTableMakefs env s1 with
      | (.error e, s2) => (.error (env.FormatError e), s2)
      | r => r
    else if s1.img.config.Partitions.isSome then
      match addMappers env s1 with
      | (.error e, s2) => (.error (env.FormatError e), s2)
      | r => r
    else (.ok (), s1)

/-- The method `Customize` (lines 172-177). -/
def Customize (env : Env) (s : St) (pathToConfigDir : String) : Res Unit × St :=
  if s.img.loopDevice.amountOfMappers = 0 then
    (.error (env.FormatError
      "amount of mappers is 0.Seems Parse() hasn't been called yet."), s)
  else
    (match env.customize s.img.slashpath pathToConfigDir with
      | none => .ok ()
      | some e => .error e,
     { s with customized := s.customized ++ [(s.img.slashpath, pathToConfigDir)] })

/-- The method `AmountOfMappers` (lines 339-341). -/
def AmountOfMappers (s : St) : Nat := s.img.loopDevice.amountOfMappers

/-- The unmount loop of `Cleanup` (lines 191-199) from a given value of
`index`; `none` when the fuel does not suffice. -/
def unmountLoop (env : Env) : Nat → Nat → St → Option (Res Unit × St)
  | 0, _, _ => none
  | fuel + 1, index, s =>
    if s.img.loopDevice.amountOfMappers ≠ 0 then
      match s.img.loopDevice.mappers[index]? with
      | none => some (.fault, s)
      | some m =>
        if m.mountPoint ≠ "/" then
          let r := exec env s ("umount -l " ++ m.mountPoint)
          match r.1.err with
          | some e => some (.error (env.FormatError (cmdError r.1.out e)), r.2)
          | none =>
            unmountLoop env fuel (decU8 index)
              (setAmount r.2 (decU8 r.2.img.loopDevice.amountOfMappers))
        else unmountLoop env fuel index s
    else some (.ok (), s)

/-- Runs the commands of a list in order, stopping at the first failure
(the straight-line chain of `Cleanup`: each command is followed by
`if err != nil { return ... }`). -/
def runAll (env : Env) : List String → St → Res Unit × St
  | [], s => (.ok (), s)
  | cmd :: rest, s =>
    let r := exec env s cmd
    match r.1.err with
    | some e => (.error (env.FormatError (cmdError r.1.out e)), r.2)
    | none => runAll env rest r.2

/-- The commands of `Cleanup` after the unmount loop (lines 200-223). -/
def teardownCmds (i : image) : List String :=
  ["umount -l " ++ i.slashpath,
   i.utils.Kpartx ++ " -d " ++ i.loopDevice.name,
   "losetup -d " ++ i.loopDevice.name,
   "rm -rf " ++ i.slashpath] ++
  (if i.localmount ≠ "" then ["rm -rf " ++ i.utils.dir, "rm -rf " ++ i.localmount] else [])

/-- The method `Cleanup` (lines 183-225); `none` when the fuel given to the
unmount loop does not suffice. -/
def Cleanup (env : Env) (fuel : Nat) (s : St) : Option (Res Unit × St) :=
  let d : Option String × St :=
    if s.img.localmount ≠ "" then
      (env.detach s.img.localmount, { s with detached := s.detached ++ [s.img.localmount] })
    else (none, s)
  match d.1 with
  | some e => some (.error (env.FormatError e), d.2)
  | none =>
    match unmountLoop env fuel (decU8 d.2.img.loopDevice.amountOfMappers) d.2 with
    | none => none
    | some (.ok _, s1) => some (runAll env (teardownCmds s1.img) s1)
    | some r => some r

/-- Successive calls of `addMapper`, one for each (node, relative mount
point), stopped at the first call that does not succeed. -/
def addMapperAll (env : Env) : List (String × String) → St → Res Unit × St
  | [], s => (.ok (), s)
  | call :: rest, s =>
    match addMapper env s call.1 call.2 with
    | (.ok _, s1) => addMapperAll env rest s1
    | r => r

/-! ### Construction -/

/-- Modelled from the spec: the constant `StorageTypeRAW` of package
`builder/image`, whose declaration is not in the engine's source file; the
spec names the working file `<path>.raw`. -/
def StorageTypeRAW : String := "raw"

/-- The argument `remoteConfig` of `New` when it is not nil, given by what
the sshfs collaborators answer for it: the error of `sshfs.NewClient`, the
error of `client.Attach(remote directory, local mount)` and the result
(directory, error) of `utils.UploadBinaries` for a helper binary. -/
structure RemoteHost where
  newClient : Option String
  attach : String → String → Option String
  uploadBinaries : String → String × Option String

/-- The method `create` (lines 511-517). -/
def create (env : Env) (s : St) : Res Unit × St :=
  let r := exec env s ("dd if=/dev/zero of=" ++ s.img.config.Path ++ " count=1 bs=1 seek=" ++
    fmtD s.img.config.SizeMb ++ "M")
  match r.1.err with
  | some e => (.error (env.FormatError (cmdError r.1.out e)), r.2)
  | none => (.ok (), r.2)

/-- The function `setUtilNewPaths` (lines 140-149). -/
def setUtilNewPaths (env : Env) (remote : RemoteHost) (s : St) (u : Utils) : Res Unit × St :=
  let up := remote.uploadBinaries u.Kpartx
  match up.2 with
  | some e => (.error (env.FormatError e), s)
  | none =>
    (.ok (), { s with img := { s.img with
      utils := { Kpartx := pathJoin up.1 (pathBase u.Kpartx), dir := up.1 } } })

/-- Lines 114-121 of `New`: for a storage type other than raw the converter
must be installed and the type's extension is taken off the path.  The
result is the error, if any, and the configuration afterwards. -/
def qemuCheck (env : Env) (config : Disk) (qemuImgError : String) (s : St) :
    Option String × Disk × St :=
  if config.StorageType ≠ StorageTypeRAW then
    let r := exec env s "which qemu-img"
    match r.1.err with
    | some _ => (some (env.FormatError qemuImgError), config, r.2)
    | none =>
      (none, { config with Path := removeAll config.Path ("." ++ config.StorageType) }, r.2)
  else (none, config, s)

/-- Lines 114-137 of `New`, common to local and remote mode. -/
def newImage (env : Env) (config : Disk) (qemuImgError : String) (s : St) : Res Unit × St :=
  let q := qemuCheck env config qemuImgError s
  match q.1 with
  | some e => (.error e, q.2.2)
  | none =>
    let config1 : Disk := { q.2.1 with Path := q.2.1.Path ++ ".raw" }
    let s1 : St := { q.2.2 with img := { q.2.2.img with config := config1 } }
    let r := exec env s1 ("ls" ++ config1.Path)
    match r.1.err with
    | some _ =>
      match create env r.2 with
      | (.ok _, s2) =>
        let s3 : St :=
          if config1.Partitions.isSome then { s2 with img := { s2.img with needToFormat := true } }
          else s2
        (.ok (), { s3 with img := { s3.img with
          loopDevice := { name := "", mappers := [], amountOfMappers := 0 } } })
      | (.error e, s2) => (.error (env.FormatError e), s2)
      | (.fault, s2) => (.fault, s2)
    | none =>
      (.ok (), { r.2 with img := { r.2.img with
        loopDevice := { name := "", mappers := [], amountOfMappers := 0 } } })

/-- The function `New` (lines 81-138).  The engine starts with an empty
record of commands.  On an error return the engine is the partly built one
(in Go its loop device is still nil). -/
def New (env : Env) (config : Disk) (rootfsMp : String) (bins : Utils)
    (remoteConfig : Option RemoteHost) : Res Unit × St :=
  let s0 : St :=
    { img := { config := config, slashpath := "", needToFormat := false,
               loopDevice := { name := "", mappers := [], amountOfMappers := 0 },
               utils := { Kpartx := "", dir := "" }, localmount := "" },
      trace := [], customized := [], detached := [] }
  match remoteConfig with
  | none =>
    newImage env config "please install qemu-img"
      { s0 with img := { s0.img with slashpath := rootfsMp, utils := bins } }
  | some remote =>
    match remote.newClient with
    | some e => (.error (env.FormatError e), s0)
    | none =>
      let s1 : St := { s0 with img := { s0.img with localmount := rootfsMp } }
      let r := exec env s1 "mktemp -d --suffix _deployer_rootfs"
      let s2 : St := { r.2 with img := { r.2.img with slashpath := r.1.out } }
      match r.1.err with
      | some e => (.error (env.FormatError e), s2)
      | none =>
        match remote.attach s2.img.slashpath s2.img.localmount with
        | some e => (.error (env.FormatError e), s2)
        | none =>
          match setUtilNewPaths env remote s2 bins with
          | (.ok _, s3) => newImage env config "please install qemu-img on remote host" s3
          | (.error e, s3) => (.error (env.FormatError e), s3)
          | (.fault, s3) => (.fault, s3)

/-- The partitioning command `partTableMakefs` issues (line 351): the stored
script, or the synthesized one when none is stored, piped into fdisk. -/
def fdiskCommand (s : St) : String :=
  "echo -e  \"" ++
    (if s.img.config.FdiskCmd = "" then fdiskScript s.img.config else s.img.config.FdiskCmd) ++
    "\"|fdisk " ++ s.img.loopDevice.name

/-! ### Conversion and bootloaders -/

/-- The method `convert` (lines 553-566). -/
def convert (env : Env) (s : St) : Res Unit × St :=
  let newPath := trimSuffix s.img.config.Path ".raw" ++ "." ++ s.img.config.StorageType
  let r1 := exec env s ("qemu-img convert -f raw -O " ++ s.img.config.StorageType ++ " " ++
    s.img.config.Path ++ " " ++ newPath)
  match r1.1.err with
  | some e => (.error (env.FormatError (cmdError r1.1.out e)), r1.2)
  | none =>
    let r2 := exec env r1.2 ("rm -rf " ++ s.img.config.Path)
    match r2.1.err with
    | some e => (.error (env.FormatError (cmdError r2.1.out e)), r2.2)
    | none =>
      (.ok (), { r2.2 with img := { r2.2.img with
        config := { r2.2.img.config with Path := newPath } } })

/-- The method `Convert` (lines 311-318). -/
def Convert (env : Env) (s : St) : Res Unit × St :=
  if s.img.config.StorageType ≠ StorageTypeRAW then
    match convert env s with
    | (.error e, s1) => (.error (env.FormatError e), s1)
    | r => r
  else (.ok (), s)

/-- The case `BootLoaderGrub` of `MakeBootable` (lines 231-244). -/
def makeBootableGrub (env : Env) (s : St) : Res Unit × St :=
  let r1 := exec env s ("chroot " ++ s.img.slashpath ++ "  which grub")
  match r1.1.err with
  | some e => (.error (env.FormatError e), r1.2)
  | none =>
    let r2 := exec env r1.2 ("echo -e \"device (hd0) " ++ s.img.config.Path ++
      "\nroot (hd0,0)\nsetup (hd0)\n\"|" ++ pathJoin s.img.slashpath r1.1.out)
    match r2.1.err with
    | some e => (.error (env.FormatError (cmdError r2.1.out e)), r2.2)
    | none =>
      if containsStr r2.1.out "Error 15: File not found" = true then
        (.error (env.FormatError "installing GRUB [Error 15: File not found]"), r2.2)
      else (.ok (), r2.2)

/-- The install command of the case `BootLoaderGrub2` (lines 267-273). -/
def grub2Cmd (loopName dummyLoopDevice mp : String) : String :=
  "mkdir -p " ++ mp ++ "/boot/grub; echo -e \"(hd0) " ++ loopName ++ "\n(hd0,1) " ++
    dummyLoopDevice ++ "\" > " ++ mp ++ "/boot/grub/device.map;" ++
  "mount --bind /dev " ++ mp ++ "/dev ;chroot " ++ mp ++ " mount -t proc none /proc;" ++
  "chroot " ++ mp ++
    " grub-install --no-floppy --grub-mkdevicemap=/boot/grub/device.map " ++ loopName ++
  ";chroot " ++ mp ++ " update-grub;" ++
  "rm -f " ++ mp ++ "/boot/grub/device.map;" ++
  "sed -i \x27/loop/d\x27 " ++ mp ++ "/boot/grub/grub.cfg"

/-- The command of the second deferred call of the case `BootLoaderGrub2`
(lines 260-265). -/
def grub2Teardown (mp : String) : String :=
  "umount -l " ++ mp ++ "/proc " ++ mp ++ "/dev;" ++ "umount -f " ++ mp ++ ";rm -rf " ++ mp

/-- The case `BootLoaderGrub2` of `MakeBootable` (lines 246-277).  A deferred
call runs when the function returns, the later deferred first; what the
deferred calls return is dropped. -/
def makeBootableGrub2 (env : Env) (s : St) : Res Unit × St :=
  match s.img.loopDevice.mappers[0]? with
  | none => (.fault, s)
  | some m =>
    let b := bind env s m.name
    match b.1.2 with
    | some e => (.error (env.FormatError e), b.2)
    | none =>
      let dummyLoopDevice := b.1.1
      let detach := "losetup -d " ++ dummyLoopDevice
      let r1 := exec env b.2 "mktemp -d --suffix _deployer_dummy_loop"
      match r1.1.err with
      | some e => (.error (env.FormatError e), (exec env r1.2 detach).2)
      | none =>
        let mp := r1.1.out
        let r2 := exec env r1.2 ("mount " ++ dummyLoopDevice ++ " " ++ mp)
        match r2.1.err with
        | some e =>
          (.error (env.FormatError (cmdError r2.1.out e)), (exec env r2.2 detach).2)
        | none =>
          let r3 := exec env r2.2 (grub2Cmd s.img.loopDevice.name dummyLoopDevice mp)
          let s4 := (exec env (exec env r3.2 (grub2Teardown mp)).2 detach).2
          match r3.1.err with
          | some e => (.error (env.FormatError (cmdError r3.1.out e)), s4)
          | none => (.ok (), s4)

/-- The install command of the case `BootLoaderExtlinux` (lines 297-303). -/
def extlinuxCmd (slashpath extlinuxMbrPath loopName : String) : String :=
  "mount --bind /dev " ++ slashpath ++ "/dev;" ++
  "chroot " ++ slashpath ++ " /bin/bash -c " ++
  "\"LC_ALL=C export PATH=/usr/local/bin:/usr/local/sbin:/usr/bin:/usr/sbin:/bin:/sbin;" ++
  "mount -t proc none /proc;" ++
  "dd if=" ++ extlinuxMbrPath ++ " of=" ++ loopName ++ " bs=440 count=1 conv=notrunc;" ++
  "extlinux -i /boot/extlinux;" ++
  "extlinux-update || true\""

/-- Lines 297-306 of `MakeBootable` followed by the deferred unmount. -/
def extlinuxInstall (env : Env) (s : St) (extlinuxMbrPath : String) : Res Unit × St :=
  let r := exec env s (extlinuxCmd s.img.slashpath extlinuxMbrPath s.img.loopDevice.name)
  let s1 := (exec env r.2
    ("umount -l " ++ s.img.slashpath ++ "/proc " ++ s.img.slashpath ++ "/dev")).2
  match r.1.err with
  | some e => (.error (env.FormatError (cmdError r.1.out e)), s1)
  | none => (.ok (), s1)

/-- The case `BootLoaderExtlinux` of `MakeBootable` (lines 279-306). -/
def makeBootableExtlinux (env : Env) (s : St) : Res Unit × St :=
  let r1 := exec env s ("chroot " ++ s.img.slashpath ++ " which extlinux")
  match r1.1.err with
  | some e => (.error (env.FormatError (cmdError "Extlinux not found" e)), r1.2)
  | none =>
    let r2 := exec env r1.2 ("ls " ++ s.img.slashpath ++ "/usr/lib/EXTLINUX/mbr.bin")
    match r2.1.err with
    | none => extlinuxInstall env r2.2 "/usr/lib/EXTLINUX/mbr.bin"
    | some _ =>
      let r3 := exec env r2.2 ("ls " ++ s.img.slashpath ++ "/usr/lib/extlinux/mbr.bin")
      match r3.1.err with
      | none => extlinuxInstall env r3.2 "/usr/lib/extlinux/mbr.bin"
      | some _ =>
        (.error (env.FormatError "Extlinux mbr binary not found"),
          (exec env r3.2
            ("umount -l " ++ s.img.slashpath ++ "/proc " ++ s.img.slashpath ++ "/dev")).2)

/-- The method `MakeBootable` (lines 229-309). -/
def MakeBootable (env : Env) (s : St) : Res Unit × St :=
  match s.img.config.BootLoader with
  | .Grub => makeBootableGrub env s
  | .Grub2 => makeBootableGrub2 env s
  | .Extlinux => makeBootableExtlinux env s
  | .Other => (.ok (), s)

/-- What a step of the engine that registers nothing leaves as it was: the
mapper registry, the counter, the working root and the plan; and every
command issued before is still in the trace. -/
def Frame (s s1 : St) : Prop :=
  s1.img.loopDevice.mappers = s.img.loopDevice.mappers ∧
  s1.img.loopDevice.amountOfMappers = s.img.loopDevice.amountOfMappers ∧
  s1.img.slashpath = s.img.slashpath ∧
  s1.img.config.parts = s.img.config.parts ∧
  ∀ c ∈ s.trace, c ∈ s1.trace

end BuilderImage

/-! ## The engine of `src/builder/common/image/image.go` -/

namespace CommonImage

/-- The record `Partition` of `config.go`. -/
structure Partition where
  Sequence : String
  SizeMb : Int
  Label : String
  MountPoint : String
  FileSystem : String
  FileSystemArgs : String
  Description : String
  deriving DecidableEq, Repr

/-- The record `Topology` of `config.go`; `TypeName` is the Go field `Type`. -/
structure Topology where
  Name : String
  TypeName : String
  HddSizeGb : Int
  Bootable : Bool
  FdiskCmd : String
  Description : String
  Partitions : List Partition
  deriving DecidableEq, Repr

structure mapperDevice where
  name : String
  mountPoint : String
  deriving DecidableEq, Repr

structure loopDevice where
  name : String
  mappers : List mapperDevice
  amountOfMappers : Nat
  deriving DecidableEq, Repr

structure Utils where
  Grub : String
  Kpartx : String
  dir : String
  deriving DecidableEq, Repr

structure image where
  imgpath : String
  slashpath : String
  localmount : String
  conf : Topology
  needToFormat : Bool
  loopDevice : loopDevice
  utils : Utils
  deriving DecidableEq, Repr

abbrev St := Sys image

/-- The method `bind` (lines 253-264).  The second test reads `err`, the error
of `losetup -f`, as the source does, not the error `er` of the attach command. -/
def bind (env : Env) (s : St) : (String × Option String) × St :=
  let r1 := exec env s "losetup -f"
  let loopDevice := r1.1.out
  let err := r1.1.err
  if err.isSome then ((loopDevice, err), r1.2)
  else
    let r2 := exec env r1.2 ("losetup " ++ loopDevice ++ " " ++ s.img.imgpath)
    if err.isSome then ((loopDevice, some (cmdError r2.1.out (fmtErr r2.1.err))), r2.2)
    else ((loopDevice, err), r2.2)

/-- The method `Customize` (lines 157-162). -/
def Customize (env : Env) (s : St) (pathToPlatformDir : String) : Res Unit × St :=
  if s.img.loopDevice.amountOfMappers = 0 then
    (.error "amount of mappers is 0.Seems you didn't call Parse().", s)
  else
    (match env.customize s.img.slashpath pathToPlatformDir with
      | none => .ok ()
      | some e => .error e,
     { s with customized := s.customized ++ [(s.img.slashpath, pathToPlatformDir)] })

/-- The method `getMappers` (lines 366-395). -/
def getMappers (env : Env) (s : St) (loopDeviceName : String) : Res (List String) × St :=
  let r1 := exec env s (s.img.utils.Kpartx ++ " -a " ++ loopDeviceName)
  match r1.1.err with
  | some e => (.error e, r1.2)
  | none =>
    match (splitAfter loopDeviceName "/dev/loop")[1]? with
    | none => (.fault, r1.2)
    | some rest =>
      let r2 := exec env r1.2 ("find /dev -name loop" ++ trimSpace rest ++ "p[0-9]")
      match r2.1.err with
      | some e => (.error (cmdError r2.1.out e), r2.2)
      | none =>
        let mappers := (splitLines r2.1.out).filter fun line => line ≠ ""
        if mappers.length = 0 then (.error "mappers not found", r2.2)
        else (.ok (sortStrings mappers), r2.2)

/-- The assignment `i.loopDevice.amountOfMappers = n`. -/
def setAmount (s : St) (n : Nat) : St :=
  { s with img := { s.img with loopDevice := { s.img.loopDevice with amountOfMappers := n } } }

/-- The loop of `Release` (lines 176-187) for a given value of `index`,
which the loop never changes; `none` when the fuel does not suffice. -/
def releaseLoop (env : Env) : Nat → Nat → St → Option (Res Unit × St)
  | 0, _, _ => none
  | fuel + 1, index, s =>
    if s.img.loopDevice.amountOfMappers ≠ 0 then
      match s.img.loopDevice.mappers[index]? with
      | none => some (.fault, s)
      | some m =>
        let r := env.mounted s.trace m.name m.mountPoint
        match r.2 with
        | some e => some (.error e, s)
        | none =>
          if r.1 = true then
            let x := exec env s ("umount -l " ++ m.mountPoint)
            match x.1.err with
            | some e => some (.error (cmdError x.1.out e), x.2)
            | none =>
              releaseLoop env fuel index
                (setAmount x.2 (decU8 x.2.img.loopDevice.amountOfMappers))
          else releaseLoop env fuel index s
    else some (.ok (), s)

/-- The method `Release` (lines 168-196); `none` when the fuel given to the
loop does not suffice. -/
def Release (env : Env) (fuel : Nat) (s : St) : Option (Res Unit × St) :=
  let d : Option String × St :=
    if s.img.localmount ≠ "" then
      (env.detach s.img.localmount, { s with detached := s.detached ++ [s.img.localmount] })
    else (none, s)
  match d.1 with
  | some e => some (.error e, d.2)
  | none =>
    match releaseLoop env fuel (decU8 d.2.img.loopDevice.amountOfMappers) d.2 with
    | none => none
    | some (.ok _, s1) =>
      let r1 := exec env s1 (s1.img.utils.Kpartx ++ " -d " ++ s1.img.loopDevice.name)
      match r1.1.err with
      | some e => some (.error (cmdError r1.1.out e), r1.2)
      | none =>
        let r2 := exec env r1.2 ("losetup -d " ++ s1.img.loopDevice.name)
        match r2.1.err with
        | some e => some (.error (cmdError r2.1.out e), r2.2)
        | none => some (.ok (), r2.2)
    | some r => some r

/-- The record `Platforms` of `config.go`. -/
structure Platforms where
  Platforms : List Topology
  deriving DecidableEq, Repr

/-- The method `TypeToTopology` (lines 90-96).  The index expression
`p.Platforms[topotype]` is evaluated first; the address of a slice element is
never nil, so the test `t == nil` that guards the error return is never true. -/
def TypeToTopology (p : Platforms) (topotype : Nat) : Res Topology :=
  match p.Platforms[topotype]? with
  | none => .fault
  | some t =>
    if false then .error ("no topology found for type " ++ fmtD topotype)
    else .ok t

end CommonImage

/-! ## Reading a partitioning script -/

/-- An fdisk creation fragment that selects a primary partition (`n`, `p`). -/
def isCreatePrimary (frag : String) : Bool := startsWith "n\\np\\n".data frag.data

/-- An fdisk creation fragment that selects the extended partition (`n`, `e`). -/
def isCreateExtended (frag : String) : Bool := startsWith "n\\ne\\n".data frag.data

/-! ## Concrete hosts, plans and engine states -/

namespace Sample

open BuilderImage

/-- A host on which every command succeeds: `losetup -f` answers
`/dev/loop0` and the enumeration of partition nodes answers `nodes`. -/
def hostOk (nodes : String) : Env where
  run := fun _ cmd =>
    if cmd = "losetup -f" then ⟨"/dev/loop0", none⟩
    else if cmd = "find /dev -name loop0p[0-9]" then ⟨nodes, none⟩
    else ⟨"", none⟩
  isMounted := fun _ _ => (false, none)
  mounted := fun _ _ _ => (true, none)
  customize := fun _ _ => none
  detach := fun _ => none
  FormatError := fun e => e

/-- A host like `hostOk` on which attaching an image to a loop device is rejected. -/
def hostAttachRejected : Env where
  run := fun _ cmd =>
    if cmd = "losetup -f" then ⟨"/dev/loop0", none⟩
    else if startsWith "losetup /dev/loop0 ".data cmd.data then
      ⟨"losetup: failed to set up loop device", some "exit status 1"⟩
    else ⟨"", none⟩
  isMounted := fun _ _ => (false, none)
  mounted := fun _ _ _ => (true, none)
  customize := fun _ _ => none
  detach := fun _ => none
  FormatError := fun e => e

/-- A host like `hostOk` on which `umount` of a path fails once the same
`umount` command has been issued before (the path is no longer mounted). -/
def hostUmountOnce (nodes : String) : Env where
  run := fun trace cmd =>
    if cmd = "losetup -f" then ⟨"/dev/loop0", none⟩
    else if cmd = "find /dev -name loop0p[0-9]" then ⟨nodes, none⟩
    else if startsWith "umount ".data cmd.data ∧ cmd ∈ trace then
      ⟨"umount: not mounted", some "exit status 32"⟩
    else ⟨"", none⟩
  isMounted := fun _ _ => (false, none)
  mounted := fun _ _ _ => (true, none)
  customize := fun _ _ => none
  detach := fun _ => none
  FormatError := fun e => e

def twoNodes : String := "/dev/mapper/loop0p2\n/dev/mapper/loop0p1\n"

def threeNodes : String := "/dev/mapper/loop0p1\n/dev/mapper/loop0p2\n/dev/mapper/loop0p3\n"

def pRoot : Partition :=
  { Sequence := 1, SizeMb := 3045, SizePercents := 0, Label := "SLASH", MountPoint := "/",
    FileSystem := "ext4", FileSystemArgs := "", TypeCode := 83 }

def pSwap (seq : Int) : Partition :=
  { Sequence := seq, SizeMb := -2, SizePercents := 0, Label := "SWAP", MountPoint := "SWAP",
    FileSystem := "swap", FileSystemArgs := "", TypeCode := 82 }

def pData (seq size : Int) (mountPoint : String) : Partition :=
  { Sequence := seq, SizeMb := size, SizePercents := 0, Label := "DATA",
    MountPoint := mountPoint, FileSystem := "ext4", FileSystemArgs := "", TypeCode := 83 }

def pPercent (seq pct : Int) : Partition :=
  { Sequence := seq, SizeMb := -1, SizePercents := pct, Label := "DATA",
    MountPoint := "/data", FileSystem := "ext4", FileSystemArgs := "", TypeCode := 83 }

def disk (sizeMb : Int) (parts : List Partition) : Disk :=
  { Path := "/img/disk.raw", StorageType := "raw", SizeMb := sizeMb, Bootable := true,
    ActivePartition := 1, BootLoader := .Grub, FdiskCmd := "", Partitions := some parts }

/-- An engine in local mode as `New` leaves it: nothing bound, nothing registered. -/
def engine (c : Disk) (slashpath : String) (needToFormat : Bool) : St :=
  { img := { config := c, slashpath := slashpath, needToFormat := needToFormat,
             loopDevice := { name := "", mappers := [], amountOfMappers := 0 },
             utils := { Kpartx := "kpartx", dir := "" }, localmount := "" },
    trace := [], customized := [], detached := [] }

/-- An engine in local mode bound to `/dev/loop0` with a given registry. -/
def engineWith (mappers : List mapperDevice) : St :=
  { img := { config := disk 5120 [], slashpath := "/mnt/rootfs", needToFormat := false,
             loopDevice := { name := "/dev/loop0", mappers := mappers,
                             amountOfMappers := mappers.length % 256 },
             utils := { Kpartx := "kpartx", dir := "" }, localmount := "" },
    trace := [], customized := [], detached := [] }

/-- An engine of `builder/common/image` with a given counter of active mappers. -/
def commonEngine (amount : Nat) : CommonImage.St :=
  { img := { imgpath := "/img/disk.raw", slashpath := "/mnt/rootfs", localmount := "",
             conf := { Name := "Test", TypeName := "1", HddSizeGb := 5, Bootable := true,
                       FdiskCmd := "", Description := "", Partitions := [] },
             needToFormat := false,
             loopDevice := { name := "", mappers := [], amountOfMappers := amount },
             utils := { Grub := "grub", Kpartx := "kpartx", dir := "" } },
    trace := [], customized := [], detached := [] }

/-- The engine state `Cleanup` leaves behind (the state itself when the fuel
does not suffice). -/
def afterCleanup (env : Env) (fuel : Nat) (s : St) : St :=
  match Cleanup env fuel s with
  | some r => r.2
  | none => s

/-- The plan root, data partition, swap. -/
def rootDataSwap : Disk := disk 5120 [pRoot, pData 2 100 "/data", pSwap 3]

/-- A plan with a data partition that has no mount point of its own. -/
def rootBootRaw : Disk := disk 5120 [pRoot, pData 2 100 "/boot", pData 3 100 ""]

/-- A swap partition (type code 82) with an explicit size. -/
def pSwapSized (seq size : Int) : Partition :=
  { Sequence := seq, SizeMb := size, SizePercents := 0, Label := "SWAP", MountPoint := "SWAP",
    FileSystem := "swap", FileSystemArgs := "", TypeCode := 82 }

/-- The plan of the documented scenario: root of 3045 MB, swap of 400 MB. -/
def rootSwap400 : Disk := disk 5120 [pRoot, pSwapSized 2 400]

/-- A plan of six partitions: five with explicit sizes, the last takes the rest. -/
def sixParts : Disk :=
  disk 5120 [pData 1 10 "/a", pData 2 10 "/b", pData 3 10 "/c", pData 4 10 "/d",
    pData 5 10 "/e", pSwap 6]

/-- A plan whose first partition carries the remaining-space marker. -/
def markerFirst : Disk := disk 5120 [pSwap 1, pData 2 100 "/"]

/-- A raw disk whose configuration declares no partitions. -/
def noPlan : Disk :=
  { Path := "/img/disk", StorageType := "raw", SizeMb := 5120, Bootable := false,
    ActivePartition := 0, BootLoader := .Grub, FdiskCmd := "", Partitions := none }

/-- A host like `hostOk` on which the partitioning command fails. -/
def hostFdiskFails (nodes : String) : Env where
  run := fun _ cmd =>
    if cmd = "losetup -f" then ⟨"/dev/loop0", none⟩
    else if cmd = "find /dev -name loop0p[0-9]" then ⟨nodes, none⟩
    else if startsWith "echo -e".data cmd.data then
      ⟨"Re-reading the partition table failed", some "exit status 1"⟩
    else ⟨"", none⟩
  isMounted := fun _ _ => (false, none)
  mounted := fun _ _ _ => (true, none)
  customize := fun _ _ => none
  detach := fun _ => none
  FormatError := fun e => e

/-- A host on which every command succeeds and a mount point counts as
mounted until an `umount -l` of it has been issued. -/
def hostTracksMounts : Env where
  run := fun _ cmd => if cmd = "losetup -f" then ⟨"/dev/loop0", none⟩ else ⟨"", none⟩
  isMounted := fun _ _ => (false, none)
  mounted := fun trace _ mountPoint => (decide (("umount -l " ++ mountPoint) ∉ trace), none)
  customize := fun _ _ => none
  detach := fun _ => none
  FormatError := fun e => e

/-- A host like `hostOk` on which `losetup -f` answers `/dev/loop0` first and
`/dev/loop1` once a loop device has been attached, `mktemp` answers
`/tmp/dummy`, and a chosen command fails. -/
def hostFailing (failing : String) : Env where
  run := fun trace cmd =>
    if cmd = failing then ⟨"failed", some "exit status 1"⟩
    else if cmd = "losetup -f" then
      (if trace = [] then ⟨"/dev/loop0", none⟩ else ⟨"/dev/loop1", none⟩)
    else if cmd = "mktemp -d --suffix _deployer_dummy_loop" then ⟨"/tmp/dummy", none⟩
    else ⟨"", none⟩
  isMounted := fun _ _ => (false, none)
  mounted := fun _ _ _ => (true, none)
  customize := fun _ _ => none
  detach := fun _ => none
  FormatError := fun e => e

/-- A host on which the setup command of the legacy bootloader reports
success and prints `out`. -/
def hostGrubPrints (out : String) : Env where
  run := fun _ cmd =>
    if cmd = "chroot /mnt/rootfs  which grub" then ⟨"/usr/sbin/grub", none⟩
    else if startsWith "echo -e".data cmd.data then ⟨out, none⟩
    else ⟨"", none⟩
  isMounted := fun _ _ => (false, none)
  mounted := fun _ _ _ => (true, none)
  customize := fun _ _ => none
  detach := fun _ => none
  FormatError := fun e => e

/-- A disk of a given storage type and path, without partitions. -/
def typedDisk (storageType path : String) (bootLoader : BootLoaderType) : Disk :=
  { Path := path, StorageType := storageType, SizeMb := 5120, Bootable := true,
    ActivePartition := 1, BootLoader := bootLoader, FdiskCmd := "", Partitions := none }

/-- An engine of `builder/common/image` bound to `/dev/loop0` with the
registry root, data partition. -/
def commonTwoMounted : CommonImage.St :=
  { img := { imgpath := "/img/disk.raw", slashpath := "/mnt/rootfs", localmount := "",
             conf := { Name := "Test", TypeName := "1", HddSizeGb := 5, Bootable := true,
                       FdiskCmd := "", Description := "", Partitions := [] },
             needToFormat := false,
             loopDevice := { name := "/dev/loop0",
                             mappers := [⟨"/dev/mapper/loop0p1", "/mnt/rootfs"⟩,
                                         ⟨"/dev/mapper/loop0p2", "/mnt/rootfs/data"⟩],
                             amountOfMappers := 2 },
             utils := { Grub := "grub", Kpartx := "kpartx", dir := "" } },
    trace := [], customized := [], detached := [] }

/-- A parsed configuration with one topology. -/
def onePlatform : CommonImage.Platforms :=
  { Platforms := [{ Name := "Test", TypeName := "1", HddSizeGb := 5, Bootable := true,
                    FdiskCmd := "", Description := "", Partitions := [] }] }

/-- An engine in local mode, bound to `/dev/loop0`, with a given registry and
the two-stage bootloader. -/
def grub2Engine (mappers : List mapperDevice) : St :=
  { img := { config := typedDisk "raw" "/img/disk.raw" .Grub2, slashpath := "/mnt/rootfs",
             needToFormat := false,
             loopDevice := { name := "/dev/loop0", mappers := mappers,
                             amountOfMappers := mappers.length % 256 },
             utils := { Kpartx := "kpartx", dir := "" }, localmount := "" },
    trace := [], customized := [], detached := [] }

/-- The plan root, swap on a disk with the two-stage bootloader. -/
def rootSwapGrub2 : Disk :=
  { Path := "/img/disk.raw", StorageType := "raw", SizeMb := 5120, Bootable := true,
    ActivePartition := 1, BootLoader := .Grub2, FdiskCmd := "",
    Partitions := some [pRoot, pSwap 2] }

end Sample

/-! ## Theorems: partition table synthesis -/

section Synthesis

open BuilderImage

/-- The creation text of a partition that is not the remaining-space last
partition does not depend on the logical-drive counter. -/
theorem createFragment_sized (n ld seq size : Int) (h : ¬ (seq = n ∧ size = allocateAll)) :
    (createFragment n ld seq size).1 =
      if seq < 4 then "n\\np\\n" ++ fmtD seq ++ "\\n\\n+" ++ fmtD size ++ "M\\n"
      else if seq = 4 then "n\\ne\\n\\n\\n\\n+" ++ fmtD size ++ "M\\n"
      else "n\\n\\n+" ++ fmtD size ++ "M\\n" := by
  unfold createFragment extendedPart
  rw [if_neg h]
  split
  · rfl
  · split <;> rfl

/-- The fragment at position `k` of the loop is the one the `switch` builds
for the partition at position `k`, for some value of the logical-drive counter. -/
theorem fragmentsLoop_get (T n : Int) :
    ∀ (parts : List Partition) (index : Nat) (ld : Int) (k : Nat) (part : Partition),
      parts[k]? = some part →
      ∃ ld1 : Int, (fragmentsLoop T n index ld parts)[k]? =
        some ((createFragment n ld1 part.Sequence (resolveSizeMb T part)).1,
          typeFragment (index + k) part) := by
  intro parts
  induction parts with
  | nil => intro index ld k part h; simp at h
  | cons p rest ih =>
    intro index ld k part h
    cases k with
    | zero =>
      simp only [List.getElem?_cons_zero, Option.some.injEq] at h
      subst h
      exact ⟨ld, by simp [fragmentsLoop]⟩
    | succ j =>
      simp only [List.getElem?_cons_succ] at h
      obtain ⟨ld1, h1⟩ := ih (index + 1) _ j part h
      refine ⟨ld1, ?_⟩
      simp only [fragmentsLoop, List.getElem?_cons_succ]
      rw [h1]
      congr 3
      omega

/-- The creation text `generateFdiskCmd` appends for the partition at
position `k`, when it is not the remaining-space last partition. -/
theorem fdiskFragments_sized (c : Disk) (k : Nat) (part : Partition)
    (hk : c.parts[k]? = some part)
    (h : ¬ (part.Sequence = c.parts.length ∧ resolveSizeMb c.SizeMb part = allocateAll)) :
    ((fdiskFragments c)[k]?).map Prod.fst =
      some (if part.Sequence < 4 then
          "n\\np\\n" ++ fmtD part.Sequence ++ "\\n\\n+" ++
            fmtD (resolveSizeMb c.SizeMb part) ++ "M\\n"
        else if part.Sequence = 4 then
          "n\\ne\\n\\n\\n\\n+" ++ fmtD (resolveSizeMb c.SizeMb part) ++ "M\\n"
        else "n\\n\\n+" ++ fmtD (resolveSizeMb c.SizeMb part) ++ "M\\n") := by
  obtain ⟨ld1, h1⟩ := fragmentsLoop_get c.SizeMb c.parts.length c.parts 0 5 k part hk
  unfold fdiskFragments
  rw [h1, Option.map_some', createFragment_sized _ _ _ _ h]

/-- C8: a partition with an explicit size that is not the remaining-space
last partition is placed by its sequence number: sequence 1, 2 or 3 gives the
create-primary text with that number and `+<size>M`, sequence 4 the
create-extended text, sequence 5 or more the text that creates a logical
drive without a primary/extended selector. -/
theorem fdisk_placement_by_sequence (c : BuilderImage.Disk) (k : Nat)
    (part : BuilderImage.Partition)
    (hk : c.parts[k]? = some part)
    (hexplicit : part.SizeMb ≠ BuilderImage.calcInPercents)
    (hnotlast : ¬ (part.Sequence = c.parts.length ∧ part.SizeMb = BuilderImage.allocateAll)) :
    ((1 ≤ part.Sequence ∧ part.Sequence ≤ 3) →
      ((BuilderImage.fdiskFragments c)[k]?).map Prod.fst =
        some ("n\\np\\n" ++ fmtD part.Sequence ++ "\\n\\n+" ++ fmtD part.SizeMb ++ "M\\n")) ∧
    (part.Sequence = 4 →
      ((BuilderImage.fdiskFragments c)[k]?).map Prod.fst =
        some ("n\\ne\\n\\n\\n\\n+" ++ fmtD part.SizeMb ++ "M\\n")) ∧
    (5 ≤ part.Sequence →
      ((BuilderImage.fdiskFragments c)[k]?).map Prod.fst =
        some ("n\\n\\n+" ++ fmtD part.SizeMb ++ "M\\n")) := by
  have hsize : resolveSizeMb c.SizeMb part = part.SizeMb := by
    unfold resolveSizeMb; rw [if_neg hexplicit]
  have h := fdiskFragments_sized c k part hk (by rw [hsize]; exact hnotlast)
  rw [hsize] at h
  refine ⟨fun hs => ?_, fun hs => ?_, fun hs => ?_⟩
  · rw [h, if_pos (by omega)]
  · rw [h, if_neg (by omega), if_pos hs]
  · rw [h, if_neg (by omega), if_neg (by omega)]

/-- Witness of C8: the plan of six partitions with explicit sizes; its
third, fourth and fifth partitions. -/
theorem fdisk_placement_by_sequence_witness :
    ((BuilderImage.fdiskFragments (Sample.disk 5120
        [Sample.pData 1 10 "/a", Sample.pData 2 10 "/b", Sample.pData 3 10 "/c",
         Sample.pData 4 10 "/d", Sample.pData 5 10 "/e", Sample.pSwap 6]))[2]?).map Prod.fst =
      some ("n\\np\\n" ++ fmtD 3 ++ "\\n\\n+" ++ fmtD 10 ++ "M\\n") :=
  (fdisk_placement_by_sequence (Sample.disk 5120
      [Sample.pData 1 10 "/a", Sample.pData 2 10 "/b", Sample.pData 3 10 "/c",
       Sample.pData 4 10 "/d", Sample.pData 5 10 "/e", Sample.pSwap 6]) 2
    (Sample.pData 3 10 "/c") (by decide) (by decide) (by decide)).1 (by decide)

/-- A list starts with each of its own beginnings. -/
theorem startsWith_append (p l : List Char) : startsWith p (p ++ l) = true := by
  induction p with
  | nil => rfl
  | cons a p ih => simp [startsWith, ih]

/-- The creation text of a partition of sequence at most 4, whatever the
logical-drive counter is. -/
theorem createFragment_le4 (n ld seq size : Int) (hseq : seq ≤ 4) :
    (createFragment n ld seq size).1 =
      if seq = n ∧ size = allocateAll then
        (if seq < 4 then "n\\np\\n" ++ fmtD seq ++ "\\n\\n\\n" else "n\\np\\n\\n\\n")
      else if seq < 4 then "n\\np\\n" ++ fmtD seq ++ "\\n\\n+" ++ fmtD size ++ "M\\n"
      else "n\\ne\\n\\n\\n\\n+" ++ fmtD size ++ "M\\n" := by
  unfold createFragment extendedPart
  by_cases h : seq = n ∧ size = allocateAll
  · rw [if_pos h, if_pos h, if_neg (by omega)]
    by_cases h4 : seq < 4
    · rw [if_pos h4, if_pos h4]
    · rw [if_neg h4, if_neg h4, if_pos (by omega)]
  · rw [if_neg h, if_neg h]
    by_cases h4 : seq < 4
    · rw [if_pos h4, if_pos h4]
    · rw [if_neg h4, if_neg h4, if_pos (by omega)]

/-- Counterexample to C9: in the plan of four partitions with explicit
sizes, sequences 1 to 4, the fragment of the fourth partition creates the
extended partition, so not every fragment creates a primary partition. -/
theorem fdisk_four_explicit_has_extended :
    ((BuilderImage.fdiskFragments (Sample.disk 5120
        [Sample.pData 1 10 "/a", Sample.pData 2 10 "/b", Sample.pData 3 10 "/c",
         Sample.pData 4 10 "/d"]))[3]?).map Prod.fst = some "n\\ne\\n\\n\\n\\n+10M\\n" ∧
    ¬ ∀ f ∈ BuilderImage.fdiskFragments (Sample.disk 5120
        [Sample.pData 1 10 "/a", Sample.pData 2 10 "/b", Sample.pData 3 10 "/c",
         Sample.pData 4 10 "/d"]), isCreatePrimary f.1 = true := by
  decide

/-- C9 (amended): in a plan of N ≤ 4 partitions with sequences 1..N, the
fragment of a partition of sequence 1, 2 or 3 creates a primary partition;
the fragment of sequence 4 is the primary text `n p` with an empty extent
when the partition carries the remaining-space marker and the
create-extended text with `+<size>M` otherwise; no fragment creates a
logical drive. -/
theorem fdisk_small_plan_placement (c : BuilderImage.Disk) (k : Nat)
    (part : BuilderImage.Partition)
    (hN : c.parts.length ≤ 4)
    (hseq : ∀ (i : Nat) (p : BuilderImage.Partition), c.parts[i]? = some p → p.Sequence = i + 1)
    (hk : c.parts[k]? = some part) :
    ∃ frag : String, ((BuilderImage.fdiskFragments c)[k]?).map Prod.fst = some frag ∧
      (part.Sequence ≤ 3 → isCreatePrimary frag = true) ∧
      ((part.Sequence = 4 ∧
          BuilderImage.resolveSizeMb c.SizeMb part = BuilderImage.allocateAll) →
        frag = "n\\np\\n\\n\\n") ∧
      ((part.Sequence = 4 ∧
          BuilderImage.resolveSizeMb c.SizeMb part ≠ BuilderImage.allocateAll) →
        frag = "n\\ne\\n\\n\\n\\n+" ++ fmtD (BuilderImage.resolveSizeMb c.SizeMb part) ++ "M\\n") ∧
      (isCreatePrimary frag = true ∨ isCreateExtended frag = true) := by
  have hklt : k < c.parts.length := by
    rcases Nat.lt_or_ge k c.parts.length with h | h
    · exact h
    · rw [List.getElem?_eq_none h] at hk; cases hk
  have hs : part.Sequence = k + 1 := hseq k part hk
  have hle : part.Sequence ≤ 4 := by omega
  obtain ⟨ld1, h1⟩ := fragmentsLoop_get c.SizeMb c.parts.length c.parts 0 5 k part hk
  have hfrag : ((fdiskFragments c)[k]?).map Prod.fst =
      some (createFragment c.parts.length ld1 part.Sequence (resolveSizeMb c.SizeMb part)).1 := by
    unfold fdiskFragments; rw [h1, Option.map_some']
  rw [createFragment_le4 _ _ _ _ hle] at hfrag
  refine ⟨_, hfrag, ?_, ?_, ?_, ?_⟩
  · intro h3
    have h4 : part.Sequence < 4 := by omega
    simp only [h4, if_true]
    split
    · simp only [isCreatePrimary, String.append_assoc, String.data_append]
      exact startsWith_append _ _
    · simp only [isCreatePrimary, String.append_assoc, String.data_append]
      exact startsWith_append _ _
  · rintro ⟨h4, hsz⟩
    have hn : part.Sequence = c.parts.length := by omega
    rw [if_pos ⟨hn, hsz⟩, if_neg (by omega)]
  · rintro ⟨h4, hsz⟩
    rw [if_neg (fun h => hsz h.2), if_neg (by omega)]
  · by_cases h : part.Sequence = c.parts.length ∧ resolveSizeMb c.SizeMb part = allocateAll
    · left
      rw [if_pos h]
      split
      · simp only [isCreatePrimary, String.append_assoc, String.data_append]
        exact startsWith_append _ _
      · rfl
    · rw [if_neg h]
      split
      · left
        simp only [isCreatePrimary, String.append_assoc, String.data_append]
        exact startsWith_append _ _
      · right
        simp only [isCreateExtended, String.append_assoc, String.data_append]
        exact startsWith_append _ _

/-- Witness of C9 (amended): the plan root (3045 MB), swap (the remainder). -/
theorem fdisk_small_plan_placement_witness :
    ∃ frag : String,
      ((BuilderImage.fdiskFragments (Sample.disk 5120 [Sample.pRoot, Sample.pSwap 2]))[1]?).map
        Prod.fst = some frag ∧ isCreatePrimary frag = true :=
  let ⟨frag, h, hp, _⟩ := fdisk_small_plan_placement
    (Sample.disk 5120 [Sample.pRoot, Sample.pSwap 2]) 1 (Sample.pSwap 2) (by decide)
    (by
      intro i p h
      match i, h with
      | 0, h => cases h; rfl
      | 1, h => cases h; rfl
      | i + 2, h => simp [Sample.disk, BuilderImage.Disk.parts] at h)
    (by decide)
  ⟨frag, h, hp (by decide)⟩

/-- Values inside the range of Go's `int` are not changed by the wrap. -/
theorem wrapInt_eq (x : Int) (h0 : 0 ≤ x) (h1 : x < 9223372036854775808) : wrapInt x = x := by
  unfold wrapInt
  omega

/-- Counterexample to C10: on a disk of 2^63 - 1 MB a partition of 101
percent is given the size -9131138316486228058, not floor(T / 100) * 101. -/
theorem fdisk_percentage_overflow :
    BuilderImage.resolveSizeMb 9223372036854775807 (Sample.pPercent 1 101) ≠
      9223372036854775807 / 100 * 101 ∧
    ((BuilderImage.fdiskFragments
        (Sample.disk 9223372036854775807 [Sample.pPercent 1 101]))[0]?).map Prod.fst =
      some "n\\np\\n1\\n\\n+-9131138316486228058M\\n" := by
  decide

/-- C10 (amended): for a disk of T ≥ 0 MB and a partition whose size is the
percentage p ≥ 0, when floor(T / 100) * p fits Go's `int` (is below 2^63),
the size resolved for the partition, and written after `+` in its creation
text, is exactly floor(T / 100) * p. -/
theorem fdisk_percentage_size (c : BuilderImage.Disk) (k : Nat)
    (part : BuilderImage.Partition)
    (hk : c.parts[k]? = some part)
    (hpct : part.SizeMb = -1)
    (hT : 0 ≤ c.SizeMb) (hp : 0 ≤ part.SizePercents)
    (hfit : c.SizeMb / 100 * part.SizePercents < 9223372036854775808) :
    BuilderImage.resolveSizeMb c.SizeMb part = c.SizeMb / 100 * part.SizePercents ∧
    ((BuilderImage.fdiskFragments c)[k]?).map Prod.fst =
      some (if part.Sequence < 4 then
          "n\\np\\n" ++ fmtD part.Sequence ++ "\\n\\n+" ++
            fmtD (c.SizeMb / 100 * part.SizePercents) ++ "M\\n"
        else if part.Sequence = 4 then
          "n\\ne\\n\\n\\n\\n+" ++ fmtD (c.SizeMb / 100 * part.SizePercents) ++ "M\\n"
        else "n\\n\\n+" ++ fmtD (c.SizeMb / 100 * part.SizePercents) ++ "M\\n") := by
  have hnn : 0 ≤ c.SizeMb / 100 * part.SizePercents :=
    Int.mul_nonneg (Int.ediv_nonneg hT (by decide)) hp
  have hsize : resolveSizeMb c.SizeMb part = c.SizeMb / 100 * part.SizePercents := by
    unfold resolveSizeMb calcInPercents allocateAll
    rw [if_pos hpct, if_neg (by omega), Int.tdiv_eq_ediv hT (by decide)]
    exact wrapInt_eq _ hnn hfit
  refine ⟨hsize, ?_⟩
  have h := fdiskFragments_sized c k part hk
    (by rw [hsize]; unfold allocateAll; intro h; omega)
  rw [hsize] at h
  exact h

/-- Witness of C10 (amended): 30 percent of a disk of 5120 MB is 1530 MB. -/
theorem fdisk_percentage_size_witness :
    BuilderImage.resolveSizeMb 5120 (Sample.pPercent 2 30) = 5120 / 100 * 30 :=
  (fdisk_percentage_size (Sample.disk 5120 [Sample.pRoot, Sample.pPercent 2 30]) 1
    (Sample.pPercent 2 30) (by decide) (by decide) (by decide) (by decide) (by decide)).1

end Synthesis

/-! ## Theorems: customization guard and loop-device binding -/

section Guard

/-- C4: with the active-mapper counter at 0, `Customize` returns an error and
leaves the engine, the command trace and the customizer record unchanged;
with a non-zero counter it issues no command, calls the customizer once with
the working root and returns what the customizer returns.  Both engines. -/
theorem customize_requires_mappers (env : Env) (s : BuilderImage.St) (t : CommonImage.St)
    (dir : String) :
    (s.img.loopDevice.amountOfMappers = 0 →
      ∃ msg : String, BuilderImage.Customize env s dir = (Res.error msg, s)) ∧
    (s.img.loopDevice.amountOfMappers ≠ 0 →
      BuilderImage.Customize env s dir =
        (match env.customize s.img.slashpath dir with
          | none => Res.ok ()
          | some e => Res.error e,
         { s with customized := s.customized ++ [(s.img.slashpath, dir)] })) ∧
    (t.img.loopDevice.amountOfMappers = 0 →
      ∃ msg : String, CommonImage.Customize env t dir = (Res.error msg, t)) ∧
    (t.img.loopDevice.amountOfMappers ≠ 0 →
      CommonImage.Customize env t dir =
        (match env.customize t.img.slashpath dir with
          | none => Res.ok ()
          | some e => Res.error e,
         { t with customized := t.customized ++ [(t.img.slashpath, dir)] })) := by
  refine ⟨fun h => ?_, fun h => ?_, fun h => ?_, fun h => ?_⟩
  · exact ⟨_, by unfold BuilderImage.Customize; rw [if_pos h]⟩
  · unfold BuilderImage.Customize; rw [if_neg h]
  · exact ⟨_, by unfold CommonImage.Customize; rw [if_pos h]⟩
  · unfold CommonImage.Customize; rw [if_neg h]

/-- Witness of C4: an engine fresh from `New` (counter 0) and an engine of
the other package with one active mapper. -/
theorem customize_requires_mappers_witness :
    (∃ msg : String,
      BuilderImage.Customize (Sample.hostOk "")
          (Sample.engine (Sample.disk 5120 []) "/mnt/rootfs" false) "/conf" =
        (Res.error msg, Sample.engine (Sample.disk 5120 []) "/mnt/rootfs" false)) ∧
    (CommonImage.Customize (Sample.hostOk "") (Sample.commonEngine 1) "/conf").2.customized =
      [("/mnt/rootfs", "/conf")] :=
  have h := customize_requires_mappers (Sample.hostOk "")
    (Sample.engine (Sample.disk 5120 []) "/mnt/rootfs" false) (Sample.commonEngine 1) "/conf"
  ⟨h.1 rfl, by rw [h.2.2.2 (by decide)]; rfl⟩

/-- When `losetup -f` succeeds, `bind` reports success whatever the attach
command answers. -/
theorem bind_ignores_attach (env : Env) (s : BuilderImage.St) (imagePath : String)
    (h : (env.run s.trace "losetup -f").err = none) :
    (BuilderImage.bind env s imagePath).1 = ((env.run s.trace "losetup -f").out, none) := by
  simp [BuilderImage.bind, exec, h]

/-- C5 (the code at the failing input): on a host where `losetup -f` answers
`/dev/loop0` and the attach command `losetup /dev/loop0 /img/disk.raw` fails,
`bind` of either engine issues the attach command and returns `/dev/loop0`
with no error. -/
theorem bind_attach_failure_not_reported :
    (Sample.hostAttachRejected.run ["losetup -f"] "losetup /dev/loop0 /img/disk.raw").err =
      some "exit status 1" ∧
    (BuilderImage.bind Sample.hostAttachRejected
        (Sample.engine (Sample.disk 5120 []) "/mnt/rootfs" true) "/img/disk.raw").1 =
      ("/dev/loop0", none) ∧
    (BuilderImage.bind Sample.hostAttachRejected
        (Sample.engine (Sample.disk 5120 []) "/mnt/rootfs" true) "/img/disk.raw").2.trace =
      ["losetup -f", "losetup /dev/loop0 /img/disk.raw"] ∧
    (CommonImage.bind Sample.hostAttachRejected (Sample.commonEngine 0)).1 =
      ("/dev/loop0", none) ∧
    (CommonImage.bind Sample.hostAttachRejected (Sample.commonEngine 0)).2.trace =
      ["losetup -f", "losetup /dev/loop0 /img/disk.raw"] := by
  decide

end Guard

/-! ## Theorems: release -/

section Release

open BuilderImage

/-- The unmount loop never returns once it stands on an entry whose mount
point is `/`: neither the counter nor the index moves. -/
theorem unmountLoop_spins (env : Env) (index : Nat) (s : St) (m : mapperDevice)
    (hcount : s.img.loopDevice.amountOfMappers ≠ 0)
    (hm : s.img.loopDevice.mappers[index]? = some m) (hroot : m.mountPoint = "/") :
    ∀ fuel : Nat, unmountLoop env fuel index s = none := by
  intro fuel
  induction fuel with
  | zero => rfl
  | succ f ih =>
    unfold unmountLoop
    simp only [hm]
    rw [if_pos hcount, if_neg (by simp [hroot])]
    exact ih

/-- On a host where every command succeeds, a chain of commands runs to its end. -/
theorem runAll_ok (env : Env) (hok : ∀ t c, (env.run t c).err = none) :
    ∀ (cmds : List String) (s : St),
      runAll env cmds s = (Res.ok (), { s with trace := s.trace ++ cmds }) := by
  intro cmds
  induction cmds with
  | nil => intro s; simp [runAll]
  | cons c rest ih =>
    intro s
    unfold runAll
    simp only [exec, hok]
    rw [ih]
    simp

/-- On a host where every command succeeds, the unmount loop started with
counter `k` and index `k - 1` unmounts the first `k` entries of the registry
from the last to the first and leaves the counter at 0. -/
theorem unmountLoop_all (env : Env) (hok : ∀ t c, (env.run t c).err = none) :
    ∀ (k : Nat) (s : St) (fuel : Nat),
      k ≤ s.img.loopDevice.mappers.length → s.img.loopDevice.mappers.length ≤ 255 →
      (∀ m ∈ s.img.loopDevice.mappers, m.mountPoint ≠ "/") →
      s.img.loopDevice.amountOfMappers = k → k < fuel →
      unmountLoop env fuel (decU8 k) s =
        some (Res.ok (), setAmount { s with trace := s.trace ++
          ((s.img.loopDevice.mappers.take k).reverse.map
            fun m => "umount -l " ++ m.mountPoint) } 0) := by
  intro k
  induction k with
  | zero =>
    intro s fuel _ _ _ hk hfuel
    obtain ⟨f, rfl⟩ : ∃ f, fuel = f + 1 := ⟨fuel - 1, by omega⟩
    unfold unmountLoop
    rw [if_neg (by simp [hk])]
    obtain ⟨⟨cfg, sp, ntf, ⟨nm, mp, am⟩, ut, lm⟩, tr, cu, de⟩ := s
    simp only at hk
    subst hk
    simp only [setAmount, List.take_zero, List.reverse_nil, List.map_nil, List.append_nil]
  | succ k ih =>
    intro s fuel hle h255 hne hk hfuel
    obtain ⟨f, rfl⟩ : ∃ f, fuel = f + 1 := ⟨fuel - 1, by omega⟩
    have hidx : decU8 (k + 1) = k := by unfold decU8; omega
    have hlt : k < s.img.loopDevice.mappers.length := by omega
    have hget : s.img.loopDevice.mappers[k]? = some (s.img.loopDevice.mappers[k]) :=
      List.getElem?_eq_getElem hlt
    have hmp : (s.img.loopDevice.mappers[k]).mountPoint ≠ "/" :=
      hne _ (List.getElem_mem hlt)
    unfold unmountLoop
    rw [hidx]
    simp only [hget]
    rw [if_pos (by rw [hk]; omega), if_pos hmp]
    simp only [exec, hok]
    rw [hk, hidx]
    have h := ih (setAmount { s with trace := s.trace ++
        ["umount -l " ++ (s.img.loopDevice.mappers[k]).mountPoint] } k) f
      (by simp [setAmount]; omega) (by simpa [setAmount] using h255)
      (by simpa [setAmount] using hne) (by simp [setAmount]) (by omega)
    rw [h]
    simp only [setAmount, List.take_succ, hget, Option.toList, List.reverse_append,
      List.reverse_cons, List.reverse_nil, List.nil_append, List.map_append, List.map_cons,
      List.map_nil, List.append_assoc, List.singleton_append, List.cons_append]

/-- Every command succeeds on the host `Sample.hostOk`. -/
theorem hostOk_succeeds (nodes : String) (t : List String) (c : String) :
    ((Sample.hostOk nodes).run t c).err = none := by
  unfold Sample.hostOk
  dsimp only
  split
  · rfl
  · split <;> rfl

/-- Counterexample to C1: with the registry [data partition, an entry whose
mount point is `/`] and every command succeeding, no run of `Cleanup`
returns, so it never issues the list of commands the claim gives. -/
theorem cleanup_root_entry_no_result :
    ¬ ∃ (fuel : Nat) (s1 : BuilderImage.St),
      BuilderImage.Cleanup (Sample.hostOk "") fuel
          (Sample.engineWith [⟨"/dev/mapper/loop0p2", "/mnt/rootfs/data"⟩,
            ⟨"/dev/mapper/loop0p3", "/"⟩]) = some (Res.ok (), s1) ∧
      s1.trace = ["umount -l /", "umount -l /mnt/rootfs/data", "umount -l /mnt/rootfs",
        "kpartx -d /dev/loop0", "losetup -d /dev/loop0", "rm -rf /mnt/rootfs"] := by
  rintro ⟨fuel, s1, h, -⟩
  have hspin := unmountLoop_spins (Sample.hostOk "") 1
    (Sample.engineWith [⟨"/dev/mapper/loop0p2", "/mnt/rootfs/data"⟩,
      ⟨"/dev/mapper/loop0p3", "/"⟩]) ⟨"/dev/mapper/loop0p3", "/"⟩
    (by decide) (by decide) rfl fuel
  have hnone : Cleanup (Sample.hostOk "") fuel
      (Sample.engineWith [⟨"/dev/mapper/loop0p2", "/mnt/rootfs/data"⟩,
        ⟨"/dev/mapper/loop0p3", "/"⟩]) = none := by
    unfold Cleanup
    rw [if_neg (by decide)]
    dsimp only
    have hidx : decU8 (Sample.engineWith [⟨"/dev/mapper/loop0p2", "/mnt/rootfs/data"⟩,
      ⟨"/dev/mapper/loop0p3", "/"⟩]).img.loopDevice.amountOfMappers = 1 := by decide
    rw [hidx, hspin]
  rw [hnone] at h
  cases h

/-- C1 (amended): in local mode, when every command succeeds, `Cleanup` on a
registry [m_0, ..., m_(n-1)] of n ≤ 255 entries none of whose mount points is
`/` (the counter being n) returns without error, having issued exactly:
`umount -l` of the mount points of m_(n-1), ..., m_0 in this order, `umount -l`
of the working root, `<kpartx> -d <loop device>`, `losetup -d <loop device>`
and `rm -rf <working root>`. -/
theorem cleanup_reverse_order (env : Env) (s : BuilderImage.St) (fuel : Nat)
    (hlocal : s.img.localmount = "")
    (hok : ∀ (t : List String) (c : String), (env.run t c).err = none)
    (hcount : s.img.loopDevice.amountOfMappers = s.img.loopDevice.mappers.length)
    (hlen : s.img.loopDevice.mappers.length ≤ 255)
    (hne : ∀ m ∈ s.img.loopDevice.mappers, m.mountPoint ≠ "/")
    (hfuel : s.img.loopDevice.mappers.length < fuel) :
    ∃ s1 : BuilderImage.St, BuilderImage.Cleanup env fuel s = some (Res.ok (), s1) ∧
      s1.trace = s.trace ++
        (s.img.loopDevice.mappers.reverse.map fun m => "umount -l " ++ m.mountPoint) ++
        ["umount -l " ++ s.img.slashpath,
         s.img.utils.Kpartx ++ " -d " ++ s.img.loopDevice.name,
         "losetup -d " ++ s.img.loopDevice.name,
         "rm -rf " ++ s.img.slashpath] ∧
      BuilderImage.AmountOfMappers s1 = 0 ∧ s1.detached = s.detached := by
  have hloop := unmountLoop_all env hok s.img.loopDevice.mappers.length s fuel
    (Nat.le_refl _) hlen hne hcount hfuel
  rw [List.take_length] at hloop
  have hc : Cleanup env fuel s = some (runAll env
      (teardownCmds (setAmount { s with trace := s.trace ++
        (s.img.loopDevice.mappers.reverse.map fun m => "umount -l " ++ m.mountPoint) } 0).img)
      (setAmount { s with trace := s.trace ++
        (s.img.loopDevice.mappers.reverse.map fun m => "umount -l " ++ m.mountPoint) } 0)) := by
    unfold Cleanup
    rw [if_neg (by simp [hlocal])]
    dsimp only
    rw [hcount, hloop]
  rw [runAll_ok env hok] at hc
  refine ⟨_, hc, ?_, rfl, rfl⟩
  simp only [setAmount, teardownCmds, hlocal, ne_eq, not_true_eq_false, if_false,
    List.append_nil, List.append_assoc]

/-- Witness of C1 (amended): a registry of two mounted data partitions. -/
theorem cleanup_reverse_order_witness :
    ∃ s1 : BuilderImage.St,
      BuilderImage.Cleanup (Sample.hostOk "") 3
          (Sample.engineWith [⟨"/dev/mapper/loop0p2", "/mnt/rootfs/boot"⟩,
            ⟨"/dev/mapper/loop0p3", "/mnt/rootfs/data"⟩]) = some (Res.ok (), s1) ∧
      s1.trace = ["umount -l /mnt/rootfs/data", "umount -l /mnt/rootfs/boot",
        "umount -l /mnt/rootfs", "kpartx -d /dev/loop0", "losetup -d /dev/loop0",
        "rm -rf /mnt/rootfs"] :=
  let ⟨s1, h1, h2, _⟩ := cleanup_reverse_order (Sample.hostOk "")
    (Sample.engineWith [⟨"/dev/mapper/loop0p2", "/mnt/rootfs/boot"⟩,
      ⟨"/dev/mapper/loop0p3", "/mnt/rootfs/data"⟩]) 3
    rfl (hostOk_succeeds "") (by decide) (by decide) (by decide) (by decide)
  ⟨s1, h1, h2.trans (by decide)⟩

/-- C7 (the code at the failing input): an engine with working root `/` parses
the plan root, `/boot`, a partition without mount point; the registry becomes
[`/boot`, `/`].  `Cleanup` then never returns, whatever fuel it is given: the
loop stands on the entry mounted at `/` for ever and the entry registered
before it is not reached. -/
theorem cleanup_loop_stuck_on_root_entry :
    (BuilderImage.Parse (Sample.hostOk Sample.threeNodes)
        (Sample.engine Sample.rootBootRaw "/" true)).1 = Res.ok () ∧
    (BuilderImage.Parse (Sample.hostOk Sample.threeNodes)
        (Sample.engine Sample.rootBootRaw "/" true)).2.img.loopDevice =
      { name := "/dev/loop0",
        mappers := [⟨"/dev/mapper/loop0p2", "/boot"⟩, ⟨"/dev/mapper/loop0p3", "/"⟩],
        amountOfMappers := 2 } ∧
    ¬ ∃ fuel : Nat, (BuilderImage.Cleanup (Sample.hostOk Sample.threeNodes) fuel
        (BuilderImage.Parse (Sample.hostOk Sample.threeNodes)
          (Sample.engine Sample.rootBootRaw "/" true)).2).isSome = true := by
  refine ⟨by decide, by decide, ?_⟩
  rintro ⟨fuel, h⟩
  have hspin := unmountLoop_spins (Sample.hostOk Sample.threeNodes) 1
    (Parse (Sample.hostOk Sample.threeNodes) (Sample.engine Sample.rootBootRaw "/" true)).2
    ⟨"/dev/mapper/loop0p3", "/"⟩ (by decide) (by decide) rfl fuel
  have hidx : decU8 (Parse (Sample.hostOk Sample.threeNodes)
      (Sample.engine Sample.rootBootRaw "/" true)).2.img.loopDevice.amountOfMappers = 1 := by
    decide
  unfold Cleanup at h
  rw [if_neg (by decide)] at h
  dsimp only at h
  rw [hidx, hspin] at h
  cases h

/-- C6 (the code at the failing input): the plan root, data, swap is attached
and released.  The first `Cleanup` succeeds.  The second `Cleanup` issues
`umount -l /mnt/rootfs` again; on a host where unmounting a path that is no
longer mounted fails it returns that error, and on a host where every command
succeeds it repeats the whole teardown. -/
theorem cleanup_twice_unmounts_root_again :
    (BuilderImage.Parse (Sample.hostUmountOnce Sample.threeNodes)
        (Sample.engine Sample.rootDataSwap "/mnt/rootfs" false)).1 = Res.ok () ∧
    (BuilderImage.Cleanup (Sample.hostUmountOnce Sample.threeNodes) 10
        (BuilderImage.Parse (Sample.hostUmountOnce Sample.threeNodes)
          (Sample.engine Sample.rootDataSwap "/mnt/rootfs" false)).2).map Prod.fst =
      some (Res.ok ()) ∧
    (BuilderImage.Cleanup (Sample.hostUmountOnce Sample.threeNodes) 10
        (Sample.afterCleanup (Sample.hostUmountOnce Sample.threeNodes) 10
          (BuilderImage.Parse (Sample.hostUmountOnce Sample.threeNodes)
            (Sample.engine Sample.rootDataSwap "/mnt/rootfs" false)).2)).map
        (fun r => (r.1, r.2.trace)) =
      some (Res.error "umount: not mounted [exit status 32]",
        ["losetup -f", "losetup /dev/loop0 /img/disk.raw", "kpartx -a /dev/loop0",
         "find /dev -name loop0p[0-9]", "mount /dev/mapper/loop0p1 /mnt/rootfs",
         "mkdir -p /mnt/rootfs/data", "mount /dev/mapper/loop0p2 /mnt/rootfs/data",
         "umount -l /mnt/rootfs/data", "umount -l /mnt/rootfs", "kpartx -d /dev/loop0",
         "losetup -d /dev/loop0", "rm -rf /mnt/rootfs", "umount -l /mnt/rootfs"]) ∧
    (BuilderImage.Cleanup (Sample.hostOk Sample.threeNodes) 10
        (Sample.afterCleanup (Sample.hostOk Sample.threeNodes) 10
          (BuilderImage.Parse (Sample.hostOk Sample.threeNodes)
            (Sample.engine Sample.rootDataSwap "/mnt/rootfs" false)).2)).map
        (fun r => (r.1, r.2.trace)) =
      some (Res.ok (),
        ["losetup -f", "losetup /dev/loop0 /img/disk.raw", "kpartx -a /dev/loop0",
         "find /dev -name loop0p[0-9]", "mount /dev/mapper/loop0p1 /mnt/rootfs",
         "mkdir -p /mnt/rootfs/data", "mount /dev/mapper/loop0p2 /mnt/rootfs/data",
         "umount -l /mnt/rootfs/data", "umount -l /mnt/rootfs", "kpartx -d /dev/loop0",
         "losetup -d /dev/loop0", "rm -rf /mnt/rootfs", "umount -l /mnt/rootfs",
         "kpartx -d /dev/loop0", "losetup -d /dev/loop0", "rm -rf /mnt/rootfs"]) := by
  refine ⟨by decide, by decide, by decide, by decide⟩

end Release

/-! ## Theorems: parsing an image -/

section Parsing

open BuilderImage

/-- C2 (the code at the failing input): the plan root, data, swap (three
partitions) on a host that reports two partition nodes.  On the attach path
`Parse` mounts the root and the data partition and returns success; on the
format path it formats and mounts them and then faults on the index of the
third node.  Neither path returns an error, and both issue mount commands. -/
theorem parse_count_mismatch_not_detected :
    (BuilderImage.getMappers (Sample.hostOk Sample.twoNodes)
        (Sample.engine Sample.rootDataSwap "/mnt/rootfs" false) "/dev/loop0").1 =
      Res.ok ["/dev/mapper/loop0p1", "/dev/mapper/loop0p2"] ∧
    (BuilderImage.Parse (Sample.hostOk Sample.twoNodes)
        (Sample.engine Sample.rootDataSwap "/mnt/rootfs" false)).1 = Res.ok () ∧
    (BuilderImage.Parse (Sample.hostOk Sample.twoNodes)
        (Sample.engine Sample.rootDataSwap "/mnt/rootfs" false)).2.trace =
      ["losetup -f", "losetup /dev/loop0 /img/disk.raw", "kpartx -a /dev/loop0",
       "find /dev -name loop0p[0-9]", "mount /dev/mapper/loop0p1 /mnt/rootfs",
       "mkdir -p /mnt/rootfs/data", "mount /dev/mapper/loop0p2 /mnt/rootfs/data"] ∧
    (BuilderImage.Parse (Sample.hostOk Sample.twoNodes)
        (Sample.engine Sample.rootDataSwap "/mnt/rootfs" true)).1 = Res.fault ∧
    "mount /dev/mapper/loop0p1 /mnt/rootfs" ∈
      (BuilderImage.Parse (Sample.hostOk Sample.twoNodes)
        (Sample.engine Sample.rootDataSwap "/mnt/rootfs" true)).2.trace := by
  refine ⟨by decide, by decide, by decide, by decide, by decide⟩

theorem frame_refl (s : St) : Frame s s := ⟨rfl, rfl, rfl, rfl, fun _ h => h⟩

theorem frame_trans {a b c : St} (h1 : Frame a b) (h2 : Frame b c) : Frame a c :=
  ⟨h2.1.trans h1.1, h2.2.1.trans h1.2.1, h2.2.2.1.trans h1.2.2.1,
    h2.2.2.2.1.trans h1.2.2.2.1, fun x hx => h2.2.2.2.2 x (h1.2.2.2.2 x hx)⟩

/-- Issuing a command registers nothing. -/
theorem frame_exec (env : Env) (s : St) (cmd : String) : Frame s (exec env s cmd).2 :=
  ⟨rfl, rfl, rfl, rfl, fun _ h => List.mem_append_left _ h⟩

/-- A command issued is in the trace. -/
theorem exec_mem (env : Env) (s : St) (cmd : String) : cmd ∈ (exec env s cmd).2.trace :=
  List.mem_append_right _ (List.mem_singleton.mpr rfl)

theorem frame_bind (env : Env) (s : St) (imagePath : String) :
    Frame s (bind env s imagePath).2 := by
  unfold BuilderImage.bind
  dsimp only
  split
  · exact frame_exec env s _
  · exact frame_trans (frame_exec env s _) (frame_exec env _ _)

theorem frame_getMappers (env : Env) (s : St) (name : String) :
    Frame s (getMappers env s name).2 := by
  unfold BuilderImage.getMappers
  dsimp only
  split
  · exact frame_exec env s _
  · split
    · exact frame_exec env s _
    · split
      · exact frame_trans (frame_exec env s _) (frame_exec env _ _)
      · split
        · exact frame_trans (frame_exec env s _) (frame_exec env _ _)
        · exact frame_trans (frame_exec env s _) (frame_exec env _ _)

/-- The first loop of `partTableMakefs` registers nothing. -/
theorem frame_makefsRootLoop (env : Env) (mappers : List String) :
    ∀ (parts : List Partition) (index : Nat) (s : St),
      Frame s (makefsRootLoop env mappers index parts s).2 := by
  intro parts
  induction parts with
  | nil => intro index s; exact frame_refl s
  | cons part rest ih =>
    intro index s
    unfold BuilderImage.makefsRootLoop
    split
    · split
      · exact frame_refl s
      · dsimp only
        split
        · exact frame_exec env s _
        · split
          · exact frame_trans (frame_exec env s _) (frame_exec env _ _)
          · exact frame_trans (frame_trans (frame_exec env s _) (frame_exec env _ _)) (ih _ _)
    · exact ih _ _

/-- The second loop of `partTableMakefs` registers nothing when every
partition of the plan is a swap partition or the root. -/
theorem frame_makefsRestLoop (env : Env) (mappers : List String) :
    ∀ (parts : List Partition) (index : Nat) (s : St),
      (∀ p ∈ parts, p.TypeCode = 82 ∨ p.MountPoint = "/") →
      Frame s (makefsRestLoop env mappers index parts s).2 := by
  intro parts
  induction parts with
  | nil => intro index s _; exact frame_refl s
  | cons part rest ih =>
    intro index s hparts
    have hrest : ∀ p ∈ rest, p.TypeCode = 82 ∨ p.MountPoint = "/" :=
      fun p hp => hparts p (List.mem_cons_of_mem _ hp)
    unfold BuilderImage.makefsRestLoop
    split
    · exact frame_refl s
    · split
      · dsimp only
        split
        · exact frame_exec env s _
        · exact frame_trans (frame_exec env s _) (ih _ _ hrest)
      · split
        · rename_i h82 hroot
          rcases hparts part (List.mem_cons_self _ _) with h | h
          · exact absurd h h82
          · exact absurd h hroot
        · exact ih _ _ hrest

/-- When the first loop of `partTableMakefs` succeeds on a plan whose first
partition is the root, it has mounted a node at the working root. -/
theorem makefsRootLoop_mounts (env : Env) (mappers : List String) (part : Partition)
    (rest : List Partition) (index : Nat) (s s1 : St) (hroot : part.MountPoint = "/")
    (h : makefsRootLoop env mappers index (part :: rest) s = (Res.ok (), s1)) :
    ∃ node : String, mappers[index]? = some node ∧
      ("mount " ++ node ++ " " ++ s.img.slashpath) ∈ s1.trace := by
  unfold BuilderImage.makefsRootLoop at h
  rw [if_pos hroot] at h
  split at h
  · cases h
  · rename_i node hnode
    dsimp only at h
    split at h
    · cases h
    · split at h
      · cases h
      · refine ⟨node, hnode, ?_⟩
        have hf := frame_makefsRootLoop env mappers rest (index + 1)
          (exec env (exec env s (mkfsCmd part node)).2
            ("mount " ++ node ++ " " ++ s.img.slashpath)).2
        rw [h] at hf
        exact hf.2.2.2.2 _ (exec_mem env _ _)

/-- Binding the loop device changes nothing in the engine record. -/
theorem bind_img (env : Env) (s : St) (imagePath : String) :
    (bind env s imagePath).2.img = s.img := by
  unfold BuilderImage.bind
  dsimp only
  split <;> rfl

/-- A successful `partTableMakefs` went through both of its loops, started
from a state in which nothing had been registered yet. -/
theorem partTableMakefs_ok (env : Env) (s s1 : St)
    (h : partTableMakefs env s = (Res.ok (), s1)) :
    ∃ (mappers : List String) (sa sb : St), Frame s sa ∧
      makefsRootLoop env mappers 0 sa.img.config.parts sa = (Res.ok (), sb) ∧
      makefsRestLoop env mappers 0 sb.img.config.parts sb = (Res.ok (), s1) := by
  unfold partTableMakefs at h
  dsimp only at h
  split at h
  · cases h
  · cases h
  · rename_i mappers sa hget
    have hfa : Frame s sa := by
      have h1 := frame_getMappers env
        (exec env (if s.img.config.FdiskCmd = "" then
            { s with img := { s.img with config := generateFdiskCmd s.img.config } }
          else s)
          ("echo -e  \"" ++ (if s.img.config.FdiskCmd = "" then
              ({ s with img := { s.img with config := generateFdiskCmd s.img.config } } : St)
            else s).img.config.FdiskCmd ++ "\"|fdisk " ++
            (if s.img.config.FdiskCmd = "" then
              ({ s with img := { s.img with config := generateFdiskCmd s.img.config } } : St)
            else s).img.loopDevice.name)).2
        (exec env (if s.img.config.FdiskCmd = "" then
            { s with img := { s.img with config := generateFdiskCmd s.img.config } }
          else s)
          ("echo -e  \"" ++ (if s.img.config.FdiskCmd = "" then
              ({ s with img := { s.img with config := generateFdiskCmd s.img.config } } : St)
            else s).img.config.FdiskCmd ++ "\"|fdisk " ++
            (if s.img.config.FdiskCmd = "" then
              ({ s with img := { s.img with config := generateFdiskCmd s.img.config } } : St)
            else s).img.loopDevice.name)).2.img.loopDevice.name
      rw [hget] at h1
      refine frame_trans (frame_trans ?_ (frame_exec env _ _)) h1
      split
      · exact ⟨rfl, rfl, rfl, rfl, fun _ hc => hc⟩
      · exact frame_refl s
    split at h
    · rename_i u sb hroot
      exact ⟨mappers, sa, sb, hfa, hroot, h⟩
    · rename_i r hnot
      exact absurd h (by
        intro hr
        exact hnot () s1 hr)

/-- C3 (the code at the failing input): a fresh image with the plan root
(`/`, ext4), swap (type 82) on a host that reports the two partition nodes.
`Parse` succeeds, having formatted the root partition's node
`/dev/mapper/loop0p1` and mounted it at the working root; but the registry is
empty and `AmountOfMappers()` is 0, not 1: the root partition is not
registered.  `Customize` then refuses with the message that `Parse` has not
been called, and the customizer is not called. -/
theorem parse_root_swap_counter_zero :
    (BuilderImage.Parse (Sample.hostOk Sample.twoNodes)
        (Sample.engine (Sample.disk 5120 [Sample.pRoot, Sample.pSwap 2]) "/mnt/rootfs"
          true)).1 = Res.ok () ∧
    (BuilderImage.Parse (Sample.hostOk Sample.twoNodes)
        (Sample.engine (Sample.disk 5120 [Sample.pRoot, Sample.pSwap 2]) "/mnt/rootfs"
          true)).2.trace =
      ["losetup -f", "losetup /dev/loop0 /img/disk.raw",
       "echo -e  \"o\\nn\\np\\n1\\n\\n+3045M\\nt\\n83\\nn\\np\\n2\\n\\n\\nt\\n2\\n82\\na\\n1\\nw\"|fdisk /dev/loop0",
       "kpartx -a /dev/loop0", "find /dev -name loop0p[0-9]",
       "mkfs -t ext4 -L SLASH  /dev/mapper/loop0p1",
       "mount /dev/mapper/loop0p1 /mnt/rootfs", "mkswap -L SWAP /dev/mapper/loop0p2"] ∧
    BuilderImage.AmountOfMappers (BuilderImage.Parse (Sample.hostOk Sample.twoNodes)
        (Sample.engine (Sample.disk 5120 [Sample.pRoot, Sample.pSwap 2]) "/mnt/rootfs"
          true)).2 = 0 ∧
    BuilderImage.AmountOfMappers (BuilderImage.Parse (Sample.hostOk Sample.twoNodes)
        (Sample.engine (Sample.disk 5120 [Sample.pRoot, Sample.pSwap 2]) "/mnt/rootfs"
          true)).2 ≠ 1 ∧
    (BuilderImage.Parse (Sample.hostOk Sample.twoNodes)
        (Sample.engine (Sample.disk 5120 [Sample.pRoot, Sample.pSwap 2]) "/mnt/rootfs"
          true)).2.img.loopDevice.mappers = [] ∧
    BuilderImage.Customize (Sample.hostOk Sample.twoNodes)
        (BuilderImage.Parse (Sample.hostOk Sample.twoNodes)
          (Sample.engine (Sample.disk 5120 [Sample.pRoot, Sample.pSwap 2]) "/mnt/rootfs"
            true)).2 "/etc/deployer" =
      (Res.error "amount of mappers is 0.Seems Parse() hasn't been called yet.",
       (BuilderImage.Parse (Sample.hostOk Sample.twoNodes)
          (Sample.engine (Sample.disk 5120 [Sample.pRoot, Sample.pSwap 2]) "/mnt/rootfs"
            true)).2) := by
  refine ⟨by decide, by decide, by decide, by decide, by decide, by decide⟩

/-- The same on every host: on a fresh image whose plan is [root partition
(mount point `/`), swap partition (type code 82)], after a successful `Parse`
the mapper registry holds no entry and the counter is 0, and a mount at the
working root is among the commands issued. -/
theorem parse_root_swap_registers_nothing (env : Env) (s s1 : BuilderImage.St)
    (p1 p2 : BuilderImage.Partition)
    (hfresh : s.img.needToFormat = true)
    (hplan : s.img.config.Partitions = some [p1, p2])
    (hroot : p1.MountPoint = "/") (hswap : p2.TypeCode = 82)
    (hempty : s.img.loopDevice.mappers = [])
    (hzero : s.img.loopDevice.amountOfMappers = 0)
    (hparse : BuilderImage.Parse env s = (Res.ok (), s1)) :
    BuilderImage.AmountOfMappers s1 = 0 ∧ s1.img.loopDevice.mappers = [] ∧
    ∃ node : String, ("mount " ++ node ++ " " ++ s.img.slashpath) ∈ s1.trace := by
  have hparts : s.img.config.parts = [p1, p2] := by
    unfold Disk.parts; rw [hplan]; rfl
  have hall : ∀ p ∈ [p1, p2], p.TypeCode = 82 ∨ p.MountPoint = "/" := by
    intro p hp
    simp only [List.mem_cons, List.mem_singleton, List.not_mem_nil, or_false] at hp
    rcases hp with rfl | rfl
    · exact Or.inr hroot
    · exact Or.inl hswap
  have himg := bind_img env s s.img.config.Path
  have hfb : Frame s (setLoopName (bind env s s.img.config.Path).2
      (bind env s s.img.config.Path).1.1) :=
    frame_trans (frame_bind env s s.img.config.Path) ⟨rfl, rfl, rfl, rfl, fun _ hc => hc⟩
  unfold Parse at hparse
  dsimp only at hparse
  split at hparse
  · cases hparse
  · rw [if_pos (by simp only [setLoopName, himg, hfresh])] at hparse
    split at hparse
    · cases hparse
    · rename_i r hnot
      obtain ⟨mappers, sa, sb, hfa, hrootLoop, hrestLoop⟩ :=
        partTableMakefs_ok env _ s1 hparse
      have hsa : Frame s sa := frame_trans hfb hfa
      have hpa : sa.img.config.parts = [p1, p2] := hsa.2.2.2.1.trans hparts
      rw [hpa] at hrootLoop
      have hfr := frame_makefsRootLoop env mappers [p1, p2] 0 sa
      rw [hrootLoop] at hfr
      have hsb : Frame s sb := frame_trans hsa hfr
      have hpb : sb.img.config.parts = [p1, p2] := hsb.2.2.2.1.trans hparts
      rw [hpb] at hrestLoop
      have hft := frame_makefsRestLoop env mappers [p1, p2] 0 sb hall
      rw [hrestLoop] at hft
      have hs1 : Frame s s1 := frame_trans hsb hft
      obtain ⟨node, -, hmem⟩ :=
        makefsRootLoop_mounts env mappers p1 [p2] 0 sa sb hroot hrootLoop
      refine ⟨hs1.2.1.trans hzero, hs1.1.trans hempty, node, ?_⟩
      rw [← hsa.2.2.1]
      exact hft.2.2.2.2 _ hmem

/-- The plan root, swap on a host that reports two nodes, as an instance. -/
theorem parse_root_swap_registers_nothing_witness :
    BuilderImage.AmountOfMappers (BuilderImage.Parse (Sample.hostOk Sample.twoNodes)
        (Sample.engine (Sample.disk 5120 [Sample.pRoot, Sample.pSwap 2]) "/mnt/rootfs"
          true)).2 = 0 :=
  (parse_root_swap_registers_nothing (Sample.hostOk Sample.twoNodes)
    (Sample.engine (Sample.disk 5120 [Sample.pRoot, Sample.pSwap 2]) "/mnt/rootfs" true)
    (BuilderImage.Parse (Sample.hostOk Sample.twoNodes)
      (Sample.engine (Sample.disk 5120 [Sample.pRoot, Sample.pSwap 2]) "/mnt/rootfs" true)).2
    Sample.pRoot (Sample.pSwap 2) rfl rfl rfl rfl rfl rfl (by decide)).1

end Parsing

/-! ## Theorems: the shape of the partitioning script -/

section Script

open BuilderImage

/-- The join of two lists of strings is the join of the first followed by
the join of the second. -/
theorem join_append (a b : List String) :
    String.join (a ++ b) = String.join a ++ String.join b := by
  apply String.ext
  simp only [String.data_join, String.data_append, List.map_append, List.flatten_append]

/-- The type command of the partition at position `k` of the loop started
at position `index`. -/
theorem fragmentsLoop_type (T n : Int) :
    ∀ (parts : List Partition) (index : Nat) (ld : Int) (k : Nat) (part : Partition),
      parts[k]? = some part →
      ((fragmentsLoop T n index ld parts)[k]?).map Prod.snd =
        some (typeFragment (index + k) part) := by
  intro parts index ld k part h
  obtain ⟨ld1, h1⟩ := fragmentsLoop_get T n parts index ld k part h
  rw [h1, Option.map_some']

/-- C13: in the script of `generateFdiskCmd` the creation text of the
partition at plan position `k` is directly followed by its type command: the
one-argument command `t`, type code for position 0, the two-argument command
`t`, sequence number, type code for every later position. -/
theorem fdisk_type_command_follows_creation (c : BuilderImage.Disk) (k : Nat)
    (part : BuilderImage.Partition) (hk : c.parts[k]? = some part) :
    ∃ create : String,
      (BuilderImage.fdiskFragments c)[k]? =
        some (create,
          if k = 0 then "t\\n" ++ fmtD part.TypeCode ++ "\\n"
          else "t\\n" ++ fmtD part.Sequence ++ "\\n" ++ fmtD part.TypeCode ++ "\\n") ∧
      BuilderImage.fdiskScript c =
        "o\\n" ++
        String.join (((BuilderImage.fdiskFragments c).take k).map fun f => f.1 ++ f.2) ++
        (create ++
          (if k = 0 then "t\\n" ++ fmtD part.TypeCode ++ "\\n"
           else "t\\n" ++ fmtD part.Sequence ++ "\\n" ++ fmtD part.TypeCode ++ "\\n")) ++
        String.join (((BuilderImage.fdiskFragments c).drop (k + 1)).map fun f => f.1 ++ f.2) ++
        (if c.Bootable then "a\\n" ++ fmtD c.ActivePartition ++ "\\n" else "") ++ "w" := by
  obtain ⟨ld1, h1⟩ := fragmentsLoop_get c.SizeMb c.parts.length c.parts 0 5 k part hk
  have hget : (fdiskFragments c)[k]? =
      some ((createFragment c.parts.length ld1 part.Sequence (resolveSizeMb c.SizeMb part)).1,
        if k = 0 then "t\\n" ++ fmtD part.TypeCode ++ "\\n"
        else "t\\n" ++ fmtD part.Sequence ++ "\\n" ++ fmtD part.TypeCode ++ "\\n") := by
    unfold fdiskFragments
    rw [h1]
    simp only [typeFragment, Nat.zero_add]
  refine ⟨_, hget, ?_⟩
  have hsplit : fdiskFragments c =
      (fdiskFragments c).take k ++
        ((createFragment c.parts.length ld1 part.Sequence (resolveSizeMb c.SizeMb part)).1,
          if k = 0 then "t\\n" ++ fmtD part.TypeCode ++ "\\n"
          else "t\\n" ++ fmtD part.Sequence ++ "\\n" ++ fmtD part.TypeCode ++ "\\n") ::
        (fdiskFragments c).drop (k + 1) := by
    have hlt : k < (fdiskFragments c).length := by
      rcases Nat.lt_or_ge k (fdiskFragments c).length with h | h
      · exact h
      · rw [List.getElem?_eq_none h] at hget; cases hget
    have hd := List.drop_eq_getElem_cons hlt
    rw [List.getElem?_eq_getElem hlt] at hget
    rw [Option.some.inj hget] at hd
    rw [← hd, List.take_append_drop]
  unfold fdiskScript
  conv_lhs => rw [hsplit]
  rw [List.map_append, List.map_cons, join_append]
  have hcons : ∀ (x : String) (l : List String), String.join (x :: l) = x ++ String.join l := by
    intro x l
    apply String.ext
    simp only [String.data_join, String.data_append, List.map_cons, List.flatten_cons]
  rw [hcons]
  simp only [String.append_assoc]

/-- Witness of C13: the second partition of the plan root, swap. -/
theorem fdisk_type_command_follows_creation_witness :
    ∃ create : String,
      (BuilderImage.fdiskFragments (Sample.disk 5120 [Sample.pRoot, Sample.pSwap 2]))[1]? =
        some (create, "t\\n" ++ fmtD 2 ++ "\\n" ++ fmtD 82 ++ "\\n") :=
  let ⟨create, h, _⟩ := fdisk_type_command_follows_creation
    (Sample.disk 5120 [Sample.pRoot, Sample.pSwap 2]) 1 (Sample.pSwap 2) (by decide)
  ⟨create, h⟩

/-- Counterexample to C15: for the plan root (3045 MB), swap (400 MB, type 82)
on a bootable disk with active partition 1, the script asks for the extent
`+400M` for partition 2; it is not the documented example script, whose
second partition has an empty extent request. -/
theorem fdisk_root_swap400_second_extent :
    ((BuilderImage.fdiskFragments Sample.rootSwap400)[1]?).map Prod.fst =
      some "n\\np\\n2\\n\\n+400M\\n" ∧
    BuilderImage.fdiskScript Sample.rootSwap400 ≠
      "n\\np\\n1\\n\\n+3045M\\nn\\np\\n2\\n\\n\\nt\\n2\\n82\\na\\n1\\nw\\n" ∧
    ((BuilderImage.fdiskFragments Sample.rootSwap400)[1]?).map Prod.fst ≠
      some "n\\np\\n2\\n\\n\\n" := by
  decide

/-- C15 (amended): for the plan root (sequence 1, 3045 MB, `/`, ext4, type 83),
swap (sequence 2, 400 MB, type 82) on a bootable disk with active partition 1,
the script is: `o`; create primary 1 with extent `+3045M`; set its type 83;
create primary 2 with extent `+400M`; set the type of partition 2 to 82; flag
partition 1 bootable; write.  When the swap partition carries the
remaining-space marker instead of a size, its extent request is empty. -/
theorem fdisk_root_swap400_script :
    BuilderImage.fdiskScript Sample.rootSwap400 =
      "o\\nn\\np\\n1\\n\\n+3045M\\nt\\n83\\nn\\np\\n2\\n\\n+400M\\nt\\n2\\n82\\na\\n1\\nw" ∧
    BuilderImage.fdiskScript (Sample.disk 5120 [Sample.pRoot, Sample.pSwap 2]) =
      "o\\nn\\np\\n1\\n\\n+3045M\\nt\\n83\\nn\\np\\n2\\n\\n\\nt\\n2\\n82\\na\\n1\\nw" := by
  decide

/-- C12 (the code at the failing input): in the plan of six partitions with
sequences 1 to 6 whose last partition carries the remaining-space marker, the
fifth partition is created as a logical drive and the fragment of the sixth
writes the logical drive number 5, not 6. -/
theorem fdisk_last_logical_number_not_advanced :
    ((BuilderImage.fdiskFragments Sample.sixParts)[4]?).map Prod.fst =
      some "n\\n\\n+10M\\n" ∧
    ((BuilderImage.fdiskFragments Sample.sixParts)[5]?).map Prod.fst =
      some "n\\nl\\n5\\n\\n\\n" := by
  decide

end Script

/-! ## Theorems: percentage sizes -/

section Percentages

open BuilderImage

/-- A percentage between 0 and 100 of a disk whose size fits Go's `int`
resolves without wrap-around. -/
theorem resolveSizeMb_percent (T : Int) (part : Partition) (hT0 : 0 ≤ T)
    (hT1 : T < 9223372036854775808) (hpct : part.SizeMb = -1)
    (hp0 : 0 ≤ part.SizePercents) (hp1 : part.SizePercents ≤ 100) :
    resolveSizeMb T part = T / 100 * part.SizePercents := by
  have hq : 0 ≤ T / 100 := Int.ediv_nonneg hT0 (by decide)
  have hle : T / 100 * part.SizePercents ≤ T / 100 * 100 :=
    Int.mul_le_mul_of_nonneg_left hp1 hq
  have hdm : T / 100 * 100 ≤ T := Int.ediv_mul_le T (by decide)
  unfold resolveSizeMb calcInPercents allocateAll
  rw [if_pos hpct, if_neg (by omega), Int.tdiv_eq_ediv hT0 (by decide)]
  exact wrapInt_eq _ (Int.mul_nonneg hq hp0) (by omega)

/-- The sizes resolved for a list of percentage partitions add up to
floor(T / 100) times the sum of the percentages, when that sum is at most 100. -/
theorem resolved_sum (T : Int) (hT0 : 0 ≤ T) (hT1 : T < 9223372036854775808) :
    ∀ l : List Partition, (∀ p ∈ l, p.SizeMb = -1 ∧ 0 ≤ p.SizePercents) →
      (l.map fun p => p.SizePercents).sum ≤ 100 →
      0 ≤ (l.map fun p => p.SizePercents).sum ∧
      (l.map (resolveSizeMb T)).sum = T / 100 * (l.map fun p => p.SizePercents).sum := by
  intro l
  induction l with
  | nil => intro _ _; simp
  | cons p rest ih =>
    intro hall hsum
    have hp := hall p (List.mem_cons_self _ _)
    have hrest : ∀ q ∈ rest, q.SizeMb = -1 ∧ 0 ≤ q.SizePercents :=
      fun q hq => hall q (List.mem_cons_of_mem _ hq)
    simp only [List.map_cons, List.sum_cons] at hsum ⊢
    have hnn : 0 ≤ (rest.map fun p => p.SizePercents).sum := by
      clear ih hsum
      induction rest with
      | nil => simp
      | cons q r ihr =>
        simp only [List.map_cons, List.sum_cons]
        have h1 := (hrest q (List.mem_cons_self _ _)).2
        have h2 := ihr (fun x hx => hall x (by
          rcases List.mem_cons.mp hx with h | h
          · exact h ▸ List.mem_cons_self _ _
          · exact List.mem_cons_of_mem _ (List.mem_cons_of_mem _ h)))
          (fun x hx => hrest x (List.mem_cons_of_mem _ hx))
        omega
    obtain ⟨_, ihs⟩ := ih hrest (by omega)
    refine ⟨by omega, ?_⟩
    rw [ihs, resolveSizeMb_percent T p hT0 hT1 hp.1 hp.2 (by omega), Int.mul_add]

/-- C16: on a disk of T MB (0 ≤ T, a Go `int`), when the percentages of the
percentage partitions of a plan are non-negative and add up to at most 100,
the sizes `generateFdiskCmd` resolves for them add up to at most T; each of
them is floor(T / 100) * p, which is at most floor(T * p / 100). -/
theorem percentage_sizes_within_disk (c : BuilderImage.Disk)
    (hT0 : 0 ≤ c.SizeMb) (hT1 : c.SizeMb < 9223372036854775808)
    (hp : ∀ p ∈ c.parts, p.SizeMb = -1 → 0 ≤ p.SizePercents)
    (hsum : ((c.parts.filter fun p => p.SizeMb = -1).map fun p => p.SizePercents).sum ≤ 100) :
    ((c.parts.filter fun p => p.SizeMb = -1).map
        (BuilderImage.resolveSizeMb c.SizeMb)).sum ≤ c.SizeMb ∧
    ∀ p ∈ c.parts, p.SizeMb = -1 →
      BuilderImage.resolveSizeMb c.SizeMb p = c.SizeMb / 100 * p.SizePercents ∧
      BuilderImage.resolveSizeMb c.SizeMb p ≤ c.SizeMb * p.SizePercents / 100 := by
  have hall : ∀ p ∈ c.parts.filter fun p => p.SizeMb = -1, p.SizeMb = -1 ∧ 0 ≤ p.SizePercents := by
    intro p hmem
    have h1 := List.mem_filter.mp hmem
    have h2 : p.SizeMb = -1 := by simpa using h1.2
    exact ⟨h2, hp p h1.1 h2⟩
  obtain ⟨hnn, hs⟩ := resolved_sum c.SizeMb hT0 hT1 _ hall hsum
  have hq : 0 ≤ c.SizeMb / 100 := Int.ediv_nonneg hT0 (by decide)
  have hdm : c.SizeMb / 100 * 100 ≤ c.SizeMb := Int.ediv_mul_le _ (by decide)
  refine ⟨?_, ?_⟩
  · rw [hs]
    have := Int.mul_le_mul_of_nonneg_left hsum hq
    omega
  · intro p hmem hpct
    have hp0 := hp p hmem hpct
    have hmemf : p ∈ c.parts.filter fun p => p.SizeMb = -1 :=
      List.mem_filter.mpr ⟨hmem, by simpa using hpct⟩
    have hp1 : p.SizePercents ≤ 100 := by
      have hle : ∀ (l : List Partition), (∀ q ∈ l, 0 ≤ q.SizePercents) → p ∈ l →
          p.SizePercents ≤ (l.map fun q => q.SizePercents).sum := by
        intro l
        induction l with
        | nil => intro _ h; cases h
        | cons q r ihr =>
          intro hq0 hin
          simp only [List.map_cons, List.sum_cons]
          have hr0 : 0 ≤ (r.map fun q => q.SizePercents).sum :=
            List.sum_nonneg (by
              intro x hx
              obtain ⟨y, hy, rfl⟩ := List.mem_map.mp hx
              exact hq0 y (List.mem_cons_of_mem _ hy))
          rcases List.mem_cons.mp hin with h | h
          · subst h; omega
          · have := ihr (fun x hx => hq0 x (List.mem_cons_of_mem _ hx)) h
            have := hq0 q (List.mem_cons_self _ _)
            omega
      have := hle _ (fun q hq => (hall q hq).2) hmemf
      omega
    have hres := resolveSizeMb_percent c.SizeMb p hT0 hT1 hpct hp0 hp1
    refine ⟨hres, ?_⟩
    rw [hres]
    apply Int.le_ediv_of_mul_le (by decide)
    have h1 : c.SizeMb / 100 * 100 * p.SizePercents ≤ c.SizeMb * p.SizePercents :=
      Int.mul_le_mul_of_nonneg_right hdm hp0
    have h2 : c.SizeMb / 100 * p.SizePercents * 100 = c.SizeMb / 100 * 100 * p.SizePercents := by
      ring
    omega

/-- Witness of C16: a disk of 5120 MB with partitions of 30 and 70 percent. -/
theorem percentage_sizes_within_disk_witness :
    ((([Sample.pPercent 1 30, Sample.pPercent 2 70] : List BuilderImage.Partition).filter
        fun p => p.SizeMb = -1).map (BuilderImage.resolveSizeMb 5120)).sum ≤ 5120 :=
  (percentage_sizes_within_disk
    (Sample.disk 5120 [Sample.pPercent 1 30, Sample.pPercent 2 70])
    (by decide) (by decide) (by decide) (by decide)).1

end Percentages

/-! ## Theorems: boot flag and write command -/

section BootFlag

open BuilderImage

/-- A decimal digit is not the letter `a`. -/
theorem digitChar_ne_a (d : Nat) (h : d < 10) : Nat.digitChar d ≠ 'a' := by
  interval_cases d <;> decide

/-- The decimal digits of a number do not contain the letter `a`. -/
theorem toDigitsCore_no_a :
    ∀ (fuel n : Nat) (ds : List Char), 'a' ∉ ds → 'a' ∉ Nat.toDigitsCore 10 fuel n ds := by
  intro fuel
  induction fuel with
  | zero => intro n ds h; simpa [Nat.toDigitsCore] using h
  | succ f ih =>
    intro n ds h
    have hd : 'a' ∉ Nat.digitChar (n % 10) :: ds := by
      intro hm
      rcases List.mem_cons.mp hm with h1 | h1
      · exact digitChar_ne_a (n % 10) (Nat.mod_lt _ (by decide)) h1.symm
      · exact h h1
    unfold Nat.toDigitsCore
    dsimp only
    split
    · exact hd
    · exact ih _ _ hd

/-- The text `%d` writes for an integer does not contain the letter `a`. -/
theorem fmtD_no_a (x : Int) : 'a' ∉ (fmtD x).data := by
  have hnat : ∀ m : Nat, 'a' ∉ (toString m).data := by
    intro m
    show 'a' ∉ (Nat.repr m).data
    unfold Nat.repr Nat.toDigits
    exact toDigitsCore_no_a _ _ _ (by simp)
  unfold fmtD
  cases x with
  | ofNat m => exact hnat m
  | negSucc m =>
    show 'a' ∉ ("-" ++ toString (Nat.succ m)).data
    rw [String.data_append, List.mem_append]
    rintro (h | h)
    · revert h; decide
    · exact hnat _ h

/-- No creation text contains the letter `a`. -/
theorem createFragment_no_a (n ld seq size : Int) :
    'a' ∉ (createFragment n ld seq size).1.data := by
  have h1 := fmtD_no_a ld
  have h2 := fmtD_no_a seq
  have h3 := fmtD_no_a size
  have l1 : 'a' ∉ "n\\nl\\n".data := by decide
  have l2 : 'a' ∉ "\\n\\n\\n".data := by decide
  have l3 : 'a' ∉ "n\\np\\n".data := by decide
  have l4 : 'a' ∉ "n\\np\\n\\n\\n".data := by decide
  have l5 : 'a' ∉ "\\n\\n+".data := by decide
  have l6 : 'a' ∉ "M\\n".data := by decide
  have l7 : 'a' ∉ "n\\ne\\n\\n\\n\\n+".data := by decide
  have l8 : 'a' ∉ "n\\n\\n+".data := by decide
  have l9 : 'a' ∉ "".data := by decide
  unfold createFragment
  split
  · split
    · simp only [String.data_append, List.mem_append, not_or]; exact ⟨⟨l1, h1⟩, l2⟩
    · split
      · simp only [String.data_append, List.mem_append, not_or]; exact ⟨⟨l3, h2⟩, l2⟩
      · split
        · exact l4
        · exact l9
  · split
    · simp only [String.data_append, List.mem_append, not_or]; exact ⟨⟨⟨⟨l3, h2⟩, l5⟩, h3⟩, l6⟩
    · split
      · simp only [String.data_append, List.mem_append, not_or]; exact ⟨⟨l7, h3⟩, l6⟩
      · simp only [String.data_append, List.mem_append, not_or]; exact ⟨⟨l8, h3⟩, l6⟩

/-- No type command contains the letter `a`. -/
theorem typeFragment_no_a (index : Nat) (part : Partition) :
    'a' ∉ (typeFragment index part).data := by
  have h1 := fmtD_no_a part.TypeCode
  have h2 := fmtD_no_a part.Sequence
  have l1 : 'a' ∉ "t\\n".data := by decide
  have l2 : 'a' ∉ "\\n".data := by decide
  unfold typeFragment
  split
  · simp only [String.data_append, List.mem_append, not_or]; exact ⟨⟨l1, h1⟩, l2⟩
  · simp only [String.data_append, List.mem_append, not_or]
    exact ⟨⟨⟨⟨l1, h2⟩, l2⟩, h1⟩, l2⟩

/-- The fragments of all partitions together do not contain the letter `a`. -/
theorem fragmentsLoop_no_a (T n : Int) :
    ∀ (parts : List Partition) (index : Nat) (ld : Int),
      'a' ∉ (String.join ((fragmentsLoop T n index ld parts).map fun f => f.1 ++ f.2)).data := by
  intro parts
  induction parts with
  | nil => intro index ld; simp [fragmentsLoop, String.data_join]
  | cons p rest ih =>
    intro index ld
    have hrest := ih (index + 1)
      (createFragment n ld p.Sequence (resolveSizeMb T p)).2
    simp only [String.data_join] at hrest ⊢
    simp only [fragmentsLoop, List.map_cons, List.flatten_cons, String.data_append,
      List.mem_append, not_or]
    exact ⟨⟨createFragment_no_a _ _ _ _, typeFragment_no_a _ _⟩, hrest⟩

/-- C14: the script of `generateFdiskCmd` ends with the write command `w`.
On a bootable disk the boot-flag command `a`, active partition stands
directly before the final `w`, after the header and the fragments of all
partitions, and it is the only place of the script where the letter `a`
occurs; on a disk that is not bootable the letter `a` does not occur in the
script at all. -/
theorem fdisk_script_boot_flag_and_write (c : BuilderImage.Disk) :
    (∃ body : String, BuilderImage.fdiskScript c = body ++ "w") ∧
    (c.Bootable = true →
      BuilderImage.fdiskScript c =
        ("o\\n" ++ String.join ((BuilderImage.fdiskFragments c).map fun f => f.1 ++ f.2)) ++
          ("a\\n" ++ fmtD c.ActivePartition ++ "\\n") ++ "w" ∧
      'a' ∉ ("o\\n" ++
        String.join ((BuilderImage.fdiskFragments c).map fun f => f.1 ++ f.2)).data ∧
      (BuilderImage.fdiskScript c).data.count 'a' = 1) ∧
    (c.Bootable = false → 'a' ∉ (BuilderImage.fdiskScript c).data) := by
  have hfr : 'a' ∉ ("o\\n" ++ String.join ((fdiskFragments c).map fun f => f.1 ++ f.2)).data := by
    rw [String.data_append, List.mem_append, not_or]
    exact ⟨by decide, fragmentsLoop_no_a _ _ _ _ _⟩
  have hw : 'a' ∉ "w".data := by decide
  refine ⟨⟨_, rfl⟩, ?_, ?_⟩
  · intro hb
    have hs : fdiskScript c =
        ("o\\n" ++ String.join ((fdiskFragments c).map fun f => f.1 ++ f.2)) ++
          ("a\\n" ++ fmtD c.ActivePartition ++ "\\n") ++ "w" := by
      unfold fdiskScript; rw [if_pos hb]
    refine ⟨hs, hfr, ?_⟩
    have hj : 'a' ∉ (String.join ((fdiskFragments c).map fun f => f.1 ++ f.2)).data :=
      fragmentsLoop_no_a _ _ _ _ _
    rw [hs]
    simp only [String.data_append, List.count_append]
    rw [List.count_eq_zero_of_not_mem hj, List.count_eq_zero_of_not_mem (fmtD_no_a _)]
    decide
  · intro hb
    have hs : fdiskScript c =
        ("o\\n" ++ String.join ((fdiskFragments c).map fun f => f.1 ++ f.2)) ++ "" ++ "w" := by
      unfold fdiskScript; rw [if_neg (by simp [hb])]
    rw [hs]
    rw [String.data_append, String.data_append, List.mem_append, List.mem_append, not_or,
      not_or]
    exact ⟨⟨hfr, by decide⟩, hw⟩

/-- Witness of C14: the bootable plan root, swap. -/
theorem fdisk_script_boot_flag_and_write_witness :
    (BuilderImage.fdiskScript (Sample.disk 5120 [Sample.pRoot, Sample.pSwap 2])).data.count
      'a' = 1 :=
  ((fdisk_script_boot_flag_and_write
    (Sample.disk 5120 [Sample.pRoot, Sample.pSwap 2])).2.1 rfl).2.2

end BootFlag

/-! ## Theorems: enumeration of partition nodes -/

section Enumeration

/-- The order of `sort.Strings` is total. -/
theorem leChars_total : ∀ a b : List Char, leChars a b = true ∨ leChars b a = true := by
  intro a
  induction a with
  | nil => intro b; exact Or.inl (by cases b <;> rfl)
  | cons x xs ih =>
    intro b
    cases b with
    | nil => exact Or.inr rfl
    | cons y ys =>
      unfold leChars
      rcases Nat.lt_trichotomy x.toNat y.toNat with h | h | h
      · left; rw [if_pos h]
      · rw [if_neg (by omega), if_neg (by omega), if_neg (by omega), if_neg (by omega)]
        exact ih ys
      · right; rw [if_pos h]

/-- The order of `sort.Strings` is transitive. -/
theorem leChars_trans : ∀ a b c : List Char,
    leChars a b = true → leChars b c = true → leChars a c = true := by
  intro a
  induction a with
  | nil => intro b c _ _; cases c <;> rfl
  | cons x xs ih =>
    intro b c hab hbc
    cases b with
    | nil => cases hab
    | cons y ys =>
      cases c with
      | nil => cases hbc
      | cons z zs =>
        unfold leChars at hab hbc ⊢
        by_cases hxy : x.toNat < y.toNat
        · by_cases hyz : y.toNat < z.toNat
          · rw [if_pos (by omega)]
          · rw [if_neg hyz] at hbc
            by_cases hzy : z.toNat < y.toNat
            · rw [if_pos hzy] at hbc; cases hbc
            · rw [if_pos (by omega)]
        · rw [if_neg hxy] at hab
          by_cases hyx : y.toNat < x.toNat
          · rw [if_pos hyx] at hab; cases hab
          · rw [if_neg hyx] at hab
            by_cases hyz : y.toNat < z.toNat
            · rw [if_pos (by omega)]
            · rw [if_neg hyz] at hbc
              by_cases hzy : z.toNat < y.toNat
              · rw [if_pos hzy] at hbc; cases hbc
              · rw [if_neg hzy] at hbc
                rw [if_neg (by omega), if_neg (by omega)]
                exact ih ys zs hab hbc

/-- The list `sort.Strings` leaves is a permutation of its argument in
ascending order. -/
theorem sortStrings_sorted_perm (l : List String) :
    (sortStrings l).Perm l ∧ (sortStrings l).Sorted strLe := by
  haveI : IsTotal String strLe := ⟨fun a b => leChars_total a.data b.data⟩
  haveI : IsTrans String strLe := ⟨fun a b c => leChars_trans a.data b.data c.data⟩
  exact ⟨List.perm_insertionSort strLe l, List.sorted_insertionSort strLe l⟩

/-- C17: when the device-mapper helper command and the enumeration command
both succeed, `getMappers` of either engine returns the non-empty lines of
the enumeration output as a sorted permutation when there is at least one
such line, and the error `mappers not found` exactly when there is none. -/
theorem getMappers_sorted_lines (env : Env) (s : BuilderImage.St) (t : CommonImage.St)
    (name rest : String)
    (hname : (splitAfter name "/dev/loop")[1]? = some rest)
    (hs1 : (env.run s.trace (s.img.utils.Kpartx ++ " -a " ++ name)).err = none)
    (hs2 : (env.run (s.trace ++ [s.img.utils.Kpartx ++ " -a " ++ name])
      ("find /dev -name loop" ++ trimSpace rest ++ "p[0-9]")).err = none)
    (ht1 : (env.run t.trace (t.img.utils.Kpartx ++ " -a " ++ name)).err = none)
    (ht2 : (env.run (t.trace ++ [t.img.utils.Kpartx ++ " -a " ++ name])
      ("find /dev -name loop" ++ trimSpace rest ++ "p[0-9]")).err = none) :
    (∀ lines : List String,
      lines = (splitLines (env.run (s.trace ++ [s.img.utils.Kpartx ++ " -a " ++ name])
        ("find /dev -name loop" ++ trimSpace rest ++ "p[0-9]")).out).filter
          (fun line => line ≠ "") →
      (lines ≠ [] → ∃ l : List String, (BuilderImage.getMappers env s name).1 = Res.ok l ∧
        l.Perm lines ∧ l.Sorted strLe) ∧
      (lines = [] ↔ (BuilderImage.getMappers env s name).1 =
        Res.error (env.FormatError "mappers not found"))) ∧
    (∀ lines : List String,
      lines = (splitLines (env.run (t.trace ++ [t.img.utils.Kpartx ++ " -a " ++ name])
        ("find /dev -name loop" ++ trimSpace rest ++ "p[0-9]")).out).filter
          (fun line => line ≠ "") →
      (lines ≠ [] → ∃ l : List String, (CommonImage.getMappers env t name).1 = Res.ok l ∧
        l.Perm lines ∧ l.Sorted strLe) ∧
      (lines = [] ↔ (CommonImage.getMappers env t name).1 = Res.error "mappers not found")) := by
  constructor
  · intro lines hl
    have hres : (BuilderImage.getMappers env s name).1 =
        if lines.length = 0 then Res.error (env.FormatError "mappers not found")
        else Res.ok (sortStrings lines) := by
      unfold BuilderImage.getMappers
      simp only [exec, hs1, hname, hs2, ← hl]
      split <;> rfl
    rw [hres]
    refine ⟨fun hne => ?_, ?_⟩
    · rw [if_neg (by simpa using hne)]
      exact ⟨_, rfl, (sortStrings_sorted_perm lines).1, (sortStrings_sorted_perm lines).2⟩
    · constructor
      · intro h; rw [if_pos (by simp [h])]
      · intro h
        by_contra hne
        rw [if_neg (by simpa using hne)] at h
        cases h
  · intro lines hl
    have hres : (CommonImage.getMappers env t name).1 =
        if lines.length = 0 then Res.error "mappers not found"
        else Res.ok (sortStrings lines) := by
      unfold CommonImage.getMappers
      simp only [exec, ht1, hname, ht2, ← hl]
      split <;> rfl
    rw [hres]
    refine ⟨fun hne => ?_, ?_⟩
    · rw [if_neg (by simpa using hne)]
      exact ⟨_, rfl, (sortStrings_sorted_perm lines).1, (sortStrings_sorted_perm lines).2⟩
    · constructor
      · intro h; rw [if_pos (by simp [h])]
      · intro h
        by_contra hne
        rw [if_neg (by simpa using hne)] at h
        cases h

/-- Witness of C17: a host that reports the two nodes of `/dev/loop0` in
descending order. -/
theorem getMappers_sorted_lines_witness :
    ∃ l : List String,
      (BuilderImage.getMappers (Sample.hostOk Sample.twoNodes)
        (Sample.engine (Sample.disk 5120 []) "/mnt/rootfs" false) "/dev/loop0").1 = Res.ok l ∧
      l.Perm ["/dev/mapper/loop0p2", "/dev/mapper/loop0p1"] ∧ l.Sorted strLe :=
  ((getMappers_sorted_lines (Sample.hostOk Sample.twoNodes)
    (Sample.engine (Sample.disk 5120 []) "/mnt/rootfs" false) (Sample.commonEngine 0)
    "/dev/loop0" "0" (by decide) (by decide) (by decide) (by decide) (by decide)).1
    ["/dev/mapper/loop0p2", "/dev/mapper/loop0p1"] (by decide)).1 (by decide)

end Enumeration

/-! ## Theorems: the mapper registry -/

section Registry

open BuilderImage

/-- A successful `addMapper` leaves the state `register` builds: the host
record apart, only the registry and the counter change. -/
theorem addMapper_ok (env : Env) (s s1 : St) (node rel : String)
    (h : addMapper env s node rel = (Res.ok (), s1)) :
    s1.img = (register s node (pathJoin s.img.slashpath rel)).img := by
  unfold addMapper at h
  dsimp only at h
  split at h
  · cases h
  · split at h
    · cases h
    · split at h
      · split at h
        · cases h
        · cases h; rfl
      · cases h; rfl

/-- The counter after `k` increments of an 8-bit counter. -/
theorem incU8_add (a k : Nat) : incU8 ((a + k) % 256) = (a + (k + 1)) % 256 := by
  unfold incU8
  omega

/-- C18: when a sequence of calls of `addMapper` succeeds, the registry is
the registry before followed by one entry {node, join(working root, relative
mount point)} for each call, in call order (so every earlier entry keeps its
position), and the 8-bit counter (a value below 256) has advanced by one for
each call; on a fresh engine after k ≤ 255 calls the registry lists the k nodes in call order
and the counter is k.  A single call is the sequence of length one. -/
theorem addMapper_registry_order (env : Env) (calls : List (String × String))
    (s s1 : BuilderImage.St)
    (hu8 : s.img.loopDevice.amountOfMappers < 256)
    (h : BuilderImage.addMapperAll env calls s = (Res.ok (), s1)) :
    s1.img.loopDevice.mappers = s.img.loopDevice.mappers ++
      calls.map (fun call => ⟨call.1, pathJoin s.img.slashpath call.2⟩) ∧
    (∀ i : Nat, i < s.img.loopDevice.mappers.length →
      s1.img.loopDevice.mappers[i]? = s.img.loopDevice.mappers[i]?) ∧
    s1.img.loopDevice.amountOfMappers =
      (s.img.loopDevice.amountOfMappers + calls.length) % 256 ∧
    (s.img.loopDevice.amountOfMappers + calls.length ≤ 255 →
      s1.img.loopDevice.amountOfMappers = s.img.loopDevice.amountOfMappers + calls.length) ∧
    (s.img.loopDevice.mappers = [] → s.img.loopDevice.amountOfMappers = 0 →
      calls.length ≤ 255 →
      s1.img.loopDevice.mappers.map (fun m => m.name) = calls.map Prod.fst ∧
      BuilderImage.AmountOfMappers s1 = calls.length) := by
  have key : ∀ (calls : List (String × String)) (s s1 : St),
      addMapperAll env calls s = (Res.ok (), s1) →
      s.img.loopDevice.amountOfMappers < 256 →
      s1.img.loopDevice.mappers = s.img.loopDevice.mappers ++
        calls.map (fun call => ⟨call.1, pathJoin s.img.slashpath call.2⟩) ∧
      s1.img.loopDevice.amountOfMappers =
        (s.img.loopDevice.amountOfMappers + calls.length) % 256 := by
    intro calls
    induction calls with
    | nil =>
      intro s s1 h hlt
      unfold addMapperAll at h
      cases h
      simp only [List.map_nil, List.append_nil, List.length_nil, Nat.add_zero, true_and]
      omega
    | cons call rest ih =>
      intro s s1 h hlt
      unfold addMapperAll at h
      split at h
      · rename_i u s2 hcall
        have himg := addMapper_ok env s s2 call.1 call.2 hcall
        have hm : s2.img.loopDevice.mappers = s.img.loopDevice.mappers ++
            [⟨call.1, pathJoin s.img.slashpath call.2⟩] := by rw [himg]; rfl
        have ha : s2.img.loopDevice.amountOfMappers =
            incU8 s.img.loopDevice.amountOfMappers := by rw [himg]; rfl
        have hsl : s2.img.slashpath = s.img.slashpath := by rw [himg]; rfl
        obtain ⟨h1, h2⟩ := ih s2 s1 h (by rw [ha]; unfold incU8; omega)
        refine ⟨?_, ?_⟩
        · rw [h1, hm, hsl]
          simp only [List.map_cons, List.append_assoc, List.singleton_append]
        · rw [h2, ha]
          unfold incU8
          simp only [List.length_cons]
          omega
      · rename_i r hnot
        have hcontra := hnot () s1
        exact absurd h hcontra
  obtain ⟨h1, h2⟩ := key calls s s1 h hu8
  refine ⟨h1, ?_, h2, ?_, ?_⟩
  · intro i hi
    rw [h1, List.getElem?_append_left hi]
  · intro hle
    rw [h2]
    omega
  · intro hm ha hk
    refine ⟨?_, ?_⟩
    · rw [h1, hm]
      simp only [List.nil_append, List.map_map]
      rfl
    · unfold AmountOfMappers
      rw [h2, ha]
      omega

/-- Witness of C18: two calls on a fresh engine. -/
theorem addMapper_registry_order_witness :
    (BuilderImage.addMapperAll (Sample.hostOk "")
        [("/dev/mapper/loop0p2", "/boot"), ("/dev/mapper/loop0p3", "/data")]
        (Sample.engine (Sample.disk 5120 []) "/mnt/rootfs" false)).2.img.loopDevice.mappers =
      [] ++ ([("/dev/mapper/loop0p2", "/boot"), ("/dev/mapper/loop0p3", "/data")].map
        fun call => ⟨call.1, pathJoin "/mnt/rootfs" call.2⟩) :=
  (addMapper_registry_order (Sample.hostOk "")
    [("/dev/mapper/loop0p2", "/boot"), ("/dev/mapper/loop0p3", "/data")]
    (Sample.engine (Sample.disk 5120 []) "/mnt/rootfs" false)
    (BuilderImage.addMapperAll (Sample.hostOk "")
      [("/dev/mapper/loop0p2", "/boot"), ("/dev/mapper/loop0p3", "/data")]
      (Sample.engine (Sample.disk 5120 []) "/mnt/rootfs" false)).2
    (by decide) (by decide)).1

end Registry

/-! ## Theorems: an image without a plan -/

section Opaque

open BuilderImage

/-- The check for the converter changes neither the plan nor the engine record. -/
theorem qemuCheck_keeps (env : Env) (config : Disk) (msg : String) (s : St) :
    (qemuCheck env config msg s).2.1.Partitions = config.Partitions ∧
    (qemuCheck env config msg s).2.2.img = s.img := by
  unfold qemuCheck
  split
  · dsimp only
    split <;> exact ⟨rfl, rfl⟩
  · exact ⟨rfl, rfl⟩

/-- An engine that `newImage` builds from a configuration without
partitions declares no partitions, need not be formatted and has an empty
registry. -/
theorem newImage_no_plan (env : Env) (config : Disk) (msg : String) (s s1 : St)
    (hnil : config.Partitions = none) (hfmt : s.img.needToFormat = false)
    (h : newImage env config msg s = (Res.ok (), s1)) :
    s1.img.config.Partitions = none ∧ s1.img.needToFormat = false ∧
    s1.img.loopDevice.mappers = [] ∧ s1.img.loopDevice.amountOfMappers = 0 := by
  obtain ⟨hkp, hki⟩ := qemuCheck_keeps env config msg s
  unfold newImage at h
  dsimp only at h
  split at h
  · cases h
  · split at h
    · split at h
      · rename_i u s2 hcreate
        have hs2 : s2.img.needToFormat = false ∧ s2.img.config.Partitions = none := by
          unfold create at hcreate
          dsimp only at hcreate
          split at hcreate
          · cases hcreate
          · cases hcreate
            exact ⟨by simp only [exec, hki, hfmt], by simp only [exec, hkp, hnil]⟩
        cases h
        rw [if_neg (by simp [hkp, hnil])]
        exact ⟨hs2.2, hs2.1, rfl, rfl⟩
      · cases h
      · cases h
    · cases h
      exact ⟨by simp only [exec, hkp, hnil], by simp only [exec, hki, hfmt], rfl, rfl⟩

/-- An engine that `New` builds from a configuration without partitions
declares no partitions, need not be formatted and has an empty registry. -/
theorem New_no_plan (env : Env) (config : Disk) (rootfsMp : String) (bins : Utils)
    (remoteConfig : Option RemoteHost) (s : St)
    (hnil : config.Partitions = none)
    (h : New env config rootfsMp bins remoteConfig = (Res.ok (), s)) :
    s.img.config.Partitions = none ∧ s.img.needToFormat = false ∧
    s.img.loopDevice.mappers = [] ∧ s.img.loopDevice.amountOfMappers = 0 := by
  unfold New at h
  dsimp only at h
  split at h
  · exact newImage_no_plan env config _ _ s hnil rfl h
  · split at h
    · cases h
    · split at h
      · cases h
      · split at h
        · cases h
        · split at h
          · rename_i u s3 hset
            refine newImage_no_plan env config _ s3 s hnil ?_ h
            unfold setUtilNewPaths at hset
            dsimp only at hset
            split at hset
            · cases hset
            · cases hset; rfl
          · cases h
          · cases h

/-- C19: for an engine built by `New` from a configuration that declares no
partitions, `Parse` only binds the loop device: the commands it issues are
`losetup -f` and, when that succeeds, the attach command `losetup <device>
<image>`, and nothing else; the registry stays empty and the counter 0; and
it returns success whenever `bind` returns no error. -/
theorem parse_without_plan_only_binds (env : Env) (config : BuilderImage.Disk)
    (rootfsMp : String) (bins : BuilderImage.Utils)
    (remoteConfig : Option BuilderImage.RemoteHost) (s : BuilderImage.St)
    (hnil : config.Partitions = none)
    (hnew : BuilderImage.New env config rootfsMp bins remoteConfig = (Res.ok (), s)) :
    ((BuilderImage.Parse env s).2.trace = s.trace ++ ["losetup -f"] ∨
      (BuilderImage.Parse env s).2.trace = s.trace ++ ["losetup -f",
        "losetup " ++ (env.run s.trace "losetup -f").out ++ " " ++ s.img.config.Path]) ∧
    (BuilderImage.Parse env s).2.img.loopDevice.mappers = [] ∧
    BuilderImage.AmountOfMappers (BuilderImage.Parse env s).2 = 0 ∧
    ((BuilderImage.bind env s s.img.config.Path).1.2 = none →
      (BuilderImage.Parse env s).1 = Res.ok ()) := by
  obtain ⟨hp, hf, hm, ha⟩ := New_no_plan env config rootfsMp bins remoteConfig s hnil hnew
  have himg := bind_img env s s.img.config.Path
  have hparse : Parse env s =
      (match (bind env s s.img.config.Path).1.2 with
        | some e => Res.error (env.FormatError e)
        | none => Res.ok (),
       setLoopName (bind env s s.img.config.Path).2 (bind env s s.img.config.Path).1.1) := by
    unfold Parse
    dsimp only
    split
    · rfl
    · rw [if_neg (by simp only [setLoopName, himg, hf]; simp),
        if_neg (by simp only [setLoopName, himg, hp]; simp)]
  rw [hparse]
  refine ⟨?_, ?_, ?_, ?_⟩
  · show (bind env s s.img.config.Path).2.trace = _ ∨ (bind env s s.img.config.Path).2.trace = _
    unfold BuilderImage.bind
    dsimp only
    split
    · left; rfl
    · right
      simp only [exec, List.append_assoc, List.singleton_append]
  · show (bind env s s.img.config.Path).2.img.loopDevice.mappers = []
    rw [himg, hm]
  · show (bind env s s.img.config.Path).2.img.loopDevice.amountOfMappers = 0
    rw [himg, ha]
  · intro hb
    simp only [hb]

/-- Witness of C19: a raw disk without partitions on a host where every
command succeeds. -/
theorem parse_without_plan_only_binds_witness :
    BuilderImage.AmountOfMappers (BuilderImage.Parse (Sample.hostOk "")
      (BuilderImage.New (Sample.hostOk "") Sample.noPlan "/mnt/rootfs"
        { Kpartx := "kpartx", dir := "" } none).2).2 = 0 :=
  (parse_without_plan_only_binds (Sample.hostOk "") Sample.noPlan "/mnt/rootfs"
    { Kpartx := "kpartx", dir := "" } none
    (BuilderImage.New (Sample.hostOk "") Sample.noPlan "/mnt/rootfs"
      { Kpartx := "kpartx", dir := "" } none).2 rfl (by decide)).2.2.1

end Opaque

/-! ## Theorems: error propagation on the format path -/

section Propagation

open BuilderImage

/-- Nothing issued, nothing failed. -/
theorem stops_refl (env : Env) (t : List String) (P : Prop) : StopsAtFailure env t P t := by
  refine ⟨⟨[], by simp⟩, ?_⟩
  rintro i hi ⟨c, hc, -⟩
  rw [List.getElem?_eq_none hi] at hc
  cases hc

/-- A weaker conclusion about the result may replace a stronger one. -/
theorem stops_mono (env : Env) (t0 t1 : List String) (P Q : Prop) (hpq : P → Q)
    (h : StopsAtFailure env t0 P t1) : StopsAtFailure env t0 Q t1 :=
  ⟨h.1, fun i hi hf => ⟨(h.2 i hi hf).1, hpq (h.2 i hi hf).2⟩⟩

/-- What failed inside the earlier stretch of a trace failed there already. -/
theorem failedAt_of_append (env : Env) (t1 suffix : List String) (i : Nat)
    (hi : i < t1.length) (h : failedAt env (t1 ++ suffix) i) : failedAt env t1 i := by
  obtain ⟨c, hc, he⟩ := h
  rw [List.getElem?_append_left hi] at hc
  rw [List.take_append_of_le_length (Nat.le_of_lt hi)] at he
  exact ⟨c, hc, he⟩

/-- Two stretches of execution, the first without failure, make one. -/
theorem stops_seq (env : Env) (t0 t1 t2 : List String) (P : Prop)
    (h1 : StopsAtFailure env t0 False t1) (h2 : StopsAtFailure env t1 P t2) :
    StopsAtFailure env t0 P t2 := by
  obtain ⟨⟨s1, rfl⟩, hc1⟩ := h1
  obtain ⟨⟨s2, rfl⟩, hc2⟩ := h2
  refine ⟨⟨s1 ++ s2, by simp⟩, ?_⟩
  intro i hi hf
  rcases Nat.lt_or_ge i (t0 ++ s1).length with hlt | hge
  · exact ((hc1 i hi (failedAt_of_append env _ _ i hlt hf)).2).elim
  · exact hc2 i hge hf

/-- A command that fails, after which the function returns an error. -/
theorem stops_fail (env : Env) (t : List String) (c : String) (P : Prop) (hP : P) :
    StopsAtFailure env t P (t ++ [c]) := by
  refine ⟨⟨[c], rfl⟩, ?_⟩
  rintro i hi ⟨d, hd, -⟩
  have hlt : i < (t ++ [c]).length := by
    rcases Nat.lt_or_ge i (t ++ [c]).length with h | h
    · exact h
    · rw [List.getElem?_eq_none h] at hd; cases hd
  simp only [List.length_append, List.length_singleton] at hlt ⊢
  exact ⟨by omega, hP⟩

/-- A command that succeeds. -/
theorem stops_ok (env : Env) (t : List String) (c : String) (P : Prop)
    (h : (env.run t c).err = none) : StopsAtFailure env t P (t ++ [c]) := by
  refine ⟨⟨[c], rfl⟩, ?_⟩
  rintro i hi ⟨d, hd, he⟩
  have hlt : i < (t ++ [c]).length := by
    rcases Nat.lt_or_ge i (t ++ [c]).length with h | h
    · exact h
    · rw [List.getElem?_eq_none h] at hd; cases hd
  simp only [List.length_append, List.length_singleton] at hlt
  have hi' : i = t.length := by omega
  subst hi'
  rw [List.getElem?_append_right (Nat.le_refl _)] at hd
  simp only [Nat.sub_self, List.getElem?_cons_zero, Option.some.injEq] at hd
  subst hd
  rw [List.take_left'] at he
  · exact absurd h he
  · rfl

/-- The result `ok` is no error. -/
theorem not_isErr_ok {α : Type} (a : α) : ¬ (Res.ok a).isErr := by
  rintro ⟨e, h⟩; cases h

theorem isErr_error {α : Type} (e : String) : (Res.error e : Res α).isErr := ⟨e, rfl⟩

/-- `getMappers` stops at the first failing command. -/
theorem stops_getMappers (env : Env) (s : St) (name : String) :
    StopsAtFailure env s.trace (getMappers env s name).1.isErr
      (getMappers env s name).2.trace := by
  unfold BuilderImage.getMappers
  dsimp only
  split
  · exact stops_fail env _ _ _ (isErr_error _)
  · rename_i h1
    split
    · exact stops_ok env _ _ _ h1
    · split
      · exact stops_seq env _ _ _ _ (stops_ok env _ _ _ h1)
          (stops_fail env _ _ _ (isErr_error _))
      · rename_i h2
        split
        · exact stops_seq env _ _ _ _ (stops_ok env _ _ _ h1) (stops_ok env _ _ _ h2)
        · exact stops_seq env _ _ _ _ (stops_ok env _ _ _ h1) (stops_ok env _ _ _ h2)

/-- The first command of `getMappers` is the device-mapper helper. -/
theorem getMappers_first (env : Env) (s : St) (name : String) :
    ∃ rest : List String, (getMappers env s name).2.trace =
      s.trace ++ (s.img.utils.Kpartx ++ " -a " ++ name) :: rest := by
  unfold BuilderImage.getMappers
  dsimp only
  split
  · exact ⟨[], rfl⟩
  · split
    · exact ⟨[], rfl⟩
    · split
      · exact ⟨[_], List.append_assoc _ [_] [_]⟩
      · split
        · exact ⟨[_], List.append_assoc _ [_] [_]⟩
        · exact ⟨[_], List.append_assoc _ [_] [_]⟩

/-- `addMapper` stops at the first failing command. -/
theorem stops_addMapper (env : Env) (s : St) (node rel : String) :
    StopsAtFailure env s.trace (addMapper env s node rel).1.isErr
      (addMapper env s node rel).2.trace := by
  unfold BuilderImage.addMapper
  dsimp only
  split
  · exact stops_fail env _ _ _ (isErr_error _)
  · rename_i h1
    split
    · exact stops_ok env _ _ _ h1
    · split
      · split
        · exact stops_seq env _ _ _ _ (stops_ok env _ _ _ h1)
            (stops_fail env _ _ _ (isErr_error _))
        · rename_i h2
          exact stops_seq env _ _ _ _ (stops_ok env _ _ _ h1) (stops_ok env _ _ _ h2)
      · exact stops_ok env _ _ _ h1

/-- The first loop of `partTableMakefs` stops at the first failing command. -/
theorem stops_makefsRootLoop (env : Env) (mappers : List String) :
    ∀ (parts : List Partition) (index : Nat) (s : St),
      StopsAtFailure env s.trace (makefsRootLoop env mappers index parts s).1.isErr
        (makefsRootLoop env mappers index parts s).2.trace := by
  intro parts
  induction parts with
  | nil => intro index s; exact stops_refl env _ _
  | cons part rest ih =>
    intro index s
    unfold BuilderImage.makefsRootLoop
    split
    · split
      · exact stops_refl env _ _
      · dsimp only
        split
        · exact stops_fail env _ _ _ (isErr_error _)
        · rename_i h1
          split
          · exact stops_seq env _ _ _ _ (stops_ok env _ _ _ h1)
              (stops_fail env _ _ _ (isErr_error _))
          · rename_i h2
            exact stops_seq env _ _ _ _ (stops_ok env _ _ _ h1)
              (stops_seq env _ _ _ _ (stops_ok env _ _ _ h2) (ih _ _))
    · exact ih _ _

/-- The second loop of `partTableMakefs` stops at the first failing command. -/
theorem stops_makefsRestLoop (env : Env) (mappers : List String) :
    ∀ (parts : List Partition) (index : Nat) (s : St),
      StopsAtFailure env s.trace (makefsRestLoop env mappers index parts s).1.isErr
        (makefsRestLoop env mappers index parts s).2.trace := by
  intro parts
  induction parts with
  | nil => intro index s; exact stops_refl env _ _
  | cons part rest ih =>
    intro index s
    unfold BuilderImage.makefsRestLoop
    split
    · exact stops_refl env _ _
    · rename_i mapper hm
      split
      · dsimp only
        split
        · exact stops_fail env _ _ _ (isErr_error _)
        · rename_i h1
          exact stops_seq env _ _ _ _ (stops_ok env _ _ _ h1) (ih _ _)
      · split
        · dsimp only
          split
          · exact stops_fail env _ _ _ (isErr_error _)
          · rename_i h1
            have ha := stops_addMapper env (exec env s (mkfsCmd part mapper)).2 mapper
              part.MountPoint
            split
            · rename_i u s2 heq
              rw [heq] at ha
              exact stops_seq env _ _ _ _ (stops_ok env _ _ _ h1)
                (stops_seq env _ _ _ _ (stops_mono env _ _ _ _ (not_isErr_ok _) ha) (ih _ _))
            · rename_i e s2 heq
              rw [heq] at ha
              exact stops_seq env _ _ _ _ (stops_ok env _ _ _ h1)
                (stops_mono env _ _ _ _ (fun _ => isErr_error _) ha)
            · rename_i s2 heq
              rw [heq] at ha
              exact stops_seq env _ _ _ _ (stops_ok env _ _ _ h1)
                (stops_mono env _ _ _ _ (fun h => (by rcases h with ⟨e, he⟩; cases he)) ha)
        · exact ih _ _

/-- The rest of `partTableMakefs` after the partitioning command, from the
state `s1` in which that command has been issued. -/
theorem stops_after_fdisk (env : Env) (s1 : St) :
    (∃ rest : List String,
      (match getMappers env s1 s1.img.loopDevice.name with
        | (.error e, sa) => ((Res.error (env.FormatError e) : Res Unit), sa)
        | (.fault, sa) => (Res.fault, sa)
        | (.ok mappers, sa) =>
          match makefsRootLoop env mappers 0 sa.img.config.parts sa with
          | (.ok _, sb) => makefsRestLoop env mappers 0 sb.img.config.parts sb
          | r => r).2.trace =
        s1.trace ++ (s1.img.utils.Kpartx ++ " -a " ++ s1.img.loopDevice.name) :: rest) ∧
    StopsAtFailure env s1.trace
      (match getMappers env s1 s1.img.loopDevice.name with
        | (.error e, sa) => ((Res.error (env.FormatError e) : Res Unit), sa)
        | (.fault, sa) => (Res.fault, sa)
        | (.ok mappers, sa) =>
          match makefsRootLoop env mappers 0 sa.img.config.parts sa with
          | (.ok _, sb) => makefsRestLoop env mappers 0 sb.img.config.parts sb
          | r => r).1.isErr
      (match getMappers env s1 s1.img.loopDevice.name with
        | (.error e, sa) => ((Res.error (env.FormatError e) : Res Unit), sa)
        | (.fault, sa) => (Res.fault, sa)
        | (.ok mappers, sa) =>
          match makefsRootLoop env mappers 0 sa.img.config.parts sa with
          | (.ok _, sb) => makefsRestLoop env mappers 0 sb.img.config.parts sb
          | r => r).2.trace := by
  have hg := stops_getMappers env s1 s1.img.loopDevice.name
  obtain ⟨r1, hfirst⟩ := getMappers_first env s1 s1.img.loopDevice.name
  split
  · rename_i e sa heq
    rw [heq] at hg hfirst
    exact ⟨⟨r1, hfirst⟩, stops_mono env _ _ _ _ (fun _ => isErr_error _) hg⟩
  · rename_i sa heq
    rw [heq] at hg hfirst
    exact ⟨⟨r1, hfirst⟩,
      stops_mono env _ _ _ _ (fun h => (by rcases h with ⟨e, he⟩; cases he)) hg⟩
  · rename_i mappers sa heq
    rw [heq] at hg hfirst
    have hg0 : StopsAtFailure env s1.trace False sa.trace :=
      stops_mono env _ _ _ _ (not_isErr_ok _) hg
    have hroot := stops_makefsRootLoop env mappers sa.img.config.parts 0 sa
    split
    · rename_i u sb hr
      rw [hr] at hroot
      have hroot0 : StopsAtFailure env sa.trace False sb.trace :=
        stops_mono env _ _ _ _ (not_isErr_ok _) hroot
      have hrest := stops_makefsRestLoop env mappers sb.img.config.parts 0 sb
      have hall := stops_seq env _ _ _ _ hg0 (stops_seq env _ _ _ _ hroot0 hrest)
      refine ⟨?_, hall⟩
      obtain ⟨x1, hx1⟩ := hroot.1
      obtain ⟨x2, hx2⟩ := hrest.1
      exact ⟨r1 ++ x1 ++ x2, by
        rw [hx2, hx1, hfirst]
        simp only [List.append_assoc, List.cons_append]⟩
    · rename_i r hnot
      have hall := stops_seq env _ _ _ _ hg0 hroot
      refine ⟨?_, hall⟩
      obtain ⟨x1, hx1⟩ := hroot.1
      exact ⟨r1 ++ x1, by
        rw [hx1, hfirst]
        simp only [List.append_assoc, List.cons_append]⟩

/-- The commands of `partTableMakefs`: first the partitioning command, whose
result is not looked at, then the device-mapper helper; from there on the
function stops at the first failing command. -/
theorem partTableMakefs_commands (env : Env) (s : St) :
    (∃ rest : List String, (partTableMakefs env s).2.trace =
      s.trace ++ fdiskCommand s ::
        (s.img.utils.Kpartx ++ " -a " ++ s.img.loopDevice.name) :: rest) ∧
    StopsAtFailure env (s.trace ++ [fdiskCommand s]) (partTableMakefs env s).1.isErr
      (partTableMakefs env s).2.trace := by
  by_cases hf : s.img.config.FdiskCmd = ""
  · have h := stops_after_fdisk env
      (exec env ({ s with img := { s.img with config := generateFdiskCmd s.img.config } } : St)
        (fdiskCommand s)).2
    obtain ⟨⟨rest, h1⟩, h2⟩ := h
    have hcmd : fdiskCommand s = "echo -e  \"" ++ fdiskScript s.img.config ++ "\"|fdisk " ++
        s.img.loopDevice.name := by
      unfold fdiskCommand; rw [if_pos hf]
    refine ⟨⟨rest, ?_⟩, ?_⟩
    · unfold partTableMakefs
      simp only [hf, if_true]
      rw [hcmd] at h1
      simp only [exec, generateFdiskCmd, List.append_assoc, List.singleton_append] at h1 ⊢
      rw [hcmd]
      exact h1
    · unfold partTableMakefs
      simp only [hf, if_true]
      rw [hcmd] at h2 ⊢
      exact h2
  · have h := stops_after_fdisk env (exec env s (fdiskCommand s)).2
    obtain ⟨⟨rest, h1⟩, h2⟩ := h
    have hcmd : fdiskCommand s = "echo -e  \"" ++ s.img.config.FdiskCmd ++ "\"|fdisk " ++
        s.img.loopDevice.name := by
      unfold fdiskCommand; rw [if_neg hf]
    refine ⟨⟨rest, ?_⟩, ?_⟩
    · unfold partTableMakefs
      simp only [hf, if_false]
      rw [hcmd] at h1
      simp only [exec, List.append_assoc, List.singleton_append] at h1 ⊢
      rw [hcmd]
      exact h1
    · unfold partTableMakefs
      simp only [hf, if_false]
      rw [hcmd] at h2 ⊢
      exact h2

/-- Counterexample to C20: on a host where the partitioning command fails
(and every other command succeeds) `Parse` of a fresh image with the plan
root, swap returns success, and the device-mapper helper, mkfs, mount and
mkswap are executed after the failed command. -/
theorem parse_ignores_fdisk_failure :
    ((Sample.hostFdiskFails Sample.twoNodes).run
        ["losetup -f", "losetup /dev/loop0 /img/disk.raw"]
        ("echo -e  \"" ++ "o\\nn\\np\\n1\\n\\n+3045M\\nt\\n83\\nn\\np\\n2\\n\\n\\nt\\n2\\n82\\na\\n1\\nw" ++
          "\"|fdisk /dev/loop0")).err = some "exit status 1" ∧
    (BuilderImage.Parse (Sample.hostFdiskFails Sample.twoNodes)
        (Sample.engine (Sample.disk 5120 [Sample.pRoot, Sample.pSwap 2]) "/mnt/rootfs"
          true)).1 = Res.ok () ∧
    (BuilderImage.Parse (Sample.hostFdiskFails Sample.twoNodes)
        (Sample.engine (Sample.disk 5120 [Sample.pRoot, Sample.pSwap 2]) "/mnt/rootfs"
          true)).2.trace =
      ["losetup -f", "losetup /dev/loop0 /img/disk.raw",
       "echo -e  \"o\\nn\\np\\n1\\n\\n+3045M\\nt\\n83\\nn\\np\\n2\\n\\n\\nt\\n2\\n82\\na\\n1\\nw\"|fdisk /dev/loop0",
       "kpartx -a /dev/loop0", "find /dev -name loop0p[0-9]",
       "mkfs -t ext4 -L SLASH  /dev/mapper/loop0p1", "mount /dev/mapper/loop0p1 /mnt/rootfs",
       "mkswap -L SWAP /dev/mapper/loop0p2"] := by
  refine ⟨by decide, by decide, by decide⟩

/-- C20 (amended): `partTableMakefs` issues the partitioning command and
then, whatever that command answered, the device-mapper helper; every
command after the partitioning command that fails is the last command
executed and makes `partTableMakefs` return an error; and when
`partTableMakefs` returns an error on the format path, `Parse` returns an
error. -/
theorem format_path_stops_at_failure (env : Env) (s s0 : BuilderImage.St) :
    (∃ rest : List String, (BuilderImage.partTableMakefs env s).2.trace =
      s.trace ++ BuilderImage.fdiskCommand s ::
        (s.img.utils.Kpartx ++ " -a " ++ s.img.loopDevice.name) :: rest) ∧
    (∀ i : Nat, s.trace.length + 1 ≤ i →
      failedAt env (BuilderImage.partTableMakefs env s).2.trace i →
      i + 1 = (BuilderImage.partTableMakefs env s).2.trace.length ∧
      ∃ e : String, (BuilderImage.partTableMakefs env s).1 = Res.error e) ∧
    (s0.img.needToFormat = true →
      (BuilderImage.bind env s0 s0.img.config.Path).1.2 = none →
      (∃ e : String, (BuilderImage.partTableMakefs env
        (BuilderImage.setLoopName (BuilderImage.bind env s0 s0.img.config.Path).2
          (BuilderImage.bind env s0 s0.img.config.Path).1.1)).1 = Res.error e) →
      ∃ e : String, (BuilderImage.Parse env s0).1 = Res.error e) := by
  obtain ⟨h1, h2⟩ := partTableMakefs_commands env s
  refine ⟨h1, ?_, ?_⟩
  · intro i hi hf
    exact h2.2 i (by simpa using hi) hf
  · intro hfmt hbind ⟨e, he⟩
    have himg := bind_img env s0 s0.img.config.Path
    unfold Parse
    dsimp only
    rw [hbind]
    dsimp only
    rw [if_pos (by simp only [setLoopName, himg, hfmt])]
    split
    · exact ⟨_, rfl⟩
    · rename_i r hnot
      exact ⟨e, he⟩

/-- Witness of C20 (amended): on a host where every command succeeds the
partitioning command and the device-mapper helper are the first two commands
of `partTableMakefs`. -/
theorem format_path_stops_at_failure_witness :
    ∃ rest : List String,
      (BuilderImage.partTableMakefs (Sample.hostOk Sample.twoNodes)
        (Sample.engineWith [])).2.trace =
      (Sample.engineWith []).trace ++ BuilderImage.fdiskCommand (Sample.engineWith []) ::
        ((Sample.engineWith []).img.utils.Kpartx ++ " -a " ++
          (Sample.engineWith []).img.loopDevice.name) :: rest :=
  (format_path_stops_at_failure (Sample.hostOk Sample.twoNodes) (Sample.engineWith [])
    (Sample.engineWith [])).1

/-- Counterexample to C11: the plan whose first partition (sequence 1 of 2)
carries the remaining-space marker is synthesized without error, the
partitioning command is executed with a script that asks for the extent
`+-2M`, and `Parse` returns success. -/
theorem parse_accepts_misplaced_marker :
    ((BuilderImage.fdiskFragments Sample.markerFirst)[0]?).map Prod.fst =
      some "n\\np\\n1\\n\\n+-2M\\n" ∧
    (BuilderImage.Parse (Sample.hostOk Sample.twoNodes)
        (Sample.engine Sample.markerFirst "/mnt/rootfs" true)).1 = Res.ok () ∧
    "echo -e  \"o\\nn\\np\\n1\\n\\n+-2M\\nt\\n82\\nn\\np\\n2\\n\\n+100M\\nt\\n2\\n83\\na\\n1\\nw\"|fdisk /dev/loop0" ∈
      (BuilderImage.Parse (Sample.hostOk Sample.twoNodes)
        (Sample.engine Sample.markerFirst "/mnt/rootfs" true)).2.trace := by
  refine ⟨by decide, by decide, by decide⟩

/-- C11 (amended): synthesis has no error result and checks nothing.  A
partition that carries the remaining-space marker without being the last
partition (its sequence is not the number of partitions) gets the creation
text of a sized partition with the extent `+-2M`; and `partTableMakefs` always
executes the partitioning command with the synthesized script as its first
command. -/
theorem fdisk_misplaced_marker_is_sized (env : Env) (s : BuilderImage.St) (k : Nat)
    (part : BuilderImage.Partition)
    (hk : s.img.config.parts[k]? = some part)
    (hmarker : BuilderImage.resolveSizeMb s.img.config.SizeMb part = BuilderImage.allocateAll)
    (hnotlast : part.Sequence ≠ s.img.config.parts.length)
    (hscript : s.img.config.FdiskCmd = "") :
    fmtD (-2) = "-2" ∧
    ((BuilderImage.fdiskFragments s.img.config)[k]?).map Prod.fst =
      some (if part.Sequence < 4 then
          "n\\np\\n" ++ fmtD part.Sequence ++ "\\n\\n+" ++ fmtD (-2) ++ "M\\n"
        else if part.Sequence = 4 then "n\\ne\\n\\n\\n\\n+" ++ fmtD (-2) ++ "M\\n"
        else "n\\n\\n+" ++ fmtD (-2) ++ "M\\n") ∧
    ∃ rest : List String, (BuilderImage.partTableMakefs env s).2.trace =
      s.trace ++ ("echo -e  \"" ++ BuilderImage.fdiskScript s.img.config ++ "\"|fdisk " ++
        s.img.loopDevice.name) :: rest := by
  refine ⟨by decide, ?_, ?_⟩
  · have h := fdiskFragments_sized s.img.config k part hk (fun hc => hnotlast hc.1)
    rw [hmarker] at h
    exact h
  · obtain ⟨⟨rest, h1⟩, -⟩ := partTableMakefs_commands env s
    refine ⟨(s.img.utils.Kpartx ++ " -a " ++ s.img.loopDevice.name) :: rest, ?_⟩
    rw [h1]
    unfold fdiskCommand
    rw [if_pos hscript]

/-- Witness of C11 (amended): the plan whose first partition carries the marker. -/
theorem fdisk_misplaced_marker_is_sized_witness :
    ((BuilderImage.fdiskFragments Sample.markerFirst)[0]?).map Prod.fst =
      some (if (1 : Int) < 4 then "n\\np\\n" ++ fmtD 1 ++ "\\n\\n+" ++ fmtD (-2) ++ "M\\n"
        else if (1 : Int) = 4 then "n\\ne\\n\\n\\n\\n+" ++ fmtD (-2) ++ "M\\n"
        else "n\\n\\n+" ++ fmtD (-2) ++ "M\\n") :=
  (fdisk_misplaced_marker_is_sized (Sample.hostOk Sample.twoNodes)
    (Sample.engine Sample.markerFirst "/mnt/rootfs" true) 0 (Sample.pSwap 1)
    (by decide) (by decide) (by decide) (by decide)).2.1

end Propagation

/-! ## Theorems: format conversion -/

section Conversion

open BuilderImage

/-- Taking the suffix off a string that ends with it leaves what stood before. -/
theorem trimSuffix_append (base suffix : String) :
    trimSuffix (base ++ suffix) suffix = base := by
  unfold trimSuffix
  have hrev : (base ++ suffix).data.reverse = suffix.data.reverse ++ base.data.reverse := by
    rw [String.data_append, List.reverse_append]
  rw [hrev, if_pos (startsWith_append _ _)]
  have hlen : suffix.data.length = suffix.data.reverse.length := by
    rw [List.length_reverse]
  rw [hlen, List.drop_left, List.reverse_reverse]

/-- C21: `Convert` on a raw storage type issues no command and changes
nothing.  On another type T it issues the conversion command from the raw
path to the sibling path (the raw path without its `.raw` suffix, followed by
`.T`); when that command fails it returns an error at once, so the raw file
is not removed and the recorded path is unchanged; when it succeeds the raw
path is removed, and when that succeeds too the recorded path becomes the
sibling path. -/
theorem convert_renames_after_success (env : Env) (s : BuilderImage.St) :
    (s.img.config.StorageType = BuilderImage.StorageTypeRAW →
      BuilderImage.Convert env s = (Res.ok (), s)) ∧
    (∀ base : String, s.img.config.Path = base ++ ".raw" →
      trimSuffix s.img.config.Path ".raw" ++ "." ++ s.img.config.StorageType =
        base ++ "." ++ s.img.config.StorageType) ∧
    (s.img.config.StorageType ≠ BuilderImage.StorageTypeRAW →
      (∀ e : String,
        (env.run s.trace ("qemu-img convert -f raw -O " ++ s.img.config.StorageType ++ " " ++
          s.img.config.Path ++ " " ++
          (trimSuffix s.img.config.Path ".raw" ++ "." ++ s.img.config.StorageType))).err =
            some e →
        (∃ msg : String, (BuilderImage.Convert env s).1 = Res.error msg) ∧
        (BuilderImage.Convert env s).2.trace = s.trace ++
          ["qemu-img convert -f raw -O " ++ s.img.config.StorageType ++ " " ++
            s.img.config.Path ++ " " ++
            (trimSuffix s.img.config.Path ".raw" ++ "." ++ s.img.config.StorageType)] ∧
        (BuilderImage.Convert env s).2.img = s.img) ∧
      ((env.run s.trace ("qemu-img convert -f raw -O " ++ s.img.config.StorageType ++ " " ++
          s.img.config.Path ++ " " ++
          (trimSuffix s.img.config.Path ".raw" ++ "." ++ s.img.config.StorageType))).err =
            none →
        (env.run (s.trace ++
          ["qemu-img convert -f raw -O " ++ s.img.config.StorageType ++ " " ++
            s.img.config.Path ++ " " ++
            (trimSuffix s.img.config.Path ".raw" ++ "." ++ s.img.config.StorageType)])
          ("rm -rf " ++ s.img.config.Path)).err = none →
        BuilderImage.Convert env s =
          (Res.ok (),
           { s with
             trace := s.trace ++
               ["qemu-img convert -f raw -O " ++ s.img.config.StorageType ++ " " ++
                 s.img.config.Path ++ " " ++
                 (trimSuffix s.img.config.Path ".raw" ++ "." ++ s.img.config.StorageType),
                "rm -rf " ++ s.img.config.Path]
             img := { s.img with config := { s.img.config with
               Path := trimSuffix s.img.config.Path ".raw" ++ "." ++
                 s.img.config.StorageType } } }))) := by
  refine ⟨?_, ?_, ?_⟩
  · intro h
    unfold Convert
    rw [if_neg (by simp [h])]
  · intro base h
    rw [h, trimSuffix_append]
  · intro h
    refine ⟨?_, ?_⟩
    · intro e he
      unfold Convert convert
      rw [if_pos h]
      simp only [exec, he, and_self, and_true]
      exact ⟨_, rfl⟩
    · intro h1 h2
      unfold Convert convert
      rw [if_pos h]
      simp only [exec, h1, h2, List.append_assoc, List.singleton_append]

/-- Witness of C21: a qcow2 disk on a host where every command succeeds. -/
theorem convert_renames_after_success_witness :
    (BuilderImage.Convert (Sample.hostOk "")
      (Sample.engine (Sample.typedDisk "qcow2" "/img/disk.raw" .Grub) "/mnt/rootfs"
        false)).2.img.config.Path = "/img/disk.qcow2" ∧
    (BuilderImage.Convert (Sample.hostOk "")
      (Sample.engine (Sample.typedDisk "qcow2" "/img/disk.raw" .Grub) "/mnt/rootfs"
        false)).2.trace =
      ["qemu-img convert -f raw -O qcow2 /img/disk.raw /img/disk.qcow2",
       "rm -rf /img/disk.raw"] := by
  have h := ((convert_renames_after_success (Sample.hostOk "")
    (Sample.engine (Sample.typedDisk "qcow2" "/img/disk.raw" .Grub) "/mnt/rootfs"
      false)).2.2 (by decide)).2 (by decide) (by decide)
  rw [h]
  exact ⟨by decide, by decide⟩

/-- C22 (the code at the failing input): the configured path
`/export/v1.qcow2.d/disk.qcow2` of type qcow2.  `New` removes every
occurrence of `.qcow2` and records the working path `/export/v1.d/disk.raw`,
not `/export/v1.qcow2.d/disk.raw`; the following successful `Convert` records
`/export/v1.d/disk.qcow2`, which is not the configured path.  For the path
`/img/disk.qcow2` the round trip holds. -/
theorem path_round_trip_breaks_on_inner_extension :
    (BuilderImage.New (Sample.hostOk "")
        (Sample.typedDisk "qcow2" "/export/v1.qcow2.d/disk.qcow2" .Grub) "/mnt/rootfs"
        { Kpartx := "kpartx", dir := "" } none).1 = Res.ok () ∧
    (BuilderImage.New (Sample.hostOk "")
        (Sample.typedDisk "qcow2" "/export/v1.qcow2.d/disk.qcow2" .Grub) "/mnt/rootfs"
        { Kpartx := "kpartx", dir := "" } none).2.img.config.Path = "/export/v1.d/disk.raw" ∧
    (BuilderImage.Convert (Sample.hostOk "")
        (BuilderImage.New (Sample.hostOk "")
          (Sample.typedDisk "qcow2" "/export/v1.qcow2.d/disk.qcow2" .Grub) "/mnt/rootfs"
          { Kpartx := "kpartx", dir := "" } none).2).1 = Res.ok () ∧
    (BuilderImage.Convert (Sample.hostOk "")
        (BuilderImage.New (Sample.hostOk "")
          (Sample.typedDisk "qcow2" "/export/v1.qcow2.d/disk.qcow2" .Grub) "/mnt/rootfs"
          { Kpartx := "kpartx", dir := "" } none).2).2.img.config.Path =
      "/export/v1.d/disk.qcow2" ∧
    (BuilderImage.Convert (Sample.hostOk "")
        (BuilderImage.New (Sample.hostOk "")
          (Sample.typedDisk "qcow2" "/img/disk.qcow2" .Grub) "/mnt/rootfs"
          { Kpartx := "kpartx", dir := "" } none).2).2.img.config.Path = "/img/disk.qcow2" := by
  refine ⟨by decide, by decide, by decide, by decide, by decide⟩

end Conversion

/-! ## Theorems: bootloaders -/

section Bootloaders

open BuilderImage

/-- Counterexample to C23: the setup command of the legacy bootloader reports
success and prints `File not found`; `MakeBootable` returns success. -/
theorem grub_file_not_found_not_reported :
    containsStr "File not found" "File not found" = true ∧
    (BuilderImage.MakeBootable (Sample.hostGrubPrints "File not found")
      (Sample.engine (Sample.typedDisk "raw" "/img/disk.raw" .Grub) "/mnt/rootfs" false)).1 =
      Res.ok () := by
  decide

/-- C23 (amended): for the legacy MBR bootloader `MakeBootable` returns an
error when the lookup command fails, when the setup command fails, and when
the setup command reports success but its captured output contains the tool
error string `Error 15: File not found`; when both commands succeed and the
output does not contain that string it returns success. -/
theorem grub_reports_error_15 (env : Env) (s : BuilderImage.St) (r1 r2 : Reply)
    (hg : s.img.config.BootLoader = BuilderImage.BootLoaderType.Grub)
    (h1 : r1 = env.run s.trace ("chroot " ++ s.img.slashpath ++ "  which grub"))
    (h2 : r2 = env.run (s.trace ++ ["chroot " ++ s.img.slashpath ++ "  which grub"])
      ("echo -e \"device (hd0) " ++ s.img.config.Path ++
        "\nroot (hd0,0)\nsetup (hd0)\n\"|" ++ pathJoin s.img.slashpath r1.out)) :
    (r1.err ≠ none → ∃ msg : String, (BuilderImage.MakeBootable env s).1 = Res.error msg) ∧
    (r1.err = none → r2.err ≠ none →
      ∃ msg : String, (BuilderImage.MakeBootable env s).1 = Res.error msg) ∧
    (r1.err = none → r2.err = none →
      containsStr r2.out "Error 15: File not found" = true →
      ∃ msg : String, (BuilderImage.MakeBootable env s).1 = Res.error msg) ∧
    (r1.err = none → r2.err = none →
      containsStr r2.out "Error 15: File not found" = false →
      (BuilderImage.MakeBootable env s).1 = Res.ok ()) := by
  have hmb : MakeBootable env s = makeBootableGrub env s := by
    unfold MakeBootable; rw [hg]
  rw [hmb]
  unfold makeBootableGrub
  simp only [exec, ← h1, ← h2]
  refine ⟨?_, ?_, ?_, ?_⟩
  · intro h
    cases he : r1.err with
    | none => exact absurd he h
    | some e => exact ⟨_, rfl⟩
  · intro ha h
    rw [ha]
    cases he : r2.err with
    | none => exact absurd he h
    | some e => exact ⟨_, rfl⟩
  · intro ha hb hc
    rw [ha]
    simp only [hb, hc, if_true]
    exact ⟨_, rfl⟩
  · intro ha hb hc
    rw [ha]
    simp only [hb, hc]
    rfl

/-- Witness of C23 (amended): the setup command reports success and prints
`Error 15: File not found`. -/
theorem grub_reports_error_15_witness :
    ∃ msg : String,
      (BuilderImage.MakeBootable (Sample.hostGrubPrints "Error 15: File not found")
        (Sample.engine (Sample.typedDisk "raw" "/img/disk.raw" .Grub) "/mnt/rootfs"
          false)).1 = Res.error msg :=
  (grub_reports_error_15 (Sample.hostGrubPrints "Error 15: File not found")
    (Sample.engine (Sample.typedDisk "raw" "/img/disk.raw" .Grub) "/mnt/rootfs" false)
    ⟨"/usr/sbin/grub", none⟩ ⟨"Error 15: File not found", none⟩ rfl (by decide)
    (by decide)).2.2.1 rfl rfl (by decide)

/-- C24: for the two-stage bootloader, when the first mapper exists and the
throwaway loop device `d` is bound (`losetup -f` succeeded), every return
path of `MakeBootable` ends with the detach command `losetup -d d`; and once
`d` is mounted at the temporary directory `mp`, `MakeBootable` issues the
install command and then, whether the install command succeeds or fails, the
teardown command `umount -l mp/proc mp/dev;umount -f mp;rm -rf mp` (unmount
of `mp/proc` and `mp/dev`, unmount of `mp`, removal of `mp`) followed by
`losetup -d d`. -/
theorem grub2_teardown_always_runs (env : Env) (s : BuilderImage.St)
    (m : BuilderImage.mapperDevice) (d : String)
    (hg : s.img.config.BootLoader = BuilderImage.BootLoaderType.Grub2)
    (hm : s.img.loopDevice.mappers[0]? = some m)
    (hb : env.run s.trace "losetup -f" = ⟨d, none⟩) :
    (BuilderImage.MakeBootable env s).2.trace.getLast? = some ("losetup -d " ++ d) ∧
    (∀ mp : String,
      env.run (s.trace ++ ["losetup -f", "losetup " ++ d ++ " " ++ m.name])
        "mktemp -d --suffix _deployer_dummy_loop" = ⟨mp, none⟩ →
      (env.run (s.trace ++ ["losetup -f", "losetup " ++ d ++ " " ++ m.name,
          "mktemp -d --suffix _deployer_dummy_loop"])
        ("mount " ++ d ++ " " ++ mp)).err = none →
      (BuilderImage.MakeBootable env s).2.trace =
        s.trace ++ ["losetup -f", "losetup " ++ d ++ " " ++ m.name,
          "mktemp -d --suffix _deployer_dummy_loop", "mount " ++ d ++ " " ++ mp,
          "mkdir -p " ++ mp ++ "/boot/grub; echo -e \"(hd0) " ++ s.img.loopDevice.name ++
            "\n(hd0,1) " ++ d ++ "\" > " ++ mp ++ "/boot/grub/device.map;" ++
            "mount --bind /dev " ++ mp ++ "/dev ;chroot " ++ mp ++
            " mount -t proc none /proc;" ++
            "chroot " ++ mp ++
            " grub-install --no-floppy --grub-mkdevicemap=/boot/grub/device.map " ++
            s.img.loopDevice.name ++
            ";chroot " ++ mp ++ " update-grub;" ++
            "rm -f " ++ mp ++ "/boot/grub/device.map;" ++
            "sed -i \x27/loop/d\x27 " ++ mp ++ "/boot/grub/grub.cfg",
          "umount -l " ++ mp ++ "/proc " ++ mp ++ "/dev;" ++ "umount -f " ++ mp ++
            ";rm -rf " ++ mp,
          "losetup -d " ++ d]) := by
  have hmb : MakeBootable env s = makeBootableGrub2 env s := by
    unfold MakeBootable; rw [hg]
  have hbind : bind env s m.name =
      ((d, none), { s with trace := s.trace ++ ["losetup -f", "losetup " ++ d ++ " " ++ m.name] }) := by
    unfold BuilderImage.bind
    simp only [exec, hb, Option.isSome_none, Bool.false_eq_true, if_false, List.append_assoc,
      List.singleton_append]
  rw [hmb]
  unfold makeBootableGrub2
  simp only [hm, hbind]
  refine ⟨?_, ?_⟩
  · split
    · exact List.getLast?_concat _
    · split
      · exact List.getLast?_concat _
      · split
        · exact List.getLast?_concat _
        · exact List.getLast?_concat _
  · intro mp h1 h2
    simp only [exec, h1, List.append_assoc, List.singleton_append, List.cons_append,
      List.nil_append] at h2 ⊢
    simp only [h2]
    split <;> rfl

/-- Witness of C24: the install command fails; the teardown command and the
detach of the throwaway loop device are still issued. -/
theorem grub2_teardown_always_runs_witness :
    (BuilderImage.MakeBootable
      (Sample.hostFailing (BuilderImage.grub2Cmd "/dev/loop0" "/dev/loop0" "/tmp/dummy"))
      (Sample.grub2Engine [⟨"/dev/mapper/loop0p2", "/mnt/rootfs/boot"⟩])).2.trace =
      (Sample.grub2Engine [⟨"/dev/mapper/loop0p2", "/mnt/rootfs/boot"⟩]).trace ++
        ["losetup -f", "losetup " ++ "/dev/loop0" ++ " " ++ "/dev/mapper/loop0p2",
         "mktemp -d --suffix _deployer_dummy_loop", "mount " ++ "/dev/loop0" ++ " " ++ "/tmp/dummy",
          "mkdir -p " ++ "/tmp/dummy" ++ "/boot/grub; echo -e \"(hd0) " ++ "/dev/loop0" ++
            "\n(hd0,1) " ++ "/dev/loop0" ++ "\" > " ++ "/tmp/dummy" ++ "/boot/grub/device.map;" ++
            "mount --bind /dev " ++ "/tmp/dummy" ++ "/dev ;chroot " ++ "/tmp/dummy" ++
            " mount -t proc none /proc;" ++
            "chroot " ++ "/tmp/dummy" ++
            " grub-install --no-floppy --grub-mkdevicemap=/boot/grub/device.map " ++
            "/dev/loop0" ++
            ";chroot " ++ "/tmp/dummy" ++ " update-grub;" ++
            "rm -f " ++ "/tmp/dummy" ++ "/boot/grub/device.map;" ++
            "sed -i \x27/loop/d\x27 " ++ "/tmp/dummy" ++ "/boot/grub/grub.cfg",
          "umount -l " ++ "/tmp/dummy" ++ "/proc " ++ "/tmp/dummy" ++ "/dev;" ++ "umount -f " ++ "/tmp/dummy" ++
            ";rm -rf " ++ "/tmp/dummy",
          "losetup -d " ++ "/dev/loop0"] :=
  (grub2_teardown_always_runs
    (Sample.hostFailing (BuilderImage.grub2Cmd "/dev/loop0" "/dev/loop0" "/tmp/dummy"))
    (Sample.grub2Engine [⟨"/dev/mapper/loop0p2", "/mnt/rootfs/boot"⟩])
    ⟨"/dev/mapper/loop0p2", "/mnt/rootfs/boot"⟩ "/dev/loop0" rfl (by decide) (by decide)).2
    "/tmp/dummy" (by decide) (by decide)

/-- C25: for the SYSLINUX-family bootloader, when the lookup of the installer
fails `MakeBootable` returns an error and issues no further command; when the
stub `/usr/lib/EXTLINUX/mbr.bin` is found the install command copies it to
the loop device (`dd if=/usr/lib/EXTLINUX/mbr.bin of=<loop device>`); when it
is not found and `/usr/lib/extlinux/mbr.bin` is found the install command
copies that one (`dd if=/usr/lib/extlinux/mbr.bin of=<loop device>`); when
neither is found `MakeBootable` returns an error and the install command is
not issued (only the deferred unmount is). -/
theorem extlinux_stub_selection (env : Env) (s : BuilderImage.St)
    (hg : s.img.config.BootLoader = BuilderImage.BootLoaderType.Extlinux) :
    ((env.run s.trace ("chroot " ++ s.img.slashpath ++ " which extlinux")).err ≠ none →
      (∃ msg : String, (BuilderImage.MakeBootable env s).1 = Res.error msg) ∧
      (BuilderImage.MakeBootable env s).2.trace =
        s.trace ++ ["chroot " ++ s.img.slashpath ++ " which extlinux"]) ∧
    ((env.run s.trace ("chroot " ++ s.img.slashpath ++ " which extlinux")).err = none →
      ((env.run (s.trace ++ ["chroot " ++ s.img.slashpath ++ " which extlinux"])
          ("ls " ++ s.img.slashpath ++ "/usr/lib/EXTLINUX/mbr.bin")).err = none →
        (BuilderImage.MakeBootable env s).2.trace =
          s.trace ++ ["chroot " ++ s.img.slashpath ++ " which extlinux",
            "ls " ++ s.img.slashpath ++ "/usr/lib/EXTLINUX/mbr.bin",
            "mount --bind /dev " ++ s.img.slashpath ++ "/dev;" ++
              "chroot " ++ s.img.slashpath ++ " /bin/bash -c " ++
              "\"LC_ALL=C export PATH=/usr/local/bin:/usr/local/sbin:/usr/bin:/usr/sbin:/bin:/sbin;" ++
              "mount -t proc none /proc;" ++
              "dd if=" ++ "/usr/lib/EXTLINUX/mbr.bin" ++ " of=" ++ s.img.loopDevice.name ++
              " bs=440 count=1 conv=notrunc;" ++
              "extlinux -i /boot/extlinux;" ++
              "extlinux-update || true\"",
            "umount -l " ++ s.img.slashpath ++ "/proc " ++ s.img.slashpath ++ "/dev"]) ∧
      ((env.run (s.trace ++ ["chroot " ++ s.img.slashpath ++ " which extlinux"])
          ("ls " ++ s.img.slashpath ++ "/usr/lib/EXTLINUX/mbr.bin")).err ≠ none →
        ((env.run (s.trace ++ ["chroot " ++ s.img.slashpath ++ " which extlinux",
            "ls " ++ s.img.slashpath ++ "/usr/lib/EXTLINUX/mbr.bin"])
          ("ls " ++ s.img.slashpath ++ "/usr/lib/extlinux/mbr.bin")).err = none →
          (BuilderImage.MakeBootable env s).2.trace =
            s.trace ++ ["chroot " ++ s.img.slashpath ++ " which extlinux",
              "ls " ++ s.img.slashpath ++ "/usr/lib/EXTLINUX/mbr.bin",
              "ls " ++ s.img.slashpath ++ "/usr/lib/extlinux/mbr.bin",
              "mount --bind /dev " ++ s.img.slashpath ++ "/dev;" ++
              "chroot " ++ s.img.slashpath ++ " /bin/bash -c " ++
              "\"LC_ALL=C export PATH=/usr/local/bin:/usr/local/sbin:/usr/bin:/usr/sbin:/bin:/sbin;" ++
              "mount -t proc none /proc;" ++
              "dd if=" ++ "/usr/lib/extlinux/mbr.bin" ++ " of=" ++ s.img.loopDevice.name ++
              " bs=440 count=1 conv=notrunc;" ++
              "extlinux -i /boot/extlinux;" ++
              "extlinux-update || true\"",
              "umount -l " ++ s.img.slashpath ++ "/proc " ++ s.img.slashpath ++ "/dev"]) ∧
        ((env.run (s.trace ++ ["chroot " ++ s.img.slashpath ++ " which extlinux",
            "ls " ++ s.img.slashpath ++ "/usr/lib/EXTLINUX/mbr.bin"])
          ("ls " ++ s.img.slashpath ++ "/usr/lib/extlinux/mbr.bin")).err ≠ none →
          (∃ msg : String, (BuilderImage.MakeBootable env s).1 = Res.error msg) ∧
          (BuilderImage.MakeBootable env s).2.trace =
            s.trace ++ ["chroot " ++ s.img.slashpath ++ " which extlinux",
              "ls " ++ s.img.slashpath ++ "/usr/lib/EXTLINUX/mbr.bin",
              "ls " ++ s.img.slashpath ++ "/usr/lib/extlinux/mbr.bin",
              "umount -l " ++ s.img.slashpath ++ "/proc " ++ s.img.slashpath ++ "/dev"]))) := by
  have hmb : MakeBootable env s = makeBootableExtlinux env s := by
    unfold MakeBootable; rw [hg]
  rw [hmb]
  unfold makeBootableExtlinux extlinuxInstall
  simp only [exec, List.append_assoc, List.singleton_append, List.cons_append, List.nil_append]
  refine ⟨?_, ?_⟩
  · intro h
    cases he : (env.run s.trace ("chroot " ++ s.img.slashpath ++ " which extlinux")).err with
    | none => exact absurd he h
    | some e => exact ⟨⟨_, rfl⟩, rfl⟩
  · intro h1
    rw [h1]
    refine ⟨?_, ?_⟩
    · intro h2
      rw [h2]
      dsimp only
      split <;> rfl
    · intro h2
      obtain ⟨e2, he2⟩ := Option.ne_none_iff_exists'.mp h2
      rw [he2]
      dsimp only
      refine ⟨?_, ?_⟩
      · intro h3
        rw [h3]
        dsimp only
        split <;> rfl
      · intro h3
        obtain ⟨e3, he3⟩ := Option.ne_none_iff_exists'.mp h3
        rw [he3]
        exact ⟨⟨_, rfl⟩, rfl⟩

/-- Witness of C25: a host without the upper-case stub. -/
theorem extlinux_stub_selection_witness :
    (BuilderImage.MakeBootable (Sample.hostFailing "ls /mnt/rootfs/usr/lib/EXTLINUX/mbr.bin")
      (Sample.engine (Sample.typedDisk "raw" "/img/disk.raw" .Extlinux) "/mnt/rootfs"
        false)).2.trace =
      [] ++ ["chroot " ++ "/mnt/rootfs" ++ " which extlinux",
        "ls " ++ "/mnt/rootfs" ++ "/usr/lib/EXTLINUX/mbr.bin",
        "ls " ++ "/mnt/rootfs" ++ "/usr/lib/extlinux/mbr.bin",
        "mount --bind /dev " ++ "/mnt/rootfs" ++ "/dev;" ++
              "chroot " ++ "/mnt/rootfs" ++ " /bin/bash -c " ++
              "\"LC_ALL=C export PATH=/usr/local/bin:/usr/local/sbin:/usr/bin:/usr/sbin:/bin:/sbin;" ++
              "mount -t proc none /proc;" ++
              "dd if=" ++ "/usr/lib/extlinux/mbr.bin" ++ " of=" ++ "" ++
              " bs=440 count=1 conv=notrunc;" ++
              "extlinux -i /boot/extlinux;" ++
              "extlinux-update || true\"",
        "umount -l " ++ "/mnt/rootfs" ++ "/proc " ++ "/mnt/rootfs" ++ "/dev"] :=
  (((extlinux_stub_selection (Sample.hostFailing "ls /mnt/rootfs/usr/lib/EXTLINUX/mbr.bin")
    (Sample.engine (Sample.typedDisk "raw" "/img/disk.raw" .Extlinux) "/mnt/rootfs" false)
    rfl).2 (by decide)).2 (by decide)).1 (by decide)

/-- C29 (the code at the failing input): a fresh image with the two-stage
bootloader and the plan root, swap.  `Parse` succeeds and leaves the registry
empty; `MakeBootable` then faults on `mappers[0]` before issuing any command. -/
theorem grub2_first_mapper_missing :
    (BuilderImage.Parse (Sample.hostOk Sample.twoNodes)
      (Sample.engine Sample.rootSwapGrub2 "/mnt/rootfs" true)).1 = Res.ok () ∧
    (BuilderImage.Parse (Sample.hostOk Sample.twoNodes)
      (Sample.engine Sample.rootSwapGrub2 "/mnt/rootfs" true)).2.img.loopDevice.mappers = [] ∧
    BuilderImage.MakeBootable (Sample.hostOk Sample.twoNodes)
      (BuilderImage.Parse (Sample.hostOk Sample.twoNodes)
        (Sample.engine Sample.rootSwapGrub2 "/mnt/rootfs" true)).2 =
      (Res.fault, (BuilderImage.Parse (Sample.hostOk Sample.twoNodes)
        (Sample.engine Sample.rootSwapGrub2 "/mnt/rootfs" true)).2) := by
  refine ⟨by decide, by decide, by decide⟩

end Bootloaders

/-! ## The single-bootloader engine -/

section CommonRelease

/-- The loop of `Release` never returns once it stands on an entry that is
not mounted while the counter is not zero: nothing in the loop moves. -/
theorem releaseLoop_spins (env : Env) (index : Nat) (s : CommonImage.St)
    (m : CommonImage.mapperDevice)
    (hcount : s.img.loopDevice.amountOfMappers ≠ 0)
    (hm : s.img.loopDevice.mappers[index]? = some m)
    (hmounted : env.mounted s.trace m.name m.mountPoint = (false, none)) :
    ∀ fuel : Nat, CommonImage.releaseLoop env fuel index s = none := by
  intro fuel
  induction fuel with
  | zero => rfl
  | succ f ih =>
    unfold CommonImage.releaseLoop
    simp only [hm, hmounted]
    rw [if_pos hcount, if_neg (by simp)]
    exact ih

/-- C27 (the code at the failing input): a registry of two mounted mappers,
root then data.  On a host where a mount point stops being mounted once it has
been unmounted, `Release` returns for no amount of fuel: after the data
partition is unmounted the index still stands on it.  On a host that keeps
reporting every mount point as mounted, `Release` unmounts the data partition
twice and the root never. -/
theorem release_index_never_moves :
    (¬ ∃ fuel : Nat,
      (CommonImage.Release Sample.hostTracksMounts fuel Sample.commonTwoMounted).isSome) ∧
    (CommonImage.Release (Sample.hostOk "") 10 Sample.commonTwoMounted).map
        (fun r => (r.1, r.2.trace)) =
      some (Res.ok (), ["umount -l /mnt/rootfs/data", "umount -l /mnt/rootfs/data",
        "kpartx -d /dev/loop0", "losetup -d /dev/loop0"]) := by
  refine ⟨?_, by decide⟩
  rintro ⟨fuel, h⟩
  cases fuel with
  | zero => exact absurd h (by decide)
  | succ f =>
    have hspin := releaseLoop_spins Sample.hostTracksMounts 1
      (CommonImage.setAmount
        (exec Sample.hostTracksMounts Sample.commonTwoMounted "umount -l /mnt/rootfs/data").2 1)
      ⟨"/dev/mapper/loop0p2", "/mnt/rootfs/data"⟩ (by decide) (by decide) (by decide) f
    have hstep : CommonImage.releaseLoop Sample.hostTracksMounts (f + 1) 1
        Sample.commonTwoMounted =
        CommonImage.releaseLoop Sample.hostTracksMounts f 1
          (CommonImage.setAmount
            (exec Sample.hostTracksMounts Sample.commonTwoMounted
              "umount -l /mnt/rootfs/data").2 1) := by
      rw [CommonImage.releaseLoop]
      rfl
    have hrel : CommonImage.Release Sample.hostTracksMounts (f + 1) Sample.commonTwoMounted =
        none := by
      unfold CommonImage.Release
      have h0 : (if Sample.commonTwoMounted.img.localmount ≠ "" then
          (Sample.hostTracksMounts.detach Sample.commonTwoMounted.img.localmount,
            { Sample.commonTwoMounted with
              detached := Sample.commonTwoMounted.detached ++
                [Sample.commonTwoMounted.img.localmount] })
          else (none, Sample.commonTwoMounted)) = (none, Sample.commonTwoMounted) := by
        decide
      simp only [h0]
      have h1 : decU8 Sample.commonTwoMounted.img.loopDevice.amountOfMappers = 1 := by decide
      rw [h1, hstep, hspin]
    rw [hrel] at h
    exact absurd h (by decide)

/-- C28 (the code at the failing input): a parsed configuration with one
topology.  Index 0 gives that topology; index 1, for which the configuration
holds no topology, faults on the index expression instead of returning the
error `no topology found for type 1`. -/
theorem type_to_topology_faults_out_of_range :
    CommonImage.TypeToTopology Sample.onePlatform 0 =
      Res.ok { Name := "Test", TypeName := "1", HddSizeGb := 5, Bootable := true,
               FdiskCmd := "", Description := "", Partitions := [] } ∧
    CommonImage.TypeToTopology Sample.onePlatform 1 = Res.fault ∧
    CommonImage.TypeToTopology Sample.onePlatform 1 ≠
      Res.error ("no topology found for type " ++ fmtD 1) := by
  refine ⟨by decide, by decide, by decide⟩

end CommonRelease

/-! ## The index of the unmount loop -/

section IndexRange

open BuilderImage

/-- The chain of commands after the unmount loop never faults. -/
theorem runAll_no_fault (env : Env) :
    ∀ (cmds : List String) (s : St), (runAll env cmds s).1 ≠ Res.fault := by
  intro cmds
  induction cmds with
  | nil => intro s; simp [runAll]
  | cons c rest ih =>
    intro s
    unfold runAll
    dsimp only
    split
    · simp
    · exact ih _

/-- The unmount loop keeps `index` one below the counter (in 8 bits), so
that while the counter is at most the length of the registry no access is out
of range. -/
theorem unmountLoop_no_fault (env : Env) :
    ∀ (fuel : Nat) (s : St) (r : Res Unit × St),
      s.img.loopDevice.amountOfMappers ≤ s.img.loopDevice.mappers.length →
      s.img.loopDevice.mappers.length ≤ 255 →
      unmountLoop env fuel (decU8 s.img.loopDevice.amountOfMappers) s = some r →
      r.1 ≠ Res.fault := by
  intro fuel
  induction fuel with
  | zero => intro s r _ _ h; simp [unmountLoop] at h
  | succ f ih =>
    intro s r hle h255 h
    unfold unmountLoop at h
    by_cases hc : s.img.loopDevice.amountOfMappers = 0
    · rw [if_neg (by simpa using hc)] at h
      cases h
      simp
    · rw [if_pos hc] at h
      have hidx : decU8 s.img.loopDevice.amountOfMappers <
          s.img.loopDevice.mappers.length := by
        unfold decU8; omega
      have hget : s.img.loopDevice.mappers[decU8 s.img.loopDevice.amountOfMappers]? =
          some (s.img.loopDevice.mappers.get ⟨decU8 s.img.loopDevice.amountOfMappers, hidx⟩) :=
        List.getElem?_eq_getElem hidx
      rw [hget] at h
      dsimp only at h
      split at h
      · split at h
        · cases h; simp
        · refine ih (setAmount (exec env s _).2
            (decU8 (exec env s _).2.img.loopDevice.amountOfMappers)) r ?_ ?_ h
          · show decU8 s.img.loopDevice.amountOfMappers ≤ s.img.loopDevice.mappers.length
            exact Nat.le_of_lt hidx
          · exact h255
      · exact ih s r hle h255 h

/-- C30: when on entry the counter of active mappers equals the length of the
registry and is at most 255, `Cleanup` never faults on a registry access,
whatever the host answers and however long the loop runs; with an empty
registry the 8-bit index starts at 255 and the loop returns at once without
touching the registry. -/
theorem cleanup_index_in_range (env : Env) (s : St)
    (hlen : s.img.loopDevice.amountOfMappers = s.img.loopDevice.mappers.length)
    (h255 : s.img.loopDevice.mappers.length ≤ 255) :
    (∀ (fuel : Nat) (r : Res Unit × St), Cleanup env fuel s = some r → r.1 ≠ Res.fault) ∧
    (s.img.loopDevice.mappers = [] →
      decU8 s.img.loopDevice.amountOfMappers = 255 ∧
      ∀ fuel : Nat,
        unmountLoop env (fuel + 1) (decU8 s.img.loopDevice.amountOfMappers) s =
          some (Res.ok (), s)) := by
  refine ⟨?_, ?_⟩
  · intro fuel r h
    unfold Cleanup at h
    by_cases hl : s.img.localmount = ""
    · simp only [hl, ne_eq, not_true_eq_false, if_false] at h
      cases hloop : unmountLoop env fuel (decU8 s.img.loopDevice.amountOfMappers) s with
      | none => rw [hloop] at h; simp at h
      | some x =>
        have hx := unmountLoop_no_fault env fuel s x (Nat.le_of_eq hlen) h255 hloop
        rw [hloop] at h
        obtain ⟨x1, x2⟩ := x
        cases x1 with
        | ok u => simp only [Option.some.injEq] at h; rw [← h]; exact runAll_no_fault env _ _
        | error e => simp only [Option.some.injEq] at h; rw [← h]; simp
        | fault => exact absurd rfl hx
    · simp only [ne_eq, hl, not_false_eq_true, if_true] at h
      cases hd : env.detach s.img.localmount with
      | some e => rw [hd] at h; simp only [Option.some.injEq] at h; rw [← h]; simp
      | none =>
        rw [hd] at h
        dsimp only at h
        cases hloop : unmountLoop env fuel (decU8 s.img.loopDevice.amountOfMappers)
            { s with detached := s.detached ++ [s.img.localmount] } with
        | none => rw [hloop] at h; simp at h
        | some x =>
          have hx := unmountLoop_no_fault env fuel
            { s with detached := s.detached ++ [s.img.localmount] } x
            (Nat.le_of_eq hlen) h255 hloop
          rw [hloop] at h
          obtain ⟨x1, x2⟩ := x
          cases x1 with
          | ok u => simp only [Option.some.injEq] at h; rw [← h]; exact runAll_no_fault env _ _
          | error e => simp only [Option.some.injEq] at h; rw [← h]; simp
          | fault => exact absurd rfl hx
  · intro hnil
    have h0 : s.img.loopDevice.amountOfMappers = 0 := by rw [hlen, hnil]; rfl
    refine ⟨by rw [h0]; rfl, ?_⟩
    intro fuel
    unfold unmountLoop
    rw [if_neg (by simpa using h0)]

/-- Witness of C30: a registry of two entries and a counter of 2, on which
`Cleanup` returns. -/
theorem cleanup_index_in_range_witness :
    (Sample.engineWith [⟨"/dev/mapper/loop0p2", "/mnt/rootfs/boot"⟩,
        ⟨"/dev/mapper/loop0p3", "/mnt/rootfs/data"⟩]).img.loopDevice.amountOfMappers =
      (Sample.engineWith [⟨"/dev/mapper/loop0p2", "/mnt/rootfs/boot"⟩,
        ⟨"/dev/mapper/loop0p3", "/mnt/rootfs/data"⟩]).img.loopDevice.mappers.length ∧
    (Cleanup (Sample.hostOk "") 10
      (Sample.engineWith [⟨"/dev/mapper/loop0p2", "/mnt/rootfs/boot"⟩,
        ⟨"/dev/mapper/loop0p3", "/mnt/rootfs/data"⟩])).isSome = true ∧
    ∀ r : Res Unit × St,
      Cleanup (Sample.hostOk "") 10
        (Sample.engineWith [⟨"/dev/mapper/loop0p2", "/mnt/rootfs/boot"⟩,
          ⟨"/dev/mapper/loop0p3", "/mnt/rootfs/data"⟩]) = some r → r.1 ≠ Res.fault :=
  ⟨by decide, by decide,
   (cleanup_index_in_range (Sample.hostOk "")
    (Sample.engineWith [⟨"/dev/mapper/loop0p2", "/mnt/rootfs/boot"⟩,
      ⟨"/dev/mapper/loop0p3", "/mnt/rootfs/data"⟩]) (by decide) (by decide)).1 10⟩

end IndexRange

end Deployer
